import Mathlib

/-!
NAND flash driver (dev/nand/nand.c, dev/nand/s3c24x0_nand.c).

A shallow embedding of the chip protocol engine of the driver and of the ECC
correction routine of the S3C24x0 backend, followed by theorems about them.

Conventions of the embedding.

* C integers are natural numbers (bytes are naturals below 256); the residual
  count of a request, which the code decrements, and error codes are integers.
  Offsets, counts and geometry values are taken to fit their C types. The
  geometry fields of the device are declared in nandvar.h, which is not
  available; they are taken to be of type u_int (32 bits), the type of the loop
  counters they are compared with. A product of geometry values is therefore
  reduced modulo 2^32 after each multiplication (as the 32 bit block size of the
  delete path is), and a value handed to g_handleattr_int, whose parameter is a
  C int, is converted to 32 bits two's complement (c_int).
* The hardware is an abstract state of type σ. The bus and ECC operations, which
  nand.c reaches through the macros of nandvar.h (that header is not available),
  are parameters: a record of functions on the hardware state.
* A pointer to a buffer is a list of bytes (or none for NULL) together with an
  offset. Stores past the end of a list are dropped and loads past the end give
  0; accesses through NULL are outside the model.
* The lifecycle functions thread the kernel state: the unit counter and the list
  of resource calls (malloc, free, disk_create, disk_destroy) made so far.
* A function that contains the unbounded status poll takes a fuel argument that
  bounds the number of poll iterations and returns none when the fuel runs
  out. A division by zero also gives none.
-/

namespace Nand

/-! ## Constants of the system headers (errno.h, bio.h, geom_disk.h) -/

def EIO : Int := 5
def ENODEV : Int := 19
def ENOTSUP : Int := 45
def EDOOFUS : Int := 88
def ENOIOCTL : Int := -3
def BIO_ERROR : Nat := 1
/-- Constants of nandreg.h. The header is not available, so the command codes,
the identification address, the status masks and the chip identifiers are
parameters. -/
structure nandreg where
  NAND_CMD_READ : Nat
  NAND_CMD_READ_START : Nat
  NAND_CMD_PROGRAM : Nat
  NAND_CMD_PROGRAM_END : Nat
  NAND_CMD_ERASE : Nat
  NAND_CMD_READ_STATUS : Nat
  NAND_CMD_READID : Nat
  NAND_CMD_RESET : Nat
  NAND_READID_MANFID : Nat
  NAND_STATUS_RDY : Nat
  NAND_STATUS_FAIL : Nat
  NAND_MANF_SAMSUNG : Nat
  NAND_DEV_SAMSUNG_256MB : Nat
  NAND_DEV_SAMSUNG_64MB : Nat
  NAND_DEV_SAMSUNG_32MB : Nat

/-- Bus and ECC operations as nand.c invokes them (the macros nand_wait_select,
nand_command, nand_address, nand_read, nand_read_8, nand_write, nand_wait_rnb,
nand_init_ecc, nand_calc_ecc and nand_fix_data of nandvar.h). Each one maps a
hardware state to an error code, the bytes it produces, and the next state. -/
structure nand_driver (σ : Type) where
  nand_wait_select : Bool → σ → Int × σ
  nand_command : Nat → σ → Int × σ
  nand_address : Nat → σ → Int × σ
  nand_read : Nat → σ → Int × List Nat × σ
  nand_read_8 : σ → Int × Nat × σ
  nand_write : Nat → List Nat → σ → Int × σ
  nand_wait_rnb : σ → Int × σ
  nand_init_ecc : σ → Int × σ
  nand_calc_ecc : σ → Int × List Nat × σ
  nand_fix_data : Nat → List Nat → List Nat → List Nat → σ → Int × List Nat × σ

/-- Which entries of the function table struct nand_driver (the table that
ndev_driver points to) are not NULL. -/
structure nand_driver_caps where
  ndri_select : Bool
  ndri_command : Bool
  ndri_address : Bool
  ndri_read : Bool
  ndri_read_8 : Bool
  ndri_write : Bool
  ndri_read_rnb : Bool
  ndri_init_ecc : Bool
  ndri_calc_ecc : Bool
  ndri_fix_data : Bool
deriving DecidableEq, Repr

/-- Fields of struct nand_device_info, in the order of the initialisers of
nand_chips. -/
structure nand_device_info where
  ndi_manf_id : Nat
  ndi_dev_id : Nat
  ndi_spare_size : Nat
  ndi_page_size : Nat
  ndi_page_cnt : Nat
  ndi_block_cnt : Nat
  ndi_lun_cnt : Nat
  ndi_cell_size : Nat
  ndi_column_cycles : Nat
  ndi_row_cycles : Nat
  ndi_read_start : Nat
  ndi_name : Option String
deriving DecidableEq, Repr

/-- Fields of struct nand_ecc_data. -/
structure nand_ecc_data where
  ecc_size : Nat
  ecc_stride : Nat
  ecc_protect : Nat
  ecc_pos : List Nat
deriving DecidableEq, Repr

/-- The part of struct nand_device that nand.c reads and writes, together with
the state of the hardware behind its driver. -/
structure nand_device (σ : Type) where
  ndev_info : nand_device_info
  ndev_ecc : Option nand_ecc_data
  ndev_oob : Option (List Nat)
  ndev_calc_ecc : Option (List Nat)
  ndev_read_ecc : Option (List Nat)
  hw : σ
deriving DecidableEq, Repr

/-- Values of bio_cmd. -/
inductive bio_cmd_t where
  | BIO_READ
  | BIO_WRITE
  | BIO_DELETE
  | BIO_GETATTR
  | BIO_OTHER (code : Nat)
deriving DecidableEq, Repr

/-- The fields of struct bio that nand_strategy uses. The field bio_attr_val is
the integer that g_handleattr_int hands back, bio_done counts completions. -/
structure bio where
  bio_cmd : bio_cmd_t
  bio_offset : Nat
  bio_bcount : Nat
  bio_data : List Nat
  bio_attribute : String
  bio_resid : Int
  bio_error : Int
  bio_flags : Nat
  bio_attr_val : Option Int
  bio_done : Nat
deriving DecidableEq, Repr

/-- The fields of struct disk that nand_attach fills in (d_strategy and d_drv1,
a function pointer and a back pointer, are left out). In geom_disk.h d_sectorsize
and d_maxsize are of type u_int and d_mediasize is of type off_t (64 bits), which
holds every u_int value unchanged. -/
structure disk where
  d_name : String
  d_unit : Nat
  d_flags : Nat
  d_sectorsize : Nat
  d_maxsize : Nat
  d_mediasize : Nat
deriving DecidableEq, Repr

/-- A device together with its disk handle: the field ndev_disk of struct
nand_device, which only nand_attach and nand_detach touch, is kept next to the
record of the other fields (none is NULL). -/
structure nand_softc (σ : Type) where
  ndev : nand_device σ
  ndev_disk : Option disk
deriving DecidableEq, Repr

/-- A call into the kernel that creates or releases a resource. -/
inductive kern_op where
  | malloc (size : Nat)
  | free (buf : List Nat)
  | disk_create (d : disk)
  | disk_destroy (d : disk)
deriving DecidableEq, Repr

/-- The state of the kernel that the lifecycle functions touch: the global
next_unit of nand.c and the resource calls made so far, in order. -/
structure kernel where
  next_unit : Nat
  log : List kern_op
deriving DecidableEq, Repr

/-! ## Buffers -/

/-- Store the bytes xs into buf from position pos on, as a bulk transfer into
the memory at buf + pos does. -/
def blit : List Nat → Nat → List Nat → List Nat
  | [], _, _ => []
  | b :: bs, 0, [] => b :: bs
  | _ :: bs, 0, x :: xs => x :: blit bs 0 xs
  | b :: bs, p + 1, xs => b :: blit bs p xs

/-- The len bytes of buf from position pos on. -/
def slice (buf : List Nat) (pos len : Nat) : List Nat :=
  (buf.drop pos).take len

/-- Load of buf[i] through a possibly NULL pointer. -/
def buf_get (buf : Option (List Nat)) (i : Nat) : Nat :=
  (buf.getD []).getD i 0

/-- Store buf[i] = v through a possibly NULL pointer. -/
def buf_set (buf : Option (List Nat)) (i v : Nat) : Option (List Nat) :=
  buf.map (fun l => l.set i v)

/-! ## nand.c -/

section Code

variable {σ : Type}

/-- The column loop of nand_write_address: n address cycles of value 0. -/
def nand_write_address_col (drv : nand_driver σ) : Nat → σ → σ
  | 0, hw => hw
  | n + 1, hw => nand_write_address_col drv n (drv.nand_address 0x00 hw).2

/-- The row loop of nand_write_address: n address cycles, each the low byte of
page, which is then shifted right by 8. -/
def nand_write_address_row (drv : nand_driver σ) : Nat → Nat → σ → σ
  | 0, _, hw => hw
  | n + 1, page, hw =>
    nand_write_address_row drv n (page >>> 8) (drv.nand_address (page &&& 0xFF) hw).2

/-- Writes the address to read/write to the bus. -/
def nand_write_address (drv : nand_driver σ) (info : nand_device_info) (page : Nat)
    (with_column : Bool) (hw : σ) : σ :=
  let hw1 := if with_column then nand_write_address_col drv info.ndi_column_cycles hw else hw
  nand_write_address_row drv info.ndi_row_cycles page hw1

/-- The while loop of nand_wait_status; fuel bounds the number of iterations. -/
def nand_wait_status_loop (drv : nand_driver σ) (reg : nandreg) :
    Nat → Nat → σ → Option (Nat × σ)
  | 0, status, hw =>
    if status &&& reg.NAND_STATUS_RDY = 0 then none else some (status, hw)
  | fuel + 1, status, hw =>
    if status &&& reg.NAND_STATUS_RDY = 0 then
      let hw1 := (drv.nand_command reg.NAND_CMD_READ_STATUS hw).2
      let r := drv.nand_read_8 hw1
      nand_wait_status_loop drv reg fuel r.2.1 r.2.2
    else some (status, hw)

/-- Polls the status register until the ready bit is set; returns the status. -/
def nand_wait_status (drv : nand_driver σ) (reg : nandreg) (fuel : Nat) (hw : σ) :
    Option (Nat × σ) :=
  let hw1 := (drv.nand_command reg.NAND_CMD_READ_STATUS hw).2
  let r := drv.nand_read_8 hw1
  nand_wait_status_loop drv reg fuel r.2.1 r.2.2

/-- The first loop of nand_rw_data (Read each ECC block). The page buffer is
data from offset base on, calc_ecc is the buffer ndev_calc_ecc. -/
def nand_rw_xfer (drv : nand_driver σ) (read : Bool) (page_size base ecc_stride : Nat)
    (pos ecc_pos len : Nat) (hw : σ) (calc_ecc : Option (List Nat)) (data : List Nat) :
    σ × Option (List Nat) × List Nat :=
  if pos < page_size then
    let hw1 := (drv.nand_init_ecc hw).2
    let len1 := if len < page_size - pos then page_size - pos else len
    let rd := drv.nand_read len1 hw1
    let hw2 := if read then rd.2.2 else (drv.nand_write len1 (slice data (base + pos) len1) hw1).2
    let data2 := if read then blit data (base + pos) rd.2.1 else data
    let ce := drv.nand_calc_ecc hw2
    let hw3 := if calc_ecc.isSome then ce.2.2 else hw2
    let calc3 := calc_ecc.map (fun c => blit c ecc_pos ce.2.1)
    nand_rw_xfer drv read page_size base ecc_stride (pos + len1) (ecc_pos + ecc_stride) len1
      hw3 calc3 data2
  else (hw, calc_ecc, data)
termination_by page_size - pos
decreasing_by
  simp_wf
  split <;> omega

/-- The loop of nand_rw_data that copies the ECC bytes between the OOB buffer
and the ECC buffers; n is the number of iterations left. -/
def nand_rw_ecc_copy (read : Bool) (e : nand_ecc_data) :
    Nat → Nat → nand_device σ → nand_device σ
  | 0, _, ndev => ndev
  | n + 1, ecc_pos, ndev =>
    let ecc_off := e.ecc_pos.getD ecc_pos 0
    let ndev1 : nand_device σ :=
      if read then
        { ndev with ndev_read_ecc := buf_set ndev.ndev_read_ecc ecc_pos (buf_get ndev.ndev_oob ecc_off) }
      else
        { ndev with ndev_oob := buf_set ndev.ndev_oob ecc_off (buf_get ndev.ndev_calc_ecc ecc_pos) }
    nand_rw_ecc_copy read e n (ecc_pos + 1) ndev1

/-- The block of nand_rw_data that copies the ECC to the relevant positions in
the OOB (or back); it runs when ndev_calc_ecc is not NULL and reads the ECC
descriptor. -/
def nand_rw_ecc (read : Bool) (ndev : nand_device σ) : nand_device σ :=
  match ndev.ndev_calc_ecc, ndev.ndev_ecc with
  | some _, some e => nand_rw_ecc_copy read e e.ecc_size 0 ndev
  | _, _ => ndev

/-- The correction loop of nand_rw_data: stops at the first non-zero result of
nand_fix_data. -/
def nand_rw_fix (drv : nand_driver σ) (page_size base ecc_stride : Nat)
    (calc_ecc read_ecc : List Nat) (pos ecc_pos len : Nat) (hw : σ) (data : List Nat) :
    Int × σ × List Nat :=
  if pos < page_size then
    let len1 := if len < page_size - pos then page_size - pos else len
    let r := drv.nand_fix_data len1 (slice data (base + pos) len1) (calc_ecc.drop ecc_pos)
      (read_ecc.drop ecc_pos) hw
    let data1 := blit data (base + pos) r.2.1
    if r.1 ≠ 0 then (r.1, r.2.2, data1)
    else nand_rw_fix drv page_size base ecc_stride calc_ecc read_ecc (pos + len1)
      (ecc_pos + ecc_stride) len1 r.2.2 data1
  else (0, hw, data)
termination_by page_size - pos
decreasing_by
  simp_wf
  split <;> omega

/-- Transfers one page between the buffer (data from offset base on) and the
chip, with the ECC and OOB handling. -/
def nand_rw_data (drv : nand_driver σ) (ndev : nand_device σ) (data : List Nat) (base : Nat)
    (read : Bool) : Int × nand_device σ × List Nat :=
  let page_size := ndev.ndev_info.ndi_page_size
  let stride :=
    match ndev.ndev_ecc with
    | some e => if page_size > e.ecc_protect then e.ecc_protect else page_size
    | none => page_size
  let ecc_stride :=
    match ndev.ndev_ecc with
    | some e => e.ecc_stride
    | none => 0
  let x := nand_rw_xfer drv read page_size base ecc_stride 0 0 stride ndev.hw
    ndev.ndev_calc_ecc data
  let ndev1 : nand_device σ := { ndev with hw := x.1, ndev_calc_ecc := x.2.1 }
  let data1 := x.2.2
  let rd := drv.nand_read ndev.ndev_info.ndi_spare_size ndev1.hw
  let blank := List.replicate ndev.ndev_info.ndi_spare_size 0xFF
  let ndev2 : nand_device σ :=
    if read then
      { ndev1 with hw := rd.2.2, ndev_oob := ndev1.ndev_oob.map (fun o => blit o 0 rd.2.1) }
    else { ndev1 with ndev_oob := ndev1.ndev_oob.map (fun o => blit o 0 blank) }
  let ndev3 := nand_rw_ecc read ndev2
  let f := nand_rw_fix drv page_size base ecc_stride (ndev3.ndev_calc_ecc.getD [])
    (ndev3.ndev_read_ecc.getD []) 0 0 stride ndev3.hw data1
  if ndev3.ndev_calc_ecc.isSome && read then
    if f.1 ≠ 0 then (f.1, { ndev3 with hw := f.2.1 }, f.2.2)
    else (0, { ndev3 with hw := f.2.1 }, f.2.2)
  else if read then (0, ndev3, data1)
  else
    let w := drv.nand_write ndev.ndev_info.ndi_spare_size
      (slice (ndev3.ndev_oob.getD []) 0 ndev.ndev_info.ndi_spare_size) ndev3.hw
    (0, { ndev3 with hw := w.2 }, data1)

/-- Reads the data including spare from the NAND flash. -/
def nand_read_data (drv : nand_driver σ) (reg : nandreg) (ndev : nand_device σ) (page : Nat)
    (data : List Nat) (base : Nat) : Int × nand_device σ × List Nat :=
  let hw1 := (drv.nand_command reg.NAND_CMD_READ ndev.hw).2
  let hw2 := nand_write_address drv ndev.ndev_info page true hw1
  let hw3 :=
    if ndev.ndev_info.ndi_read_start ≠ 0 then (drv.nand_command reg.NAND_CMD_READ_START hw2).2
    else hw2
  let hw4 := (drv.nand_wait_rnb hw3).2
  nand_rw_data drv { ndev with hw := hw4 } data base true

/-- Writes data to the disk including the spare area after the sector. -/
def nand_write_data (drv : nand_driver σ) (reg : nandreg) (fuel : Nat) (ndev : nand_device σ)
    (page : Nat) (data : List Nat) (base : Nat) : Option (Int × nand_device σ × List Nat) :=
  let hw1 := (drv.nand_command reg.NAND_CMD_PROGRAM ndev.hw).2
  let hw2 := nand_write_address drv ndev.ndev_info page true hw1
  let r := nand_rw_data drv { ndev with hw := hw2 } data base false
  let hw3 := (drv.nand_command reg.NAND_CMD_PROGRAM_END r.2.1.hw).2
  match nand_wait_status drv reg fuel hw3 with
  | none => none
  | some (status, hw4) =>
    if status &&& reg.NAND_STATUS_FAIL = reg.NAND_STATUS_FAIL then
      some ( EIO, { r.2.1 with hw := hw4 }, r.2.2)
    else some (0, { r.2.1 with hw := hw4 }, r.2.2)

/-- Erases one block. -/
def nand_erase_data (drv : nand_driver σ) (reg : nandreg) (fuel : Nat) (ndev : nand_device σ)
    (block : Nat) : Option (Int × nand_device σ) :=
  let hw1 := (drv.nand_command reg.NAND_CMD_ERASE ndev.hw).2
  let hw2 := nand_write_address drv ndev.ndev_info block false hw1
  let hw3 := (drv.nand_command reg.NAND_CMD_PROGRAM_END hw2).2
  match nand_wait_status drv reg fuel hw3 with
  | none => none
  | some (status, hw4) =>
    if status &&& reg.NAND_STATUS_FAIL = reg.NAND_STATUS_FAIL then
      some ( EIO, { ndev with hw := hw4 })
    else some (0, { ndev with hw := hw4 })

/-- The product of two values of type u_int: C unsigned arithmetic is modulo
2^32. -/
def u_int_mul (a b : Nat) : Nat :=
  (a * b) % 2 ^ 32

/-- The conversion of an unsigned value to the type int (32 bits, two's
complement), which an argument undergoes when the parameter is of type int: the
value modulo 2^32, less 2^32 when that is 2^31 or more. -/
def c_int (n : Nat) : Int :=
  if n % 2 ^ 32 < 2 ^ 31 then ((n % 2 ^ 32 : Nat) : Int)
  else ((n % 2 ^ 32 : Nat) : Int) - 2 ^ 32

/-- The function g_handleattr_int of the GEOM framework, which is outside the
driver: when the attribute of the request is the given name it stores the value,
a C int, in the request, delivers the request and returns true; otherwise it
returns false and leaves the request alone. -/
def g_handleattr_int (bp : bio) (name : String) (val : Int) : Bool × bio :=
  if bp.bio_attribute = name then
    (true, { bp with bio_attr_val := some val, bio_done := bp.bio_done + 1 })
  else (false, bp)

/-- The function biodone of the kernel: completes the request. -/
def biodone (bp : bio) : bio :=
  { bp with bio_done := bp.bio_done + 1 }

/-- The page loop of nand_strategy (BIO_READ and BIO_WRITE); data is the offset
of the data pointer in bio_data. -/
def nand_strategy_rw (drv : nand_driver σ) (reg : nandreg) (fuel : Nat) :
    Nat → Nat → Nat → bio → nand_device σ → Option (bio × nand_device σ)
  | 0, _, _, bp, ndev => some (bp, ndev)
  | page_cnt + 1, page, data, bp, ndev =>
    let r :=
      if bp.bio_cmd = bio_cmd_t.BIO_READ then
        some (nand_read_data drv reg ndev page bp.bio_data data)
      else nand_write_data drv reg fuel ndev page bp.bio_data data
    match r with
    | none => none
    | some (err, ndev1, buf) =>
      if err ≠ 0 then
        some ({ bp with bio_data := buf, bio_error := err,
                        bio_flags := bp.bio_flags ||| BIO_ERROR }, ndev1)
      else
        nand_strategy_rw drv reg fuel page_cnt (page + 1)
          (data + ndev.ndev_info.ndi_page_size)
          { bp with bio_data := buf, bio_resid := bp.bio_resid - ndev.ndev_info.ndi_page_size }
          ndev1

/-- The block loop of nand_strategy (BIO_DELETE). -/
def nand_strategy_erase (drv : nand_driver σ) (reg : nandreg) (fuel : Nat)
    (block_size : Nat) : Nat → Nat → bio → nand_device σ → Option (bio × nand_device σ)
  | 0, _, bp, ndev => some (bp, ndev)
  | blk_cnt + 1, block, bp, ndev =>
    match nand_erase_data drv reg fuel ndev block with
    | none => none
    | some (err, ndev1) =>
      if err ≠ 0 then
        some ({ bp with bio_error := err, bio_flags := bp.bio_flags ||| BIO_ERROR }, ndev1)
      else
        nand_strategy_erase drv reg fuel block_size blk_cnt (block + 1)
          { bp with bio_resid := bp.bio_resid - block_size } ndev1

/-- The request dispatcher. The result is the completed request and the device;
none when the call does not return (status poll out of fuel, division by 0). -/
def nand_strategy (drv : nand_driver σ) (reg : nandreg) (fuel : Nat) (bp0 : bio)
    (ndev : nand_device σ) : Option (bio × nand_device σ) :=
  let bp : bio := { bp0 with bio_resid := bp0.bio_bcount }
  let fail : bio := { bp with bio_error := ENOTSUP, bio_flags := bp.bio_flags ||| BIO_ERROR }
  match bp.bio_cmd with
  | bio_cmd_t.BIO_READ | bio_cmd_t.BIO_WRITE =>
    if ndev.ndev_info.ndi_page_size = 0 then none
    else
      let page := bp.bio_offset / ndev.ndev_info.ndi_page_size
      let page_cnt := bp.bio_bcount / ndev.ndev_info.ndi_page_size
      let ndev1 : nand_device σ := { ndev with hw := (drv.nand_wait_select true ndev.hw).2 }
      match nand_strategy_rw drv reg fuel page_cnt page 0 bp ndev1 with
      | none => none
      | some (bp1, ndev2) =>
        some (biodone bp1, { ndev2 with hw := (drv.nand_wait_select false ndev2.hw).2 })
  | bio_cmd_t.BIO_DELETE =>
    let block_size := (ndev.ndev_info.ndi_page_cnt * ndev.ndev_info.ndi_page_size) % 2 ^ 32
    if block_size = 0 then none
    else
      let block := bp.bio_offset / block_size
      let blk_cnt := bp.bio_bcount / block_size
      if block % block_size ≠ 0 ∨ bp.bio_bcount % block_size ≠ 0 then
        some (biodone fail, ndev)
      else
        let ndev1 : nand_device σ := { ndev with hw := (drv.nand_wait_select true ndev.hw).2 }
        match nand_strategy_erase drv reg fuel block_size blk_cnt block bp ndev1 with
        | none => none
        | some (bp1, ndev2) =>
          some (biodone bp1, { ndev2 with hw := (drv.nand_wait_select false ndev2.hw).2 })
  | bio_cmd_t.BIO_GETATTR =>
    let r1 := g_handleattr_int bp "NAND::luncount" (c_int ndev.ndev_info.ndi_lun_cnt)
    if r1.1 then some (r1.2, ndev)
    else
    let r2 := g_handleattr_int r1.2 "NAND::blocksize"
      (c_int (u_int_mul ndev.ndev_info.ndi_page_size ndev.ndev_info.ndi_page_cnt))
    if r2.1 then some (r2.2, ndev)
    else
    let r3 := g_handleattr_int r2.2 "NAND::blockcount" (c_int ndev.ndev_info.ndi_block_cnt)
    if r3.1 then some (r3.2, ndev)
    else
    let r4 := g_handleattr_int r3.2 "NAND::pagesize" (c_int ndev.ndev_info.ndi_page_size)
    if r4.1 then some (r4.2, ndev)
    else
    let r5 := g_handleattr_int r4.2 "NAND::pagecount" (c_int ndev.ndev_info.ndi_page_size)
    if r5.1 then some (r5.2, ndev)
    else
    let r6 := g_handleattr_int r5.2 "NAND::oobsize" (c_int ndev.ndev_info.ndi_spare_size)
    if r6.1 then some (r6.2, ndev)
    else
    let r7 := g_handleattr_int r6.2 "NAND::cellsize" (c_int ndev.ndev_info.ndi_cell_size)
    if r7.1 then some (r7.2, ndev)
    else
    let bp8 : bio :=
      { r7.2 with bio_error := ENOIOCTL, bio_flags := r7.2.bio_flags ||| BIO_ERROR }
    some (biodone { bp8 with bio_error := ENOTSUP, bio_flags := bp8.bio_flags ||| BIO_ERROR },
      ndev)
  | bio_cmd_t.BIO_OTHER _ => some (biodone fail, ndev)

/-- The table nand_chips, with its terminating entry (ndi_name = NULL, all other
fields zero). -/
def nand_chips (reg : nandreg) : List nand_device_info :=
  [ { ndi_manf_id := reg.NAND_MANF_SAMSUNG, ndi_dev_id := reg.NAND_DEV_SAMSUNG_256MB,
      ndi_spare_size := 64, ndi_page_size := 2048, ndi_page_cnt := 64, ndi_block_cnt := 2048,
      ndi_lun_cnt := 1, ndi_cell_size := 8, ndi_column_cycles := 2, ndi_row_cycles := 3,
      ndi_read_start := 1, ndi_name := some "Samsung 256MiB 8bit Nand Flash" },
    { ndi_manf_id := reg.NAND_MANF_SAMSUNG, ndi_dev_id := reg.NAND_DEV_SAMSUNG_64MB,
      ndi_spare_size := 16, ndi_page_size := 512, ndi_page_cnt := 32, ndi_block_cnt := 4096,
      ndi_lun_cnt := 1, ndi_cell_size := 8, ndi_column_cycles := 1, ndi_row_cycles := 3,
      ndi_read_start := 0, ndi_name := some "Samsung 64MiB 8bit Nand Flash" },
    { ndi_manf_id := reg.NAND_MANF_SAMSUNG, ndi_dev_id := reg.NAND_DEV_SAMSUNG_32MB,
      ndi_spare_size := 16, ndi_page_size := 512, ndi_page_cnt := 32, ndi_block_cnt := 2048,
      ndi_lun_cnt := 1, ndi_cell_size := 8, ndi_column_cycles := 1, ndi_row_cycles := 2,
      ndi_read_start := 0, ndi_name := some "Samsung 32MiB 8bit Nand Flash" },
    { ndi_manf_id := 0, ndi_dev_id := 0, ndi_spare_size := 0, ndi_page_size := 0,
      ndi_page_cnt := 0, ndi_block_cnt := 0, ndi_lun_cnt := 0, ndi_cell_size := 0,
      ndi_column_cycles := 0, ndi_row_cycles := 0, ndi_read_start := 0, ndi_name := none } ]

/-- Reads the device ID into the softc. The fields ndev_manf_id and ndev_dev_id
are the identifiers inside ndev_info, like the other ndev_ geometry names. -/
def nand_readid (drv : nand_driver σ) (reg : nandreg) (ndev : nand_device σ) :
    Int × nand_device σ :=
  let hw1 := (drv.nand_wait_select true ndev.hw).2
  let hw2 := (drv.nand_command reg.NAND_CMD_READID hw1).2
  let hw3 := (drv.nand_address reg.NAND_READID_MANFID hw2).2
  let r1 := drv.nand_read_8 hw3
  let r2 := drv.nand_read_8 r1.2.2
  let hw6 := (drv.nand_wait_select false r2.2.2).2
  (0, { ndev with
        ndev_info := { ndev.ndev_info with ndi_manf_id := r1.2.1, ndi_dev_id := r2.2.1 },
        hw := hw6 })

/-- The scan of nand_probe over the chip table (Find if we know about this part):
the entry the loop stops at when it matches, none when the loop reaches the
terminating entry. -/
def nand_probe_scan (manf_id dev_id : Nat) : List nand_device_info → Option nand_device_info
  | [] => none
  | chip :: chips =>
    if chip.ndi_name = none then none
    else if chip.ndi_manf_id = manf_id ∧ chip.ndi_dev_id = dev_id then some chip
    else nand_probe_scan manf_id dev_id chips

/-- Identification over a given chip table. -/
def nand_probe_in (chips : List nand_device_info) (caps : nand_driver_caps)
    (drv : nand_driver σ) (reg : nandreg) (ndev : nand_device σ) : Int × nand_device σ :=
  if caps.ndri_command = false ∨ caps.ndri_address = false ∨ caps.ndri_read = false
      ∨ caps.ndri_read_8 = false ∨ caps.ndri_write = false then
    ( EDOOFUS, ndev)
  else
    let ndev1 : nand_device σ :=
      { ndev with ndev_info := { ndev.ndev_info with ndi_cell_size := 8 } }
    let c := drv.nand_command reg.NAND_CMD_RESET ndev1.hw
    let ndev2 : nand_device σ := { ndev1 with hw := (drv.nand_wait_rnb c.2).2 }
    if c.1 ≠ 0 then ( EIO, ndev2)
    else
      let r := nand_readid drv reg ndev2
      if r.1 ≠ 0 then ( EIO, r.2)
      else
        match nand_probe_scan r.2.ndev_info.ndi_manf_id r.2.ndev_info.ndi_dev_id chips with
        | some chip => (0, { r.2 with ndev_info := chip })
        | none => (ENODEV, r.2)

/-- Identification: nand_probe, which scans the table nand_chips. -/
def nand_probe (caps : nand_driver_caps) (drv : nand_driver σ) (reg : nandreg)
    (ndev : nand_device σ) : Int × nand_device σ :=
  nand_probe_in (nand_chips reg) caps drv reg ndev

/-- The function free of the kernel; free of NULL does nothing. -/
def kern_free (buf : Option (List Nat)) (k : kernel) : kernel :=
  match buf with
  | some b => { k with log := k.log ++ [kern_op.free b] }
  | none => k

/-- Releases the disk and the scratch buffers of the device. -/
def nand_detach (k : kernel) (sc : nand_softc σ) : Int × kernel × nand_softc σ :=
  let k1 : kernel :=
    match sc.ndev_disk with
    | some d => { k with log := k.log ++ [kern_op.disk_destroy d] }
    | none => k
  let k2 := kern_free sc.ndev.ndev_oob k1
  let k3 := kern_free sc.ndev.ndev_calc_ecc k2
  let k4 := kern_free sc.ndev.ndev_read_ecc k3
  (0, k4,
    { ndev := { sc.ndev with ndev_oob := none, ndev_calc_ecc := none, ndev_read_ecc := none },
      ndev_disk := none })

end Code

/-! ## s3c24x0_nand.c -/

/-- The ECC descriptor of the S3C2410 controller. -/
def s3c2410_nand_ecc : nand_ecc_data :=
  { ecc_size := 3, ecc_stride := 3, ecc_protect := 512, ecc_pos := [0, 1, 2] }

/-- Compares the computed and the read ECC of a slice of data. The result is the
error code and the data, which the function never writes. -/
def s3c24x0_fix_data (_len : Nat) (data calc_ecc read_ecc : List Nat) : Int × List Nat :=
  let diff0 := calc_ecc.getD 0 0 ^^^ read_ecc.getD 0 0
  let diff1 := calc_ecc.getD 1 0 ^^^ read_ecc.getD 1 0
  let diff2 := calc_ecc.getD 2 0 ^^^ read_ecc.getD 2 0
  if diff0 = 0x00 ∧ diff1 = 0x00 ∧ diff2 = 0x00 then (0, data)
  else if read_ecc.getD 0 0 = 0xFF ∧ read_ecc.getD 1 0 = 0xFF ∧ read_ecc.getD 2 0 = 0xFF then
    (0, data)
  else ( EIO, data)

/-! ## Observation of the bus -/

/-- One operation on the bus or on the ECC backend. -/
inductive bus_op where
  | select (enable : Bool)
  | command (cmd : Nat)
  | address (addr : Nat)
  | read (len : Nat)
  | read_8
  | write (len : Nat) (bytes : List Nat)
  | wait_rnb
  | init_ecc
  | calc_ecc
  | fix_data (len : Nat)
deriving DecidableEq, Repr

/-- Whether a bus operation is a select (chip enable on or off). -/
def bus_op.is_select : bus_op → Bool
  | bus_op.select _ => true
  | _ => false

/-- A driver that behaves as drv and records every operation, in order, in a
trace kept next to the hardware state. -/
def traced {σ : Type} (drv : nand_driver σ) : nand_driver (List bus_op × σ) where
  nand_wait_select := fun en s =>
    ((drv.nand_wait_select en s.2).1, s.1 ++ [bus_op.select en], (drv.nand_wait_select en s.2).2)
  nand_command := fun c s =>
    ((drv.nand_command c s.2).1, s.1 ++ [bus_op.command c], (drv.nand_command c s.2).2)
  nand_address := fun a s =>
    ((drv.nand_address a s.2).1, s.1 ++ [bus_op.address a], (drv.nand_address a s.2).2)
  nand_read := fun len s =>
    ((drv.nand_read len s.2).1, (drv.nand_read len s.2).2.1,
      s.1 ++ [bus_op.read len], (drv.nand_read len s.2).2.2)
  nand_read_8 := fun s =>
    ((drv.nand_read_8 s.2).1, (drv.nand_read_8 s.2).2.1,
      s.1 ++ [bus_op.read_8], (drv.nand_read_8 s.2).2.2)
  nand_write := fun len bytes s =>
    ((drv.nand_write len bytes s.2).1, s.1 ++ [bus_op.write len bytes],
      (drv.nand_write len bytes s.2).2)
  nand_wait_rnb := fun s =>
    ((drv.nand_wait_rnb s.2).1, s.1 ++ [bus_op.wait_rnb], (drv.nand_wait_rnb s.2).2)
  nand_init_ecc := fun s =>
    ((drv.nand_init_ecc s.2).1, s.1 ++ [bus_op.init_ecc], (drv.nand_init_ecc s.2).2)
  nand_calc_ecc := fun s =>
    ((drv.nand_calc_ecc s.2).1, (drv.nand_calc_ecc s.2).2.1,
      s.1 ++ [bus_op.calc_ecc], (drv.nand_calc_ecc s.2).2.2)
  nand_fix_data := fun len data c r s =>
    ((drv.nand_fix_data len data c r s.2).1, (drv.nand_fix_data len data c r s.2).2.1,
      s.1 ++ [bus_op.fix_data len], (drv.nand_fix_data len data c r s.2).2.2)

/-! ## Sample environment for concrete runs -/

/-- Sample values for the constants of nandreg.h (the usual command set of
small NAND parts); used only to run the code on concrete inputs. -/
def sample_reg : nandreg :=
  { NAND_CMD_READ := 0x00, NAND_CMD_READ_START := 0x30, NAND_CMD_PROGRAM := 0x80,
    NAND_CMD_PROGRAM_END := 0x10, NAND_CMD_ERASE := 0x60, NAND_CMD_READ_STATUS := 0x70,
    NAND_CMD_READID := 0x90, NAND_CMD_RESET := 0xFF, NAND_READID_MANFID := 0x00,
    NAND_STATUS_RDY := 0x40, NAND_STATUS_FAIL := 0x01, NAND_MANF_SAMSUNG := 0xEC,
    NAND_DEV_SAMSUNG_256MB := 0xDA, NAND_DEV_SAMSUNG_64MB := 0x76,
    NAND_DEV_SAMSUNG_32MB := 0x75 }

/-- A scripted chip: the state is the list of status bytes that the next single
byte reads return (0x40, ready and no failure, once the list is used up). Bulk
reads return zeros, the ECC code is 0 0 0 and correction is that of the S3C24x0
backend. -/
def script_driver : nand_driver (List Nat) where
  nand_wait_select := fun _ s => (0, s)
  nand_command := fun _ s => (0, s)
  nand_address := fun _ s => (0, s)
  nand_read := fun len s => (0, List.replicate len 0, s)
  nand_read_8 := fun s => (0, s.headD 0x40, s.tail)
  nand_write := fun _ _ s => (0, s)
  nand_wait_rnb := fun s => (0, s)
  nand_init_ecc := fun s => (0, s)
  nand_calc_ecc := fun s => (0, [0, 0, 0], s)
  nand_fix_data := fun len data c r s =>
    ((s3c24x0_fix_data len data c r).1, (s3c24x0_fix_data len data c r).2, s)

/-- The geometry of the first entry of nand_chips (2048 byte pages, 64 pages per
block), with placeholder identifiers. -/
def sample_info : nand_device_info :=
  { ndi_manf_id := 0, ndi_dev_id := 0, ndi_spare_size := 64, ndi_page_size := 2048,
    ndi_page_cnt := 64, ndi_block_cnt := 2048, ndi_lun_cnt := 1, ndi_cell_size := 8,
    ndi_column_cycles := 2, ndi_row_cycles := 3, ndi_read_start := 1,
    ndi_name := some "Samsung 256MiB 8bit Nand Flash" }

/-- A device with the sample geometry, no ECC and the given hardware state. -/
def sample_dev {σ : Type} (hw : σ) : nand_device σ :=
  { ndev_info := sample_info, ndev_ecc := none, ndev_oob := some (List.replicate 64 0),
    ndev_calc_ecc := none, ndev_read_ecc := none, hw := hw }

/-- A device with the sample geometry, the ECC descriptor of the S3C2410 and ECC
buffers of ecc_size bytes, as nand_attach allocates them. -/
def sample_ecc_dev {σ : Type} (hw : σ) : nand_device σ :=
  { ndev_info := sample_info, ndev_ecc := some s3c2410_nand_ecc,
    ndev_oob := some (List.replicate 64 0), ndev_calc_ecc := some [0, 0, 0],
    ndev_read_ecc := some [0, 0, 0], hw := hw }

/-- A small geometry for concrete runs: pages of 4 bytes with 2 spare bytes, 2
pages per block, one column and one row address cycle. -/
def tiny_info : nand_device_info :=
  { ndi_manf_id := 0, ndi_dev_id := 0, ndi_spare_size := 2, ndi_page_size := 4,
    ndi_page_cnt := 2, ndi_block_cnt := 4, ndi_lun_cnt := 1, ndi_cell_size := 8,
    ndi_column_cycles := 1, ndi_row_cycles := 1, ndi_read_start := 0,
    ndi_name := some "tiny" }

/-- A device with the small geometry, no ECC and the given hardware state. -/
def tiny_dev {σ : Type} (hw : σ) : nand_device σ :=
  { ndev_info := tiny_info, ndev_ecc := none, ndev_oob := some [0, 0],
    ndev_calc_ecc := none, ndev_read_ecc := none, hw := hw }

/-- A request with the given command, offset and byte count. -/
def sample_bio (cmd : bio_cmd_t) (offset bcount : Nat) : bio :=
  { bio_cmd := cmd, bio_offset := offset, bio_bcount := bcount, bio_data := [],
    bio_attribute := "", bio_resid := 0, bio_error := 0, bio_flags := 0,
    bio_attr_val := none, bio_done := 0 }

/-- A chip that returns what was last written. The state is the page register
(the data area followed by the spare area), the position of the next byte
on the bus, and the bytes that crossed the bus since the ECC was initialised. -/
structure flash_chip where
  cells : List Nat
  cursor : Nat
  seen : List Nat
deriving DecidableEq, Repr

/-- The driver of the chip model. A command puts the cursor back to the start of
the page, bulk transfers move it forward; the computed ECC is the given function
ecc of the bytes transferred since the ECC was initialised, and correction is
that of the S3C24x0 backend. -/
def chip_driver (ecc : List Nat → List Nat) : nand_driver flash_chip where
  nand_wait_select := fun _ s => (0, s)
  nand_command := fun _ s => (0, { s with cursor := 0 })
  nand_address := fun _ s => (0, s)
  nand_read := fun len s =>
    (0, slice s.cells s.cursor len,
      { s with cursor := s.cursor + len, seen := s.seen ++ slice s.cells s.cursor len })
  nand_read_8 := fun s => (0, 0x40, s)
  nand_write := fun len bytes s =>
    (0, { s with cells := blit s.cells s.cursor bytes, cursor := s.cursor + len,
                 seen := s.seen ++ bytes })
  nand_wait_rnb := fun s => (0, s)
  nand_init_ecc := fun s => (0, { s with seen := [] })
  nand_calc_ecc := fun s => (0, ecc s.seen, s)
  nand_fix_data := fun len data c r s =>
    ((s3c24x0_fix_data len data c r).1, (s3c24x0_fix_data len data c r).2, s)

/-- A sample ECC function: a three byte checksum of the bytes transferred. -/
def sum_ecc (bytes : List Nat) : List Nat :=
  [bytes.sum % 256, bytes.length % 256, 0xA5]

/-- A device on the chip model: pages of 4 bytes with 4 spare bytes, the ECC
descriptor of the S3C2410, buffers as nand_attach allocates them, and an erased
page register with the cursor at the start of the page. -/
def chip_dev : nand_device flash_chip :=
  { ndev_info := { tiny_info with ndi_spare_size := 4 }, ndev_ecc := some s3c2410_nand_ecc,
    ndev_oob := some [0, 0, 0, 0], ndev_calc_ecc := some [0, 0, 0],
    ndev_read_ecc := some [0, 0, 0],
    hw := { cells := List.replicate 8 0xFF, cursor := 0, seen := [] } }

/-- The device chip_dev over any hardware state: pages of 4 bytes with 4 spare
bytes, the ECC descriptor of the S3C2410 and buffers as nand_attach allocates
them. -/
def chip_dev_on {σ : Type} (hw : σ) : nand_device σ :=
  { ndev_info := { tiny_info with ndi_spare_size := 4 }, ndev_ecc := some s3c2410_nand_ecc,
    ndev_oob := some [0, 0, 0, 0], ndev_calc_ecc := some [0, 0, 0],
    ndev_read_ecc := some [0, 0, 0], hw := hw }

/-- The device chip_dev_on with a protect length of 3 bytes, which does not
divide the page size 4. -/
def odd_dev {σ : Type} (hw : σ) : nand_device σ :=
  { ndev_info := { tiny_info with ndi_spare_size := 4 },
    ndev_ecc := some { s3c2410_nand_ecc with ecc_protect := 3 },
    ndev_oob := some [0, 0, 0, 0], ndev_calc_ecc := some [0, 0, 0],
    ndev_read_ecc := some [0, 0, 0], hw := hw }

/-- A device with pages of 65536 bytes and 32768 pages per block, so that a block
has 2^31 bytes; the rest is the sample geometry. -/
def wide_block_dev {σ : Type} (hw : σ) : nand_device σ :=
  { ndev_info := { sample_info with ndi_page_size := 65536, ndi_page_cnt := 32768 },
    ndev_ecc := none, ndev_oob := none, ndev_calc_ecc := none, ndev_read_ecc := none,
    hw := hw }

/-- An ECC descriptor that lists the same OOB offset twice. -/
def dup_ecc : nand_ecc_data :=
  { ecc_size := 3, ecc_stride := 3, ecc_protect := 512, ecc_pos := [0, 1, 1] }

/-- A device with pages of 4 bytes and 4 spare bytes, the descriptor dup_ecc and
buffers as nand_attach allocates them. -/
def dup_dev {σ : Type} (hw : σ) : nand_device σ :=
  { ndev_info := { tiny_info with ndi_spare_size := 4 }, ndev_ecc := some dup_ecc,
    ndev_oob := some [0, 0, 0, 0], ndev_calc_ecc := some [0, 0, 0],
    ndev_read_ecc := some [0, 0, 0], hw := hw }

/-- The function table of the S3C24x0 backend: every entry is set. -/
def s3c24x0_nand_dri : nand_driver_caps :=
  { ndri_select := true, ndri_command := true, ndri_address := true, ndri_read := true,
    ndri_read_8 := true, ndri_write := true, ndri_read_rnb := true, ndri_init_ecc := true,
    ndri_calc_ecc := true, ndri_fix_data := true }

/-- A scripted chip like script_driver whose identification sequence fails on
the bus: the read-id command (code 0x90 of sample_reg), every address cycle and
every single byte read return the error code EIO; the bytes read still come
from the script. -/
def faulty_driver : nand_driver (List Nat) where
  nand_wait_select := fun _ s => (0, s)
  nand_command := fun c s => (if c = 0x90 then EIO else 0, s)
  nand_address := fun _ s => ( EIO, s)
  nand_read := fun len s => (0, List.replicate len 0, s)
  nand_read_8 := fun s => ( EIO, s.headD 0x40, s.tail)
  nand_write := fun _ _ s => (0, s)
  nand_wait_rnb := fun s => (0, s)
  nand_init_ecc := fun s => (0, s)
  nand_calc_ecc := fun s => (0, [0, 0, 0], s)
  nand_fix_data := fun len data c r s =>
    ((s3c24x0_fix_data len data c r).1, (s3c24x0_fix_data len data c r).2, s)

/-- A device as it is before identification: zeroed geometry, no name, no ECC
descriptor and no buffers. -/
def blank_dev {σ : Type} (hw : σ) : nand_device σ :=
  { ndev_info :=
      { ndi_manf_id := 0, ndi_dev_id := 0, ndi_spare_size := 0, ndi_page_size := 0,
        ndi_page_cnt := 0, ndi_block_cnt := 0, ndi_lun_cnt := 0, ndi_cell_size := 0,
        ndi_column_cycles := 0, ndi_row_cycles := 0, ndi_read_start := 0, ndi_name := none },
    ndev_ecc := none, ndev_oob := none, ndev_calc_ecc := none, ndev_read_ecc := none,
    hw := hw }

section Vocabulary

variable {σ : Type}

/-- The page operation that one iteration of the read/write loop of nand_strategy
performs: Page Read for BIO_READ, Page Program otherwise. -/
def page_op (drv : nand_driver σ) (reg : nandreg) (fuel : Nat) (cmd : bio_cmd_t)
    (ndev : nand_device σ) (page : Nat) (data : List Nat) (base : Nat) :
    Option (Int × nand_device σ × List Nat) :=
  if cmd = bio_cmd_t.BIO_READ then some (nand_read_data drv reg ndev page data base)
  else nand_write_data drv reg fuel ndev page data base

/-- The device and buffer reached when, starting from st, the page operation is
run i times in a row and succeeds each time (result 0), the j-th run (from 0) on
page page0 + j with the buffer slice that starts at byte j * page_size. The
result is none when one of these runs fails or does not return. -/
def pages_done (drv : nand_driver σ) (reg : nandreg) (fuel : Nat) (cmd : bio_cmd_t)
    (page_size page0 : Nat) : Nat → nand_device σ × List Nat → Option (nand_device σ × List Nat)
  | 0, st => some st
  | i + 1, st =>
    match pages_done drv reg fuel cmd page_size page0 i st with
    | none => none
    | some st1 =>
      match page_op drv reg fuel cmd st1.1 (page0 + i) st1.2 (i * page_size) with
      | none => none
      | some r => if r.1 = 0 then some r.2 else none

/-- The guard of the delete path of nand_strategy lets the request through. -/
def delete_accepted (info : nand_device_info) (bp : bio) : Prop :=
  let block_size := (info.ndi_page_cnt * info.ndi_page_size) % 2 ^ 32
  (bp.bio_offset / block_size) % block_size = 0 ∧ bp.bio_bcount % block_size = 0

instance (info : nand_device_info) (bp : bio) : Decidable (delete_accepted info bp) := by
  unfold delete_accepted
  exact inferInstance

/-- The trace t2 extends the trace t1 by operations none of which is a select. -/
def quiet (t1 t2 : List bus_op) : Prop :=
  ∃ l, t2 = t1 ++ l ∧ ∀ op ∈ l, bus_op.is_select op = false

/-- The entries of a chip table in front of its terminating entry. -/
def catalog (chips : List nand_device_info) : List nand_device_info :=
  chips.takeWhile (fun c => c.ndi_name.isSome)

/-- Lookup in the chip catalog as the specification words it: linear scan, the
first entry whose manufacturer id and device id both match wins. -/
def first_match (chips : List nand_device_info) (manf_id dev_id : Nat) :
    Option nand_device_info :=
  (catalog chips).find? (fun c => decide (c.ndi_manf_id = manf_id ∧ c.ndi_dev_id = dev_id))

/-- One status read as nand_wait_status performs it: the status-read command
followed by a single byte read. The result is the status byte and the next
hardware state. -/
def status_poll (drv : nand_driver σ) (reg : nandreg) (hw : σ) : Nat × σ :=
  ((drv.nand_read_8 (drv.nand_command reg.NAND_CMD_READ_STATUS hw).2).2.1,
    (drv.nand_read_8 (drv.nand_command reg.NAND_CMD_READ_STATUS hw).2).2.2)

/-- The hardware state after i status reads in a row. -/
def status_after (drv : nand_driver σ) (reg : nandreg) : Nat → σ → σ
  | 0, hw => hw
  | i + 1, hw => status_after drv reg i (status_poll drv reg hw).2

/-- The i-th status byte (from 0) that the chip returns from state hw on. -/
def status_byte (drv : nand_driver σ) (reg : nandreg) (hw : σ) (i : Nat) : Nat :=
  (status_poll drv reg (status_after drv reg i hw)).1

/-- The bus operations of n status reads. -/
def poll_trace (reg : nandreg) : Nat → List bus_op
  | 0 => []
  | n + 1 => bus_op.command reg.NAND_CMD_READ_STATUS :: bus_op.read_8 :: poll_trace reg n

/-- The stride length with which nand_rw_data enters both of its stride loops
(its local variable stride): the page size, lowered to the protect length of the
ECC descriptor when there is one and the page is longer. -/
def rw_stride (ndev : nand_device σ) : Nat :=
  match ndev.ndev_ecc with
  | some e =>
    if ndev.ndev_info.ndi_page_size > e.ecc_protect then e.ecc_protect
    else ndev.ndev_info.ndi_page_size
  | none => ndev.ndev_info.ndi_page_size

/-- The number of bytes that a bus operation moves in a bulk transfer. -/
def bus_op.xfer_len : bus_op → Nat
  | bus_op.read len => len
  | bus_op.write len _ => len
  | _ => 0

/-- The length of the slice that a correction call is given. -/
def bus_op.fix_len : bus_op → Nat
  | bus_op.fix_data len => len
  | _ => 0

/-- Whether a resource call destroys a disk. -/
def kern_op.is_disk_destroy : kern_op → Bool
  | kern_op.disk_destroy _ => true
  | _ => false

/-- Whether a resource call frees a buffer. -/
def kern_op.is_free : kern_op → Bool
  | kern_op.free _ => true
  | _ => false

end Vocabulary

/-! ## Basic lemmas -/

section Lemmas

variable {σ : Type}

theorem low_byte (p : Nat) : p &&& 0xFF = p % 256 := by
  have h := Nat.and_pow_two_sub_one_eq_mod p 8
  norm_num at h
  exact h

theorem shift_byte (p : Nat) : p >>> 8 = p / 256 := by
  rw [Nat.shiftRight_eq_div_pow]


theorem traced_wait_select (drv : nand_driver σ) (en : Bool) (s : List bus_op × σ) :
    (traced drv).nand_wait_select en s
      = ((drv.nand_wait_select en s.2).1, s.1 ++ [bus_op.select en],
          (drv.nand_wait_select en s.2).2) := rfl

theorem traced_command (drv : nand_driver σ) (c : Nat) (s : List bus_op × σ) :
    (traced drv).nand_command c s
      = ((drv.nand_command c s.2).1, s.1 ++ [bus_op.command c], (drv.nand_command c s.2).2) :=
  rfl

theorem traced_address (drv : nand_driver σ) (a : Nat) (s : List bus_op × σ) :
    (traced drv).nand_address a s
      = ((drv.nand_address a s.2).1, s.1 ++ [bus_op.address a], (drv.nand_address a s.2).2) :=
  rfl

theorem traced_read (drv : nand_driver σ) (len : Nat) (s : List bus_op × σ) :
    (traced drv).nand_read len s
      = ((drv.nand_read len s.2).1, (drv.nand_read len s.2).2.1,
          s.1 ++ [bus_op.read len], (drv.nand_read len s.2).2.2) := rfl

theorem traced_read_8 (drv : nand_driver σ) (s : List bus_op × σ) :
    (traced drv).nand_read_8 s
      = ((drv.nand_read_8 s.2).1, (drv.nand_read_8 s.2).2.1,
          s.1 ++ [bus_op.read_8], (drv.nand_read_8 s.2).2.2) := rfl

theorem traced_write (drv : nand_driver σ) (len : Nat) (bytes : List Nat)
    (s : List bus_op × σ) :
    (traced drv).nand_write len bytes s
      = ((drv.nand_write len bytes s.2).1, s.1 ++ [bus_op.write len bytes],
          (drv.nand_write len bytes s.2).2) := rfl

theorem traced_wait_rnb (drv : nand_driver σ) (s : List bus_op × σ) :
    (traced drv).nand_wait_rnb s
      = ((drv.nand_wait_rnb s.2).1, s.1 ++ [bus_op.wait_rnb], (drv.nand_wait_rnb s.2).2) := rfl

theorem traced_init_ecc (drv : nand_driver σ) (s : List bus_op × σ) :
    (traced drv).nand_init_ecc s
      = ((drv.nand_init_ecc s.2).1, s.1 ++ [bus_op.init_ecc], (drv.nand_init_ecc s.2).2) := rfl

theorem traced_calc_ecc (drv : nand_driver σ) (s : List bus_op × σ) :
    (traced drv).nand_calc_ecc s
      = ((drv.nand_calc_ecc s.2).1, (drv.nand_calc_ecc s.2).2.1,
          s.1 ++ [bus_op.calc_ecc], (drv.nand_calc_ecc s.2).2.2) := rfl

theorem traced_fix_data (drv : nand_driver σ) (len : Nat) (data c r : List Nat)
    (s : List bus_op × σ) :
    (traced drv).nand_fix_data len data c r s
      = ((drv.nand_fix_data len data c r s.2).1, (drv.nand_fix_data len data c r s.2).2.1,
          s.1 ++ [bus_op.fix_data len], (drv.nand_fix_data len data c r s.2).2.2) := rfl

theorem write_address_col_trace (drv : nand_driver σ) (n : Nat) (t : List bus_op) (hw : σ) :
    (nand_write_address_col (traced drv) n (t, hw)).1
      = t ++ List.replicate n (bus_op.address 0) := by
  induction n generalizing t hw with
  | zero => simp [nand_write_address_col]
  | succ n ih =>
    simp only [nand_write_address_col, traced_address]
    rw [ih]
    simp [List.replicate_succ]

theorem write_address_row_trace (drv : nand_driver σ) (n p : Nat) (t : List bus_op) (hw : σ) :
    (nand_write_address_row (traced drv) n p (t, hw)).1
      = t ++ (List.range n).map (fun i => bus_op.address (p / 256 ^ i % 256)) := by
  induction n generalizing t hw p with
  | zero => simp [nand_write_address_row]
  | succ n ih =>
    simp only [nand_write_address_row, traced_address]
    rw [ih, List.range_succ_eq_map, low_byte, shift_byte]
    simp only [List.map_cons, List.map_map, pow_zero, Nat.div_one, List.append_assoc,
      List.singleton_append]
    congr 2
    apply List.map_congr_left
    intro i _
    simp only [Function.comp, Nat.div_div_eq_div_mul, pow_succ]
    rw [Nat.mul_comm]

theorem row_bytes_sum (p r : Nat) :
    ((List.range r).map (fun i => p / 256 ^ i % 256 * 256 ^ i)).sum = p % 256 ^ r := by
  induction r with
  | zero => simp [Nat.mod_one]
  | succ r ih =>
    rw [List.range_succ, List.map_append, List.sum_append, ih, Nat.mod_pow_succ]
    simp [Nat.mul_comm]

theorem nand_rw_xfer_eq (drv : nand_driver σ) (read : Bool) (page_size base ecc_stride : Nat)
    (pos ecc_pos len : Nat) (hw : σ) (calc_ecc : Option (List Nat)) (data : List Nat) :
    nand_rw_xfer drv read page_size base ecc_stride pos ecc_pos len hw calc_ecc data
      = if pos < page_size then
          let hw1 := (drv.nand_init_ecc hw).2
          let len1 := if len < page_size - pos then page_size - pos else len
          let rd := drv.nand_read len1 hw1
          let hw2 :=
            if read then rd.2.2 else (drv.nand_write len1 (slice data (base + pos) len1) hw1).2
          let data2 := if read then blit data (base + pos) rd.2.1 else data
          let ce := drv.nand_calc_ecc hw2
          (if calc_ecc.isSome then ce.2.2 else hw2,
            calc_ecc.map (fun c => blit c ecc_pos ce.2.1), data2)
        else (hw, calc_ecc, data) := by
  rw [nand_rw_xfer]
  split
  · rename_i h
    simp only
    rw [nand_rw_xfer]
    have : ¬ (pos + (if len < page_size - pos then page_size - pos else len) < page_size) := by
      split <;> omega
    simp only [this, if_false]
  · rfl

theorem nand_rw_fix_eq (drv : nand_driver σ) (page_size base ecc_stride : Nat)
    (calc_ecc read_ecc : List Nat) (pos ecc_pos len : Nat) (hw : σ) (data : List Nat) :
    nand_rw_fix drv page_size base ecc_stride calc_ecc read_ecc pos ecc_pos len hw data
      = if pos < page_size then
          let len1 := if len < page_size - pos then page_size - pos else len
          let r := drv.nand_fix_data len1 (slice data (base + pos) len1) (calc_ecc.drop ecc_pos)
            (read_ecc.drop ecc_pos) hw
          (r.1, r.2.2, blit data (base + pos) r.2.1)
        else (0, hw, data) := by
  rw [nand_rw_fix]
  by_cases h : pos < page_size
  · simp only [h, if_true]
    have hl : page_size - pos ≤ (if len < page_size - pos then page_size - pos else len) := by
      split <;> omega
    generalize (if len < page_size - pos then page_size - pos else len) = len1 at hl
    generalize drv.nand_fix_data len1 (slice data (base + pos) len1) (calc_ecc.drop ecc_pos)
      (read_ecc.drop ecc_pos) hw = r
    by_cases h0 : r.1 = 0
    · have hn : ¬ (pos + len1 < page_size) := by omega
      rw [nand_rw_fix]
      simp [h0, hn]
    · simp [h0]
  · simp [h]

theorem blit_nil (pos : Nat) (xs : List Nat) : blit [] pos xs = [] := by
  cases pos <;> cases xs <;> rfl

theorem quiet_refl (t : List bus_op) : quiet t t :=
  ⟨[], by simp, by simp⟩

theorem quiet_trans {t1 t2 t3 : List bus_op} (h12 : quiet t1 t2) (h23 : quiet t2 t3) :
    quiet t1 t3 := by
  obtain ⟨l1, rfl, h1⟩ := h12
  obtain ⟨l2, rfl, h2⟩ := h23
  refine ⟨l1 ++ l2, by simp, ?_⟩
  intro op hop
  rcases List.mem_append.mp hop with h | h
  · exact h1 op h
  · exact h2 op h

theorem quiet_snoc (t : List bus_op) (op : bus_op) (h : bus_op.is_select op = false) :
    quiet t (t ++ [op]) :=
  ⟨[op], rfl, by simpa using h⟩

theorem quiet_append (t l : List bus_op) (h : ∀ op ∈ l, bus_op.is_select op = false) :
    quiet t (t ++ l) :=
  ⟨l, rfl, h⟩

theorem write_address_quiet (drv : nand_driver σ) (info : nand_device_info) (p : Nat)
    (wc : Bool) (s : List bus_op × σ) :
    quiet s.1 (nand_write_address (traced drv) info p wc s).1 := by
  obtain ⟨t, hw⟩ := s
  unfold nand_write_address
  simp only
  cases wc
  · simp only [Bool.false_eq_true, if_false]
    rw [write_address_row_trace]
    refine ⟨_, rfl, ?_⟩
    intro op hop
    simp only [List.mem_map] at hop
    obtain ⟨i, _, rfl⟩ := hop
    rfl
  · simp only [if_true]
    have h1 := write_address_col_trace drv info.ndi_column_cycles t hw
    generalize nand_write_address_col (traced drv) info.ndi_column_cycles (t, hw) = s1 at h1
    obtain ⟨t1, hw1⟩ := s1
    simp only at h1
    rw [write_address_row_trace, h1]
    refine ⟨_, List.append_assoc _ _ _, ?_⟩
    intro op hop
    rcases List.mem_append.mp hop with h | h
    · rw [List.eq_of_mem_replicate h]
      rfl
    · simp only [List.mem_map] at h
      obtain ⟨i, _, rfl⟩ := h
      rfl

theorem wait_status_loop_quiet (drv : nand_driver σ) (reg : nandreg) (fuel status : Nat)
    (s : List bus_op × σ) (r : Nat × List bus_op × σ)
    (h : nand_wait_status_loop (traced drv) reg fuel status s = some r) : quiet s.1 r.2.1 := by
  induction fuel generalizing status s with
  | zero =>
    unfold nand_wait_status_loop at h
    split at h
    · cases h
    · cases h
      exact quiet_refl _
  | succ fuel ih =>
    unfold nand_wait_status_loop at h
    split at h
    · have := ih _ _ h
      simp only [traced_command, traced_read_8] at this
      refine quiet_trans ?_ this
      simp only [List.append_assoc]
      exact quiet_append _ _ (by simp [bus_op.is_select])
    · cases h
      exact quiet_refl _

theorem wait_status_quiet (drv : nand_driver σ) (reg : nandreg) (fuel : Nat)
    (s : List bus_op × σ) (r : Nat × List bus_op × σ)
    (h : nand_wait_status (traced drv) reg fuel s = some r) : quiet s.1 r.2.1 := by
  unfold nand_wait_status at h
  have := wait_status_loop_quiet drv reg _ _ _ _ h
  simp only [traced_command, traced_read_8] at this
  refine quiet_trans ?_ this
  simp only [List.append_assoc]
  exact quiet_append _ _ (by simp [bus_op.is_select])

theorem rw_xfer_quiet (drv : nand_driver σ) (read : Bool) (page_size base ecc_stride : Nat)
    (pos ecc_pos len : Nat) (s : List bus_op × σ) (c : Option (List Nat)) (data : List Nat) :
    quiet s.1
      (nand_rw_xfer (traced drv) read page_size base ecc_stride pos ecc_pos len s c data).1.1 := by
  rw [nand_rw_xfer_eq]
  split
  · simp only [traced_init_ecc, traced_read, traced_write, traced_calc_ecc]
    cases read <;> cases c <;> simp only [Option.isSome, if_true, if_false, Bool.false_eq_true]
    all_goals simp only [List.append_assoc]
    all_goals exact quiet_append _ _ (by simp [bus_op.is_select])
  · exact quiet_refl _

theorem rw_fix_quiet (drv : nand_driver σ) (page_size base ecc_stride : Nat)
    (c r : List Nat) (pos ecc_pos len : Nat) (s : List bus_op × σ) (data : List Nat) :
    quiet s.1
      (nand_rw_fix (traced drv) page_size base ecc_stride c r pos ecc_pos len s data).2.1.1 := by
  rw [nand_rw_fix_eq]
  split
  · simp only [traced_fix_data]
    exact quiet_snoc _ _ rfl
  · exact quiet_refl _

theorem rw_ecc_copy_hw (read : Bool) (e : nand_ecc_data) (n i : Nat) (ndev : nand_device σ) :
    (nand_rw_ecc_copy read e n i ndev).hw = ndev.hw
    ∧ (nand_rw_ecc_copy read e n i ndev).ndev_info = ndev.ndev_info
    ∧ (nand_rw_ecc_copy read e n i ndev).ndev_ecc = ndev.ndev_ecc := by
  induction n generalizing i ndev with
  | zero => exact ⟨rfl, rfl, rfl⟩
  | succ n ih =>
    unfold nand_rw_ecc_copy
    simp only
    refine ⟨?_, ?_, ?_⟩
    · rw [(ih _ _).1]
      cases read <;> rfl
    · rw [(ih _ _).2.1]
      cases read <;> rfl
    · rw [(ih _ _).2.2]
      cases read <;> rfl

theorem rw_ecc_hw (read : Bool) (ndev : nand_device σ) :
    (nand_rw_ecc read ndev).hw = ndev.hw
    ∧ (nand_rw_ecc read ndev).ndev_info = ndev.ndev_info
    ∧ (nand_rw_ecc read ndev).ndev_ecc = ndev.ndev_ecc := by
  unfold nand_rw_ecc
  split
  · exact rw_ecc_copy_hw _ _ _ _ _
  · exact ⟨rfl, rfl, rfl⟩

theorem rw_data_info (drv : nand_driver σ) (ndev : nand_device σ) (data : List Nat)
    (base : Nat) (read : Bool) :
    (nand_rw_data drv ndev data base read).2.1.ndev_info = ndev.ndev_info
    ∧ (nand_rw_data drv ndev data base read).2.1.ndev_ecc = ndev.ndev_ecc := by
  unfold nand_rw_data
  simp only
  split_ifs <;> simp [rw_ecc_hw]

theorem rw_data_quiet (drv : nand_driver σ) (ndev : nand_device (List bus_op × σ))
    (data : List Nat) (base : Nat) (read : Bool) :
    quiet ndev.hw.1 (nand_rw_data (traced drv) ndev data base read).2.1.hw.1 := by
  cases read
  · simp only [nand_rw_data, Bool.and_false, Bool.false_eq_true, if_false, rw_ecc_hw,
      traced_write]
    exact quiet_trans (rw_xfer_quiet _ _ _ _ _ _ _ _ _ _ _)
      (quiet_append _ _ (by simp [bus_op.is_select]))
  · simp only [nand_rw_data, Bool.and_true, if_true]
    split_ifs
    · simp only [rw_ecc_hw, traced_read]
      refine quiet_trans ?_ (rw_fix_quiet _ _ _ _ _ _ _ _ _ _ _)
      exact quiet_trans (rw_xfer_quiet _ _ _ _ _ _ _ _ _ _ _)
        (quiet_append _ _ (by simp [bus_op.is_select]))
    · simp only [rw_ecc_hw, traced_read]
      refine quiet_trans ?_ (rw_fix_quiet _ _ _ _ _ _ _ _ _ _ _)
      exact quiet_trans (rw_xfer_quiet _ _ _ _ _ _ _ _ _ _ _)
        (quiet_append _ _ (by simp [bus_op.is_select]))
    · simp only [rw_ecc_hw, traced_read]
      exact quiet_trans (rw_xfer_quiet _ _ _ _ _ _ _ _ _ _ _)
        (quiet_append _ _ (by simp [bus_op.is_select]))

theorem read_data_info (drv : nand_driver σ) (reg : nandreg) (ndev : nand_device σ)
    (page : Nat) (data : List Nat) (base : Nat) :
    (nand_read_data drv reg ndev page data base).2.1.ndev_info = ndev.ndev_info := by
  unfold nand_read_data
  simp only
  rw [(rw_data_info _ _ _ _ _).1]

theorem write_data_info (drv : nand_driver σ) (reg : nandreg) (fuel : Nat)
    (ndev : nand_device σ) (page : Nat) (data : List Nat) (base : Nat)
    (r : Int × nand_device σ × List Nat)
    (h : nand_write_data drv reg fuel ndev page data base = some r) :
    r.2.1.ndev_info = ndev.ndev_info := by
  unfold nand_write_data at h
  simp only at h
  split at h
  · cases h
  · split at h <;> cases h <;> simp only [(rw_data_info _ _ _ _ _).1]

theorem erase_data_info (drv : nand_driver σ) (reg : nandreg) (fuel : Nat)
    (ndev : nand_device σ) (block : Nat) (r : Int × nand_device σ)
    (h : nand_erase_data drv reg fuel ndev block = some r) :
    r.2.ndev_info = ndev.ndev_info := by
  unfold nand_erase_data at h
  simp only at h
  split at h
  · cases h
  · split at h <;> cases h <;> rfl

theorem page_op_info (drv : nand_driver σ) (reg : nandreg) (fuel : Nat) (cmd : bio_cmd_t)
    (ndev : nand_device σ) (page : Nat) (data : List Nat) (base : Nat)
    (r : Int × nand_device σ × List Nat)
    (h : page_op drv reg fuel cmd ndev page data base = some r) :
    r.2.1.ndev_info = ndev.ndev_info := by
  unfold page_op at h
  split at h
  · cases h
    exact read_data_info _ _ _ _ _ _
  · exact write_data_info _ _ _ _ _ _ _ _ h

theorem read_data_quiet (drv : nand_driver σ) (reg : nandreg)
    (ndev : nand_device (List bus_op × σ)) (page : Nat) (data : List Nat) (base : Nat) :
    quiet ndev.hw.1 (nand_read_data (traced drv) reg ndev page data base).2.1.hw.1 := by
  unfold nand_read_data
  simp only
  refine quiet_trans ?_ (rw_data_quiet _ _ _ _ _)
  simp only [traced_wait_rnb]
  refine quiet_trans ?_ (quiet_append _ _ (by simp [bus_op.is_select]))
  split_ifs
  · simp only [traced_command]
    refine quiet_trans ?_ (quiet_append _ _ (by simp [bus_op.is_select]))
    refine quiet_trans ?_ (write_address_quiet _ _ _ _ _)
    exact quiet_append _ _ (by simp [bus_op.is_select])
  · refine quiet_trans ?_ (write_address_quiet _ _ _ _ _)
    simp only [traced_command]
    exact quiet_append _ _ (by simp [bus_op.is_select])

theorem write_data_quiet (drv : nand_driver σ) (reg : nandreg) (fuel : Nat)
    (ndev : nand_device (List bus_op × σ)) (page : Nat) (data : List Nat) (base : Nat)
    (r : Int × nand_device (List bus_op × σ) × List Nat)
    (h : nand_write_data (traced drv) reg fuel ndev page data base = some r) :
    quiet ndev.hw.1 r.2.1.hw.1 := by
  unfold nand_write_data at h
  simp only at h
  split at h
  · cases h
  · rename_i status hw4 hw
    have hq := wait_status_quiet _ _ _ _ _ hw
    have hr : r.2.1.hw = hw4 := by
      split at h <;> cases h <;> rfl
    rw [hr]
    refine quiet_trans ?_ hq
    simp only [traced_command]
    refine quiet_trans ?_ (quiet_append _ _ (by simp [bus_op.is_select]))
    refine quiet_trans ?_ (rw_data_quiet _ _ _ _ _)
    refine quiet_trans ?_ (write_address_quiet _ _ _ _ _)
    exact quiet_append _ _ (by simp [bus_op.is_select])

theorem erase_data_quiet (drv : nand_driver σ) (reg : nandreg) (fuel : Nat)
    (ndev : nand_device (List bus_op × σ)) (block : Nat)
    (r : Int × nand_device (List bus_op × σ))
    (h : nand_erase_data (traced drv) reg fuel ndev block = some r) :
    quiet ndev.hw.1 r.2.hw.1 := by
  unfold nand_erase_data at h
  simp only at h
  split at h
  · cases h
  · rename_i status hw4 hw
    have hq := wait_status_quiet _ _ _ _ _ hw
    have hr : r.2.hw = hw4 := by
      split at h <;> cases h <;> rfl
    rw [hr]
    refine quiet_trans ?_ hq
    simp only [traced_command]
    refine quiet_trans ?_ (quiet_append _ _ (by simp [bus_op.is_select]))
    refine quiet_trans ?_ (write_address_quiet _ _ _ _ _)
    exact quiet_append _ _ (by simp [bus_op.is_select])

theorem write_data_total (drv : nand_driver σ) (reg : nandreg) (fuel : Nat)
    (hpoll : ∀ hw, (nand_wait_status drv reg fuel hw).isSome = true)
    (ndev : nand_device σ) (page : Nat) (data : List Nat) (base : Nat) :
    (nand_write_data drv reg fuel ndev page data base).isSome = true := by
  unfold nand_write_data
  simp only
  split
  · rename_i h
    have := congrArg Option.isSome h
    rw [hpoll] at this
    cases this
  · split <;> rfl

theorem erase_data_total (drv : nand_driver σ) (reg : nandreg) (fuel : Nat)
    (hpoll : ∀ hw, (nand_wait_status drv reg fuel hw).isSome = true)
    (ndev : nand_device σ) (block : Nat) :
    (nand_erase_data drv reg fuel ndev block).isSome = true := by
  unfold nand_erase_data
  simp only
  split
  · rename_i h
    have := congrArg Option.isSome h
    rw [hpoll] at this
    cases this
  · split <;> rfl

theorem strategy_rw_succ (drv : nand_driver σ) (reg : nandreg) (fuel : Nat)
    (cnt page off : Nat) (bp : bio) (ndev : nand_device σ) :
    nand_strategy_rw drv reg fuel (cnt + 1) page off bp ndev
      = match page_op drv reg fuel bp.bio_cmd ndev page bp.bio_data off with
        | none => none
        | some (err, ndev1, buf) =>
          if err ≠ 0 then
            some ({ bp with bio_data := buf, bio_error := err,
                            bio_flags := bp.bio_flags ||| BIO_ERROR }, ndev1)
          else
            nand_strategy_rw drv reg fuel cnt (page + 1) (off + ndev.ndev_info.ndi_page_size)
              { bp with bio_data := buf,
                        bio_resid := bp.bio_resid - ndev.ndev_info.ndi_page_size } ndev1 :=
  rfl

theorem page_op_quiet (drv : nand_driver σ) (reg : nandreg) (fuel : Nat) (cmd : bio_cmd_t)
    (ndev : nand_device (List bus_op × σ)) (page : Nat) (data : List Nat) (base : Nat)
    (r : Int × nand_device (List bus_op × σ) × List Nat)
    (h : page_op (traced drv) reg fuel cmd ndev page data base = some r) :
    quiet ndev.hw.1 r.2.1.hw.1 := by
  unfold page_op at h
  split at h
  · rw [← Option.some.inj h]
    exact read_data_quiet _ _ _ _ _ _
  · exact write_data_quiet _ _ _ _ _ _ _ _ h

theorem page_op_total (drv : nand_driver σ) (reg : nandreg) (fuel : Nat)
    (hpoll : ∀ hw, (nand_wait_status drv reg fuel hw).isSome = true) (cmd : bio_cmd_t)
    (ndev : nand_device σ) (page : Nat) (data : List Nat) (base : Nat) :
    (page_op drv reg fuel cmd ndev page data base).isSome = true := by
  unfold page_op
  split
  · rfl
  · exact write_data_total drv reg fuel hpoll _ _ _ _

theorem strategy_rw_quiet (drv : nand_driver σ) (reg : nandreg) (fuel : Nat)
    (cnt page off : Nat) (bp : bio) (ndev : nand_device (List bus_op × σ))
    (r : bio × nand_device (List bus_op × σ))
    (h : nand_strategy_rw (traced drv) reg fuel cnt page off bp ndev = some r) :
    quiet ndev.hw.1 r.2.hw.1 := by
  induction cnt generalizing page off bp ndev with
  | zero =>
    unfold nand_strategy_rw at h
    rw [← Option.some.inj h]
    exact quiet_refl _
  | succ cnt ih =>
    rw [strategy_rw_succ] at h
    cases hp : page_op (traced drv) reg fuel bp.bio_cmd ndev page bp.bio_data off with
    | none =>
      rw [hp] at h
      cases h
    | some x =>
      obtain ⟨err, ndev1, buf⟩ := x
      have hq := page_op_quiet _ _ _ _ _ _ _ _ _ hp
      rw [hp] at h
      simp only at h
      split at h
      · rw [← Option.some.inj h]
        exact hq
      · exact quiet_trans hq (ih _ _ _ _ h)

theorem strategy_erase_quiet (drv : nand_driver σ) (reg : nandreg) (fuel block_size : Nat)
    (cnt block : Nat) (bp : bio) (ndev : nand_device (List bus_op × σ))
    (r : bio × nand_device (List bus_op × σ))
    (h : nand_strategy_erase (traced drv) reg fuel block_size cnt block bp ndev = some r) :
    quiet ndev.hw.1 r.2.hw.1 := by
  induction cnt generalizing block bp ndev with
  | zero =>
    unfold nand_strategy_erase at h
    rw [← Option.some.inj h]
    exact quiet_refl _
  | succ cnt ih =>
    unfold nand_strategy_erase at h
    split at h
    · cases h
    · rename_i err ndev1 hr
      have hq := erase_data_quiet _ _ _ _ _ _ hr
      split at h
      · rw [← Option.some.inj h]
        exact hq
      · exact quiet_trans hq (ih _ _ _ h)

theorem wait_status_loop_traced (drv : nand_driver σ) (reg : nandreg) (fuel status : Nat)
    (s : List bus_op × σ) :
    (nand_wait_status_loop (traced drv) reg fuel status s).isSome
      = (nand_wait_status_loop drv reg fuel status s.2).isSome := by
  induction fuel generalizing status s with
  | zero =>
    unfold nand_wait_status_loop
    split <;> rfl
  | succ fuel ih =>
    unfold nand_wait_status_loop
    split
    · simp only [traced_command, traced_read_8]
      rw [ih]
    · rfl

theorem wait_status_traced (drv : nand_driver σ) (reg : nandreg) (fuel : Nat)
    (s : List bus_op × σ) :
    (nand_wait_status (traced drv) reg fuel s).isSome
      = (nand_wait_status drv reg fuel s.2).isSome := by
  unfold nand_wait_status
  simp only [traced_command, traced_read_8]
  rw [wait_status_loop_traced]

theorem strategy_rw_total (drv : nand_driver σ) (reg : nandreg) (fuel : Nat)
    (hpoll : ∀ hw, (nand_wait_status drv reg fuel hw).isSome = true)
    (cnt page off : Nat) (bp : bio) (ndev : nand_device σ) :
    (nand_strategy_rw drv reg fuel cnt page off bp ndev).isSome = true := by
  induction cnt generalizing page off bp ndev with
  | zero => rfl
  | succ cnt ih =>
    rw [strategy_rw_succ]
    have ht := page_op_total drv reg fuel hpoll bp.bio_cmd ndev page bp.bio_data off
    cases hp : page_op drv reg fuel bp.bio_cmd ndev page bp.bio_data off with
    | none =>
      rw [hp] at ht
      cases ht
    | some x =>
      obtain ⟨err, ndev1, buf⟩ := x
      simp only
      split
      · rfl
      · exact ih _ _ _ _

theorem strategy_erase_total (drv : nand_driver σ) (reg : nandreg) (fuel block_size : Nat)
    (hpoll : ∀ hw, (nand_wait_status drv reg fuel hw).isSome = true)
    (cnt block : Nat) (bp : bio) (ndev : nand_device σ) :
    (nand_strategy_erase drv reg fuel block_size cnt block bp ndev).isSome = true := by
  induction cnt generalizing block bp ndev with
  | zero => rfl
  | succ cnt ih =>
    unfold nand_strategy_erase
    split
    · rename_i hr
      have := erase_data_total drv reg fuel hpoll ndev block
      rw [hr] at this
      cases this
    · split
      · rfl
      · exact ih _ _ _

theorem strategy_rw_eq (drv : nand_driver σ) (reg : nandreg) (fuel : Nat) (bp : bio)
    (ndev : nand_device σ)
    (hc : bp.bio_cmd = bio_cmd_t.BIO_READ ∨ bp.bio_cmd = bio_cmd_t.BIO_WRITE)
    (hps : 0 < ndev.ndev_info.ndi_page_size) :
    nand_strategy drv reg fuel bp ndev
      = match nand_strategy_rw drv reg fuel
          (bp.bio_bcount / ndev.ndev_info.ndi_page_size)
          (bp.bio_offset / ndev.ndev_info.ndi_page_size) 0
          { bp with bio_resid := bp.bio_bcount }
          { ndev with hw := (drv.nand_wait_select true ndev.hw).2 } with
        | none => none
        | some (bp1, ndev2) =>
          some (biodone bp1, { ndev2 with hw := (drv.nand_wait_select false ndev2.hw).2 }) := by
  have hne : ndev.ndev_info.ndi_page_size ≠ 0 := by omega
  unfold nand_strategy
  rcases hc with h | h <;> simp only [h, hne, if_false]

theorem strategy_delete_eq (drv : nand_driver σ) (reg : nandreg) (fuel : Nat) (bp : bio)
    (ndev : nand_device σ) (hc : bp.bio_cmd = bio_cmd_t.BIO_DELETE)
    (hbs : 0 < (ndev.ndev_info.ndi_page_cnt * ndev.ndev_info.ndi_page_size) % 2 ^ 32)
    (hacc : delete_accepted ndev.ndev_info bp) :
    nand_strategy drv reg fuel bp ndev
      = match nand_strategy_erase drv reg fuel
          ((ndev.ndev_info.ndi_page_cnt * ndev.ndev_info.ndi_page_size) % 2 ^ 32)
          (bp.bio_bcount / ((ndev.ndev_info.ndi_page_cnt * ndev.ndev_info.ndi_page_size) % 2 ^ 32))
          (bp.bio_offset / ((ndev.ndev_info.ndi_page_cnt * ndev.ndev_info.ndi_page_size) % 2 ^ 32))
          { bp with bio_resid := bp.bio_bcount }
          { ndev with hw := (drv.nand_wait_select true ndev.hw).2 } with
        | none => none
        | some (bp1, ndev2) =>
          some (biodone bp1, { ndev2 with hw := (drv.nand_wait_select false ndev2.hw).2 }) := by
  have hne : (ndev.ndev_info.ndi_page_cnt * ndev.ndev_info.ndi_page_size) % 2 ^ 32 ≠ 0 := by
    omega
  unfold delete_accepted at hacc
  simp only at hacc
  unfold nand_strategy
  simp only [hc, hne, if_false, hacc.1, hacc.2, ne_eq, not_true_eq_false, or_self]

theorem strategy_delete_reject (drv : nand_driver σ) (reg : nandreg) (fuel : Nat) (bp : bio)
    (ndev : nand_device σ) (hc : bp.bio_cmd = bio_cmd_t.BIO_DELETE)
    (hbs : 0 < (ndev.ndev_info.ndi_page_cnt * ndev.ndev_info.ndi_page_size) % 2 ^ 32)
    (hacc : ¬ delete_accepted ndev.ndev_info bp) :
    nand_strategy drv reg fuel bp ndev
      = some ({ bp with bio_resid := bp.bio_bcount, bio_error := ENOTSUP,
                        bio_flags := bp.bio_flags ||| BIO_ERROR,
                        bio_done := bp.bio_done + 1 }, ndev) := by
  have hne : (ndev.ndev_info.ndi_page_cnt * ndev.ndev_info.ndi_page_size) % 2 ^ 32 ≠ 0 := by
    omega
  unfold delete_accepted at hacc
  simp only [not_and_or] at hacc
  unfold nand_strategy
  simp only [hc, hne, if_false, ne_eq, hacc, if_true]
  rfl

theorem strategy_rw_prefix (drv : nand_driver σ) (reg : nandreg) (fuel : Nat)
    (cnt page0 : Nat) (bp : bio) (ndev : nand_device σ) (j : Nat) (hj : j ≤ cnt)
    (st : nand_device σ × List Nat)
    (hrun : pages_done drv reg fuel bp.bio_cmd ndev.ndev_info.ndi_page_size page0 j
      (ndev, bp.bio_data) = some st) :
    nand_strategy_rw drv reg fuel cnt page0 0 bp ndev
      = nand_strategy_rw drv reg fuel (cnt - j) (page0 + j) (j * ndev.ndev_info.ndi_page_size)
          { bp with bio_data := st.2,
                    bio_resid := bp.bio_resid - ((j * ndev.ndev_info.ndi_page_size : Nat) : Int) }
          st.1
    ∧ st.1.ndev_info = ndev.ndev_info := by
  induction j generalizing st with
  | zero =>
    simp only [pages_done, Option.some.injEq] at hrun
    subst hrun
    simp
  | succ j ih =>
    simp only [pages_done] at hrun
    cases h1 : pages_done drv reg fuel bp.bio_cmd ndev.ndev_info.ndi_page_size page0 j
        (ndev, bp.bio_data) with
    | none =>
      rw [h1] at hrun
      cases hrun
    | some st1 =>
      rw [h1] at hrun
      simp only at hrun
      obtain ⟨ih1, ih2⟩ := ih (by omega) st1 h1
      cases h2 : page_op drv reg fuel bp.bio_cmd st1.1 (page0 + j) st1.2
          (j * ndev.ndev_info.ndi_page_size) with
      | none =>
        rw [h2] at hrun
        cases hrun
      | some r =>
        rw [h2] at hrun
        simp only at hrun
        split at hrun
        · rename_i hr0
          have hst : r.2 = st := Option.some.inj hrun
          have hinfo := page_op_info _ _ _ _ _ _ _ _ _ h2
          obtain ⟨err, ndev1, buf⟩ := r
          simp only at hr0 hst hinfo
          subst hr0
          subst hst
          refine ⟨?_, by rw [hinfo, ih2]⟩
          rw [ih1]
          have hc : cnt - j = (cnt - (j + 1)) + 1 := by omega
          rw [hc, strategy_rw_succ]
          simp only [h2, ne_eq, not_true_eq_false, if_false, ih2]
          congr 1
          · ring
          · simp only [Nat.cast_mul, Nat.cast_add, Nat.cast_one]
            congr 1
            ring
        · cases hrun

theorem rw_ecc_copy_calc (read : Bool) (e : nand_ecc_data) (n i : Nat) (ndev : nand_device σ) :
    (nand_rw_ecc_copy read e n i ndev).ndev_calc_ecc = ndev.ndev_calc_ecc := by
  induction n generalizing i ndev with
  | zero => rfl
  | succ n ih =>
    unfold nand_rw_ecc_copy
    simp only
    rw [ih]
    cases read <;> rfl

theorem rw_ecc_calc (read : Bool) (ndev : nand_device σ) :
    (nand_rw_ecc read ndev).ndev_calc_ecc = ndev.ndev_calc_ecc := by
  unfold nand_rw_ecc
  split
  · exact rw_ecc_copy_calc _ _ _ _ _
  · rfl

theorem rw_data_read_trace (drv : nand_driver σ) (ndev : nand_device (List bus_op × σ))
    (data : List Nat) (base : Nat) (hps : 0 < ndev.ndev_info.ndi_page_size)
    (c : List Nat) (hc : ndev.ndev_calc_ecc = some c) :
    (nand_rw_data (traced drv) ndev data base true).2.1.hw.1
      = ndev.hw.1 ++ [bus_op.init_ecc, bus_op.read ndev.ndev_info.ndi_page_size,
          bus_op.calc_ecc, bus_op.read ndev.ndev_info.ndi_spare_size,
          bus_op.fix_data ndev.ndev_info.ndi_page_size] := by
  obtain ⟨info, ecc, oob, calc_ecc, read_ecc, hw⟩ := ndev
  simp only at hps hc
  subst hc
  cases ecc with
  | none =>
    simp only [nand_rw_data, nand_rw_xfer_eq, nand_rw_fix_eq, hps, if_true,
      rw_ecc_calc, rw_ecc_hw, Option.map_some', Option.isSome_some, Bool.and_true,
      traced_init_ecc, traced_read, traced_calc_ecc, traced_fix_data, Nat.sub_zero,
      lt_self_iff_false, if_false]
    split_ifs <;> simp
  | some e =>
    by_cases h : info.ndi_page_size > e.ecc_protect
    · have h' : e.ecc_protect < info.ndi_page_size := h
      simp only [nand_rw_data, nand_rw_xfer_eq, nand_rw_fix_eq, hps, if_true,
        rw_ecc_calc, rw_ecc_hw, Option.map_some', Option.isSome_some, Bool.and_true,
        traced_init_ecc, traced_read, traced_calc_ecc, traced_fix_data, Nat.sub_zero,
        h, h']
      split_ifs <;> simp
    · simp only [nand_rw_data, nand_rw_xfer_eq, nand_rw_fix_eq, hps, if_true,
        rw_ecc_calc, rw_ecc_hw, Option.map_some', Option.isSome_some, Bool.and_true,
        traced_init_ecc, traced_read, traced_calc_ecc, traced_fix_data, Nat.sub_zero,
        h, lt_self_iff_false, if_false]
      split_ifs <;> simp

theorem blit_length (b : List Nat) (p : Nat) (x : List Nat) :
    (blit b p x).length = b.length := by
  induction b generalizing p x with
  | nil => simp [blit_nil]
  | cons a b ih =>
    cases p with
    | zero =>
      cases x with
      | nil => rfl
      | cons y ys => simp [blit, ih]
    | succ p => simp [blit, ih]

theorem blit_zero (b x : List Nat) (h : x.length ≤ b.length) :
    blit b 0 x = x ++ b.drop x.length := by
  induction b generalizing x with
  | nil =>
    have : x = [] := List.length_eq_zero.mp (by simpa using h)
    subst this
    rfl
  | cons a b ih =>
    cases x with
    | nil => rfl
    | cons y ys =>
      simp only [blit, List.length_cons, List.drop_succ_cons, List.cons_append, List.cons.injEq,
        true_and]
      exact ih ys (by simpa using h)

theorem blit_zero_full (b x : List Nat) (h : x.length = b.length) : blit b 0 x = x := by
  rw [blit_zero b x (by omega), h, List.drop_length, List.append_nil]

theorem blit_append (a b : List Nat) (x : List Nat) :
    blit (a ++ b) a.length x = a ++ blit b 0 x := by
  induction a with
  | nil => rfl
  | cons y ys ih => simp [blit, ih]

theorem slice_blit (b : List Nat) (p : Nat) (x : List Nat) (h : p + x.length ≤ b.length) :
    slice (blit b p x) p x.length = x := by
  induction b generalizing p x with
  | nil =>
    have hx : x.length = 0 := by
      simp only [List.length_nil] at h
      omega
    have : x = [] := List.length_eq_zero.mp hx
    subst this
    simp [slice]
  | cons a b ih =>
    cases p with
    | zero =>
      cases x with
      | nil => simp [slice]
      | cons y ys =>
        simp only [blit, slice, List.drop_zero, List.length_cons, List.take_succ_cons,
          List.cons.injEq, true_and]
        have := ih 0 ys (by simp only [List.length_cons] at h; omega)
        simpa [slice] using this
    | succ p =>
      simp only [blit, slice, List.drop_succ_cons]
      exact ih p x (by simp only [List.length_cons] at h; omega)

theorem blit_slice_self (b : List Nat) (p n : Nat) : blit b p (slice b p n) = b := by
  induction b generalizing p n with
  | nil => exact blit_nil _ _
  | cons a b ih =>
    cases p with
    | zero =>
      cases n with
      | zero => simp [slice, blit]
      | succ n =>
        simp only [slice, List.drop_zero, List.take_succ_cons, blit, List.cons.injEq, true_and]
        have := ih 0 n
        simpa [slice] using this
    | succ p =>
      simp only [slice, List.drop_succ_cons, blit, List.cons.injEq, true_and]
      exact ih p n

theorem blit_blit_zero (c x : List Nat) : blit (blit c 0 x) 0 x = blit c 0 x := by
  induction c generalizing x with
  | nil => simp [blit_nil]
  | cons a c ih =>
    cases x with
    | nil => rfl
    | cons y ys => simp [blit, ih]

theorem slice_length (b : List Nat) (p n : Nat) (h : p + n ≤ b.length) :
    (slice b p n).length = n := by
  simp only [slice, List.length_take, List.length_drop]
  omega

theorem slice_append_left (a b : List Nat) : slice (a ++ b) 0 a.length = a := by
  simp [slice]

theorem slice_append_right (a b : List Nat) : slice (a ++ b) a.length b.length = b := by
  simp [slice]

theorem slice_zero_full (b : List Nat) : slice b 0 b.length = b := by
  simp [slice]

theorem rw_data_write_eq (drv : nand_driver σ) (ndev : nand_device σ) (data : List Nat)
    (base : Nat) (hps : 0 < ndev.ndev_info.ndi_page_size)
    (e : nand_ecc_data) (hecc : ndev.ndev_ecc = some e)
    (c : List Nat) (hc : ndev.ndev_calc_ecc = some c) :
    nand_rw_data drv ndev data base false
      = (let hw1 := (drv.nand_init_ecc ndev.hw).2
         let hw2 := (drv.nand_write ndev.ndev_info.ndi_page_size
           (slice data base ndev.ndev_info.ndi_page_size) hw1).2
         let ce := drv.nand_calc_ecc hw2
         let nd2 : nand_device σ :=
           { ndev with
             hw := ce.2.2, ndev_calc_ecc := some (blit c 0 ce.2.1),
             ndev_oob := ndev.ndev_oob.map
               (fun o => blit o 0 (List.replicate ndev.ndev_info.ndi_spare_size 0xFF)) }
         let nd3 := nand_rw_ecc_copy false e e.ecc_size 0 nd2
         let w := drv.nand_write ndev.ndev_info.ndi_spare_size
           (slice (nd3.ndev_oob.getD []) 0 ndev.ndev_info.ndi_spare_size) ce.2.2
         (0, { nd3 with hw := w.2 }, data)) := by
  obtain ⟨info, ecc, oob, calc_ecc, read_ecc, hw⟩ := ndev
  simp only at hps hc hecc
  subst hc
  subst hecc
  by_cases h : info.ndi_page_size > e.ecc_protect
  · have h' : e.ecc_protect < info.ndi_page_size := h
    simp only [nand_rw_data, nand_rw_xfer_eq, nand_rw_ecc, hps, if_true, rw_ecc_copy_hw,
      Option.map_some', Option.isSome_some, Bool.and_false, Bool.false_eq_true, if_false,
      Nat.sub_zero, h, h', Nat.add_zero]
  · simp only [nand_rw_data, nand_rw_xfer_eq, nand_rw_ecc, hps, if_true, rw_ecc_copy_hw,
      Option.map_some', Option.isSome_some, Bool.and_false, Bool.false_eq_true, if_false,
      Nat.sub_zero, h, lt_self_iff_false, Nat.add_zero]

theorem rw_data_read_eq (drv : nand_driver σ) (ndev : nand_device σ) (data : List Nat)
    (base : Nat) (hps : 0 < ndev.ndev_info.ndi_page_size)
    (e : nand_ecc_data) (hecc : ndev.ndev_ecc = some e)
    (c : List Nat) (hc : ndev.ndev_calc_ecc = some c) :
    nand_rw_data drv ndev data base true
      = (let hw1 := (drv.nand_init_ecc ndev.hw).2
         let rd := drv.nand_read ndev.ndev_info.ndi_page_size hw1
         let data2 := blit data base rd.2.1
         let ce := drv.nand_calc_ecc rd.2.2
         let rs := drv.nand_read ndev.ndev_info.ndi_spare_size ce.2.2
         let nd2 : nand_device σ :=
           { ndev with
             hw := rs.2.2, ndev_calc_ecc := some (blit c 0 ce.2.1),
             ndev_oob := ndev.ndev_oob.map (fun o => blit o 0 rs.2.1) }
         let nd3 := nand_rw_ecc_copy true e e.ecc_size 0 nd2
         let f := drv.nand_fix_data ndev.ndev_info.ndi_page_size
           (slice data2 base ndev.ndev_info.ndi_page_size)
           (List.drop 0 (blit c 0 ce.2.1)) (List.drop 0 (nd3.ndev_read_ecc.getD [])) rs.2.2
         (f.1, { nd3 with hw := f.2.2 }, blit data2 base f.2.1)) := by
  obtain ⟨info, ecc, oob, calc_ecc, read_ecc, hw⟩ := ndev
  simp only at hps hc hecc
  subst hc
  subst hecc
  by_cases h : info.ndi_page_size > e.ecc_protect
  · have h' : e.ecc_protect < info.ndi_page_size := h
    simp only [nand_rw_data, nand_rw_xfer_eq, nand_rw_fix_eq, nand_rw_ecc, hps, if_true,
      rw_ecc_copy_hw, rw_ecc_copy_calc,
      Option.map_some', Option.isSome_some, Bool.and_true, Option.getD_some,
      Nat.sub_zero, h, h', Nat.add_zero]
    split_ifs with h0
    · rfl
    · simp only [ne_eq, not_not] at h0
      rw [h0]
  · simp only [nand_rw_data, nand_rw_xfer_eq, nand_rw_fix_eq, nand_rw_ecc, hps, if_true,
      rw_ecc_copy_hw, rw_ecc_copy_calc,
      Option.map_some', Option.isSome_some, Bool.and_true, Option.getD_some,
      Nat.sub_zero, h, lt_self_iff_false, Nat.add_zero, if_false]
    split_ifs with h0
    · rfl
    · simp only [ne_eq, not_not] at h0
      rw [h0]

theorem getD_set_self (l : List Nat) (i v : Nat) (h : i < l.length) :
    (l.set i v).getD i 0 = v := by
  simp [List.getElem?_set_self h]

theorem getD_set_ne (l : List Nat) (i q v : Nat) (h : i ≠ q) :
    (l.set i v).getD q 0 = l.getD q 0 := by
  simp [List.getElem?_set_ne h]

theorem rw_ecc_copy_write (e : nand_ecc_data) (c : List Nat) (n i : Nat) (nd : nand_device σ)
    (o : List Nat) (ho : nd.ndev_oob = some o) (hc : nd.ndev_calc_ecc = some c)
    (hlt : ∀ j, i ≤ j → j < i + n → e.ecc_pos.getD j 0 < o.length)
    (hinj : ∀ j k, i ≤ j → j < i + n → i ≤ k → k < i + n → j ≠ k →
      e.ecc_pos.getD j 0 ≠ e.ecc_pos.getD k 0) :
    ∃ o1, (nand_rw_ecc_copy false e n i nd).ndev_oob = some o1
      ∧ o1.length = o.length
      ∧ (∀ j, i ≤ j → j < i + n → o1.getD (e.ecc_pos.getD j 0) 0 = c.getD j 0)
      ∧ (∀ q, (∀ j, i ≤ j → j < i + n → e.ecc_pos.getD j 0 ≠ q) → o1.getD q 0 = o.getD q 0)
      ∧ (nand_rw_ecc_copy false e n i nd).ndev_read_ecc = nd.ndev_read_ecc := by
  induction n generalizing i nd o with
  | zero =>
    refine ⟨o, ho, rfl, ?_, fun _ _ => rfl, rfl⟩
    intro j h1 h2
    omega
  | succ n ih =>
    unfold nand_rw_ecc_copy
    simp only [Bool.false_eq_true, if_false]
    obtain ⟨o1, h1, h2, h3, h4, h5⟩ := ih (i + 1)
      { nd with ndev_oob := buf_set nd.ndev_oob (e.ecc_pos.getD i 0) (buf_get nd.ndev_calc_ecc i) }
      (o.set (e.ecc_pos.getD i 0) (c.getD i 0))
      (by simp [buf_set, buf_get, ho, hc]) hc
      (by
        intro j hj1 hj2
        rw [List.length_set]
        exact hlt j (by omega) (by omega))
      (by
        intro j k hj1 hj2 hk1 hk2 hjk
        exact hinj j k (by omega) (by omega) (by omega) (by omega) hjk)
    refine ⟨o1, h1, by rw [h2, List.length_set], ?_, ?_, h5⟩
    · intro j hj1 hj2
      by_cases hji : j = i
      · subst hji
        rw [h4 _ (fun k hk1 hk2 => hinj k j (by omega) (by omega) (by omega) (by omega)
          (by omega))]
        exact getD_set_self _ _ _ (hlt j (le_refl _) (by omega))
      · exact h3 j (by omega) (by omega)
    · intro q hq
      rw [h4 q (fun j hj1 hj2 => hq j (by omega) (by omega))]
      exact getD_set_ne _ _ _ _ (hq i (le_refl _) (by omega))

theorem rw_ecc_copy_read (e : nand_ecc_data) (o : List Nat) (n i : Nat) (nd : nand_device σ)
    (r : List Nat) (ho : nd.ndev_oob = some o) (hr : nd.ndev_read_ecc = some r)
    (hn : i + n ≤ r.length) :
    ∃ r1, (nand_rw_ecc_copy true e n i nd).ndev_read_ecc = some r1
      ∧ r1.length = r.length
      ∧ (∀ j, i ≤ j → j < i + n → r1.getD j 0 = o.getD (e.ecc_pos.getD j 0) 0)
      ∧ (∀ j, j < i → r1.getD j 0 = r.getD j 0)
      ∧ (nand_rw_ecc_copy true e n i nd).ndev_oob = nd.ndev_oob := by
  induction n generalizing i nd r with
  | zero =>
    refine ⟨r, hr, rfl, ?_, fun _ _ => rfl, rfl⟩
    intro j h1 h2
    omega
  | succ n ih =>
    unfold nand_rw_ecc_copy
    simp only [if_true]
    obtain ⟨r1, h1, h2, h3, h4, h5⟩ := ih (i + 1)
      { nd with
        ndev_read_ecc := buf_set nd.ndev_read_ecc i (buf_get nd.ndev_oob (e.ecc_pos.getD i 0)) }
      (r.set i (o.getD (e.ecc_pos.getD i 0) 0)) ho
      (by simp [buf_set, buf_get, ho, hr])
      (by rw [List.length_set]; omega)
    refine ⟨r1, h1, by rw [h2, List.length_set], ?_, ?_, h5⟩
    · intro j hj1 hj2
      by_cases hji : j = i
      · subst hji
        rw [h4 j (by omega)]
        exact getD_set_self _ _ _ (by omega)
      · exact h3 j (by omega) (by omega)
    · intro j hj
      rw [h4 j (by omega)]
      exact getD_set_ne _ _ _ _ (by omega)

theorem list_eq_of_getD (a b : List Nat) (hl : a.length = b.length)
    (h : ∀ j, j < a.length → a.getD j 0 = b.getD j 0) : a = b := by
  apply List.ext_getElem hl
  intro j h1 h2
  have := h j h1
  simpa [List.getElem?_eq_getElem h1, List.getElem?_eq_getElem h2] using this

theorem chip_cells (cells d o : List Nat) (p s : Nat) (hd : d.length = p) (ho : o.length = s)
    (hcells : cells.length = p + s) : blit (blit cells 0 d) p o = d ++ o := by
  rw [blit_zero cells d (by omega)]
  subst hd
  rw [blit_append, blit_zero_full]
  rw [List.length_drop]
  omega

theorem slice_cells_data (d o : List Nat) (p : Nat) (hd : d.length = p) :
    slice (d ++ o) 0 p = d := by
  subst hd
  exact slice_append_left _ _

theorem slice_cells_spare (d o : List Nat) (p s : Nat) (hd : d.length = p) (ho : o.length = s) :
    slice (d ++ o) p s = o := by
  subst hd
  subst ho
  exact slice_append_right _ _

theorem s3c24x0_fix_data_same (len : Nat) (data x : List Nat) :
    s3c24x0_fix_data len data x x = (0, data) := by
  simp [s3c24x0_fix_data]

theorem chip_init_ecc (ecc : List Nat → List Nat) (s : flash_chip) :
    (chip_driver ecc).nand_init_ecc s = (0, { s with seen := [] }) := rfl

theorem chip_command (ecc : List Nat → List Nat) (c : Nat) (s : flash_chip) :
    (chip_driver ecc).nand_command c s = (0, { s with cursor := 0 }) := rfl

theorem chip_read (ecc : List Nat → List Nat) (len : Nat) (s : flash_chip) :
    (chip_driver ecc).nand_read len s
      = (0, slice s.cells s.cursor len,
          { s with cursor := s.cursor + len, seen := s.seen ++ slice s.cells s.cursor len }) :=
  rfl

theorem chip_write (ecc : List Nat → List Nat) (len : Nat) (bytes : List Nat) (s : flash_chip) :
    (chip_driver ecc).nand_write len bytes s
      = (0, { s with cells := blit s.cells s.cursor bytes, cursor := s.cursor + len,
                     seen := s.seen ++ bytes }) := rfl

theorem chip_calc_ecc (ecc : List Nat → List Nat) (s : flash_chip) :
    (chip_driver ecc).nand_calc_ecc s = (0, ecc s.seen, s) := rfl

theorem chip_fix_data (ecc : List Nat → List Nat) (len : Nat) (data c r : List Nat)
    (s : flash_chip) :
    (chip_driver ecc).nand_fix_data len data c r s
      = ((s3c24x0_fix_data len data c r).1, (s3c24x0_fix_data len data c r).2, s) := rfl

theorem error_flag_twice (flags : Nat) :
    (flags ||| BIO_ERROR) ||| BIO_ERROR = flags ||| BIO_ERROR := by
  rw [Nat.lor_assoc, Nat.or_self]

theorem probe_scan_first_match (manf_id dev_id : Nat) (chips : List nand_device_info) :
    nand_probe_scan manf_id dev_id chips = first_match chips manf_id dev_id := by
  induction chips with
  | nil => rfl
  | cons c cs ih =>
    unfold nand_probe_scan first_match catalog
    rw [List.takeWhile_cons]
    by_cases hn : c.ndi_name = none
    · simp [hn]
    · have hs : c.ndi_name.isSome = true := by
        cases h : c.ndi_name with
        | none => exact absurd h hn
        | some _ => rfl
      rw [if_neg hn]
      simp only [hs, if_true]
      by_cases hm : c.ndi_manf_id = manf_id ∧ c.ndi_dev_id = dev_id
      · rw [if_pos hm, List.find?_cons_of_pos _ (by simpa using hm)]
      · rw [if_neg hm, List.find?_cons_of_neg _ (by simpa using hm), ih]
        rfl

theorem probe_ok_eq (chips : List nand_device_info) (caps : nand_driver_caps)
    (drv : nand_driver σ) (reg : nandreg) (ndev : nand_device σ)
    (hcaps : caps.ndri_command = true ∧ caps.ndri_address = true ∧ caps.ndri_read = true
      ∧ caps.ndri_read_8 = true ∧ caps.ndri_write = true)
    (hreset : (drv.nand_command reg.NAND_CMD_RESET ndev.hw).1 = 0) :
    nand_probe_in chips caps drv reg ndev
      = (let r := nand_readid drv reg
           { ndev with
             ndev_info := { ndev.ndev_info with ndi_cell_size := 8 },
             hw := (drv.nand_wait_rnb (drv.nand_command reg.NAND_CMD_RESET ndev.hw).2).2 }
         match first_match chips r.2.ndev_info.ndi_manf_id r.2.ndev_info.ndi_dev_id with
         | some chip => (0, { r.2 with ndev_info := chip })
         | none => (ENODEV, r.2)) := by
  obtain ⟨h1, h2, h3, h4, h5⟩ := hcaps
  unfold nand_probe_in
  simp only [h1, h2, h3, h4, h5, Bool.true_eq_false, or_self, if_false, hreset, ne_eq,
    not_true_eq_false, probe_scan_first_match]
  rfl

theorem catalog_nand_chips (reg : nandreg) :
    catalog (nand_chips reg) = (nand_chips reg).take 3 := by
  simp [catalog, nand_chips, List.takeWhile]

theorem wait_status_eq_loop (drv : nand_driver σ) (reg : nandreg) (fuel : Nat) (hw : σ) :
    nand_wait_status drv reg fuel hw
      = nand_wait_status_loop drv reg fuel (status_poll drv reg hw).1 (status_poll drv reg hw).2 :=
  rfl

theorem status_byte_succ (drv : nand_driver σ) (reg : nandreg) (hw : σ) (i : Nat) :
    status_byte drv reg hw (i + 1) = status_byte drv reg (status_poll drv reg hw).2 i := rfl

theorem wait_status_loop_first_ready (drv : nand_driver σ) (reg : nandreg) (k fuel : Nat)
    (hw : σ) (hk : k ≤ fuel)
    (hbusy : ∀ i, i < k → status_byte drv reg hw i &&& reg.NAND_STATUS_RDY = 0)
    (hready : status_byte drv reg hw k &&& reg.NAND_STATUS_RDY ≠ 0) :
    nand_wait_status_loop drv reg fuel (status_poll drv reg hw).1 (status_poll drv reg hw).2
      = some (status_byte drv reg hw k, status_after drv reg (k + 1) hw) := by
  induction k generalizing fuel hw with
  | zero =>
    have h0 : ¬ ((status_poll drv reg hw).1 &&& reg.NAND_STATUS_RDY = 0) := hready
    cases fuel with
    | zero =>
      unfold nand_wait_status_loop
      rw [if_neg h0]
      rfl
    | succ f =>
      unfold nand_wait_status_loop
      rw [if_neg h0]
      rfl
  | succ k ih =>
    have h0 : (status_poll drv reg hw).1 &&& reg.NAND_STATUS_RDY = 0 := hbusy 0 (by omega)
    cases fuel with
    | zero => omega
    | succ f =>
      unfold nand_wait_status_loop
      rw [if_pos h0]
      have := ih f (status_poll drv reg hw).2 (by omega)
        (fun i hi => by
          rw [← status_byte_succ]
          exact hbusy (i + 1) (by omega))
        (by
          rw [← status_byte_succ]
          exact hready)
      exact this

theorem wait_status_first_ready (drv : nand_driver σ) (reg : nandreg) (k fuel : Nat)
    (hw : σ) (hk : k ≤ fuel)
    (hbusy : ∀ i, i < k → status_byte drv reg hw i &&& reg.NAND_STATUS_RDY = 0)
    (hready : status_byte drv reg hw k &&& reg.NAND_STATUS_RDY ≠ 0) :
    nand_wait_status drv reg fuel hw
      = some (status_byte drv reg hw k, status_after drv reg (k + 1) hw) := by
  rw [wait_status_eq_loop]
  exact wait_status_loop_first_ready drv reg k fuel hw hk hbusy hready

theorem status_after_trace (drv : nand_driver σ) (reg : nandreg) (n : Nat)
    (s : List bus_op × σ) :
    (status_after (traced drv) reg n s).1 = s.1 ++ poll_trace reg n := by
  induction n generalizing s with
  | zero => simp [status_after, poll_trace]
  | succ n ih =>
    unfold status_after
    rw [ih]
    simp [status_poll, traced_command, traced_read_8, poll_trace]

theorem rw_data_write_plain (drv : nand_driver σ) (ndev : nand_device σ) (data : List Nat)
    (base : Nat) (hps : 0 < ndev.ndev_info.ndi_page_size)
    (hc : ndev.ndev_calc_ecc = none) :
    nand_rw_data drv ndev data base false
      = (let hw1 := (drv.nand_init_ecc ndev.hw).2
         let hw2 := (drv.nand_write ndev.ndev_info.ndi_page_size
           (slice data base ndev.ndev_info.ndi_page_size) hw1).2
         let oob := ndev.ndev_oob.map
           (fun o => blit o 0 (List.replicate ndev.ndev_info.ndi_spare_size 0xFF))
         let w := drv.nand_write ndev.ndev_info.ndi_spare_size
           (slice (oob.getD []) 0 ndev.ndev_info.ndi_spare_size) hw2
         (0, { ndev with hw := w.2, ndev_oob := oob }, data)) := by
  obtain ⟨info, ecc, oob, calc_ecc, read_ecc, hw⟩ := ndev
  simp only at hps hc
  subst hc
  cases ecc with
  | none =>
    simp only [nand_rw_data, nand_rw_xfer_eq, nand_rw_ecc, hps, if_true,
      Option.map_none', Option.isSome_none, Bool.false_and, Bool.false_eq_true, if_false,
      Nat.sub_zero, lt_self_iff_false, Nat.add_zero]
  | some e =>
    by_cases h : info.ndi_page_size > e.ecc_protect
    · have h' : e.ecc_protect < info.ndi_page_size := h
      simp only [nand_rw_data, nand_rw_xfer_eq, nand_rw_ecc, hps, if_true,
        Option.map_none', Option.isSome_none, Bool.false_and, Bool.false_eq_true, if_false,
        Nat.sub_zero, h, h', Nat.add_zero]
    · simp only [nand_rw_data, nand_rw_xfer_eq, nand_rw_ecc, hps, if_true,
        Option.map_none', Option.isSome_none, Bool.false_and, Bool.false_eq_true, if_false,
        Nat.sub_zero, h, lt_self_iff_false, Nat.add_zero]

theorem getD_replicate_lt (n v q : Nat) (h : q < n) : (List.replicate n v).getD q 0 = v := by
  simp [List.getElem?_replicate, h]

theorem rw_data_write_oob (drv : nand_driver σ) (ndev : nand_device σ) (data : List Nat)
    (base : Nat) (e : nand_ecc_data) (c o : List Nat)
    (hps : 0 < ndev.ndev_info.ndi_page_size)
    (hecc : ndev.ndev_ecc = some e) (hc : ndev.ndev_calc_ecc = some c)
    (ho : ndev.ndev_oob = some o) (hol : o.length = ndev.ndev_info.ndi_spare_size)
    (hlt : ∀ j, j < e.ecc_size → e.ecc_pos.getD j 0 < ndev.ndev_info.ndi_spare_size)
    (hinj : ∀ j k, j < e.ecc_size → k < e.ecc_size → j ≠ k →
      e.ecc_pos.getD j 0 ≠ e.ecc_pos.getD k 0) :
    ∃ o1, nand_rw_data drv ndev data base false
        = (0,
            { ndev with
              hw := (drv.nand_write ndev.ndev_info.ndi_spare_size o1
                (drv.nand_calc_ecc (drv.nand_write ndev.ndev_info.ndi_page_size
                  (slice data base ndev.ndev_info.ndi_page_size)
                  (drv.nand_init_ecc ndev.hw).2).2).2.2).2,
              ndev_calc_ecc := some (blit c 0
                (drv.nand_calc_ecc (drv.nand_write ndev.ndev_info.ndi_page_size
                  (slice data base ndev.ndev_info.ndi_page_size)
                  (drv.nand_init_ecc ndev.hw).2).2).2.1),
              ndev_oob := some o1 },
            data)
      ∧ o1.length = ndev.ndev_info.ndi_spare_size
      ∧ (∀ j, j < e.ecc_size → o1.getD (e.ecc_pos.getD j 0) 0
          = (blit c 0
              (drv.nand_calc_ecc (drv.nand_write ndev.ndev_info.ndi_page_size
                (slice data base ndev.ndev_info.ndi_page_size)
                (drv.nand_init_ecc ndev.hw).2).2).2.1).getD j 0)
      ∧ (∀ q, q < ndev.ndev_info.ndi_spare_size →
          (∀ j, j < e.ecc_size → e.ecc_pos.getD j 0 ≠ q) → o1.getD q 0 = 0xFF) := by
  obtain ⟨info, ecc, oob, calc_ecc, read_ecc, hw⟩ := ndev
  simp only at hps hecc hc ho hol hlt
  subst hecc hc ho
  obtain ⟨o1, h1, h2, h3, h4, h5⟩ := rw_ecc_copy_write e
    (blit c 0 (drv.nand_calc_ecc (drv.nand_write info.ndi_page_size
      (slice data base info.ndi_page_size) (drv.nand_init_ecc hw).2).2).2.1)
    e.ecc_size 0
    ({ ndev_info := info, ndev_ecc := some e,
       ndev_oob := some (List.replicate info.ndi_spare_size 255),
       ndev_calc_ecc := some (blit c 0 (drv.nand_calc_ecc (drv.nand_write info.ndi_page_size
         (slice data base info.ndi_page_size) (drv.nand_init_ecc hw).2).2).2.1),
       ndev_read_ecc := read_ecc,
       hw := (drv.nand_calc_ecc (drv.nand_write info.ndi_page_size
         (slice data base info.ndi_page_size) (drv.nand_init_ecc hw).2).2).2.2 } :
      nand_device σ)
    (List.replicate info.ndi_spare_size 255) rfl rfl
    (by
      intro j _ hj
      rw [List.length_replicate]
      exact hlt j (by omega))
    (by
      intro j k _ hj _ hk hjk
      exact hinj j k (by omega) (by omega) hjk)
  have ho1 : o1.length = info.ndi_spare_size := by rw [h2, List.length_replicate]
  refine ⟨o1, ?_, ho1, ?_, ?_⟩
  · rw [rw_data_write_eq _ _ _ _ hps e rfl c rfl]
    simp only [Option.map_some',
      blit_zero_full _ _ (by rw [List.length_replicate, hol] :
        (List.replicate info.ndi_spare_size 255).length = o.length)]
    have hf := rw_ecc_copy_hw false e e.ecc_size 0
      ({ ndev_info := info, ndev_ecc := some e,
         ndev_oob := some (List.replicate info.ndi_spare_size 255),
         ndev_calc_ecc := some (blit c 0 (drv.nand_calc_ecc (drv.nand_write info.ndi_page_size
           (slice data base info.ndi_page_size) (drv.nand_init_ecc hw).2).2).2.1),
         ndev_read_ecc := read_ecc,
         hw := (drv.nand_calc_ecc (drv.nand_write info.ndi_page_size
           (slice data base info.ndi_page_size) (drv.nand_init_ecc hw).2).2).2.2 } :
        nand_device σ)
    have hcalc := rw_ecc_copy_calc false e e.ecc_size 0
      ({ ndev_info := info, ndev_ecc := some e,
         ndev_oob := some (List.replicate info.ndi_spare_size 255),
         ndev_calc_ecc := some (blit c 0 (drv.nand_calc_ecc (drv.nand_write info.ndi_page_size
           (slice data base info.ndi_page_size) (drv.nand_init_ecc hw).2).2).2.1),
         ndev_read_ecc := read_ecc,
         hw := (drv.nand_calc_ecc (drv.nand_write info.ndi_page_size
           (slice data base info.ndi_page_size) (drv.nand_init_ecc hw).2).2).2.2 } :
        nand_device σ)
    generalize nand_rw_ecc_copy false e e.ecc_size 0
      ({ ndev_info := info, ndev_ecc := some e,
         ndev_oob := some (List.replicate info.ndi_spare_size 255),
         ndev_calc_ecc := some (blit c 0 (drv.nand_calc_ecc (drv.nand_write info.ndi_page_size
           (slice data base info.ndi_page_size) (drv.nand_init_ecc hw).2).2).2.1),
         ndev_read_ecc := read_ecc,
         hw := (drv.nand_calc_ecc (drv.nand_write info.ndi_page_size
           (slice data base info.ndi_page_size) (drv.nand_init_ecc hw).2).2).2.2 } :
        nand_device σ) = nd3 at h1 h5 hf hcalc ⊢
    obtain ⟨i3, e3, o3, c3, r3, hw3⟩ := nd3
    simp only at h1 h5 hf hcalc
    obtain ⟨hf1, hf2, hf3⟩ := hf
    subst h1 h5 hf1 hf2 hf3 hcalc
    have hso : slice o1 0 i3.ndi_spare_size = o1 := by
      rw [← ho1]
      exact slice_zero_full _
    simp only [Option.getD_some, hso]
  · intro j hj
    exact h3 j (Nat.zero_le _) (by omega)
  · intro q hq hne
    rw [h4 q (fun j _ hj => hne j (by omega))]
    exact getD_replicate_lt _ _ _ hq

theorem rw_stride_le (ndev : nand_device σ) : rw_stride ndev ≤ ndev.ndev_info.ndi_page_size := by
  unfold rw_stride
  split
  · split <;> omega
  · exact Nat.le_refl _

theorem stride_clamp_first (page_size len : Nat) (h : len ≤ page_size) :
    (if len < page_size - 0 then page_size - 0 else len) = page_size := by
  split <;> omega

theorem rw_xfer_first (drv : nand_driver σ) (read : Bool) (page_size base ecc_stride len : Nat)
    (hlen : len ≤ page_size) (hw : σ) (calc_ecc : Option (List Nat)) (data : List Nat) :
    nand_rw_xfer drv read page_size base ecc_stride 0 0 len hw calc_ecc data
      = if 0 < page_size then
          let hw1 := (drv.nand_init_ecc hw).2
          let rd := drv.nand_read page_size hw1
          let hw2 :=
            if read then rd.2.2 else (drv.nand_write page_size (slice data base page_size) hw1).2
          let data2 := if read then blit data base rd.2.1 else data
          let ce := drv.nand_calc_ecc hw2
          (if calc_ecc.isSome then ce.2.2 else hw2,
            calc_ecc.map (fun c => blit c 0 ce.2.1), data2)
        else (hw, calc_ecc, data) := by
  rw [nand_rw_xfer_eq]
  simp only [stride_clamp_first page_size len hlen, Nat.add_zero]

theorem rw_fix_first (drv : nand_driver σ) (page_size base ecc_stride len : Nat)
    (hlen : len ≤ page_size) (calc_ecc read_ecc : List Nat) (hw : σ) (data : List Nat) :
    nand_rw_fix drv page_size base ecc_stride calc_ecc read_ecc 0 0 len hw data
      = if 0 < page_size then
          let r := drv.nand_fix_data page_size (slice data base page_size) calc_ecc read_ecc hw
          (r.1, r.2.2, blit data base r.2.1)
        else (0, hw, data) := by
  rw [nand_rw_fix_eq]
  simp only [stride_clamp_first page_size len hlen, Nat.add_zero, List.drop_zero]

theorem rw_data_stride (drv : nand_driver σ) (ndev : nand_device σ) (data : List Nat)
    (base : Nat) (read : Bool) :
    nand_rw_data drv ndev data base read
      = (let page_size := ndev.ndev_info.ndi_page_size
         let ecc_stride :=
           match ndev.ndev_ecc with
           | some e => e.ecc_stride
           | none => 0
         let x := nand_rw_xfer drv read page_size base ecc_stride 0 0 (rw_stride ndev) ndev.hw
           ndev.ndev_calc_ecc data
         let ndev1 : nand_device σ := { ndev with hw := x.1, ndev_calc_ecc := x.2.1 }
         let data1 := x.2.2
         let rd := drv.nand_read ndev.ndev_info.ndi_spare_size ndev1.hw
         let blank := List.replicate ndev.ndev_info.ndi_spare_size 0xFF
         let ndev2 : nand_device σ :=
           if read then
             { ndev1 with
               hw := rd.2.2, ndev_oob := ndev1.ndev_oob.map (fun o => blit o 0 rd.2.1) }
           else { ndev1 with ndev_oob := ndev1.ndev_oob.map (fun o => blit o 0 blank) }
         let ndev3 := nand_rw_ecc read ndev2
         let f := nand_rw_fix drv page_size base ecc_stride (ndev3.ndev_calc_ecc.getD [])
           (ndev3.ndev_read_ecc.getD []) 0 0 (rw_stride ndev) ndev3.hw data1
         if ndev3.ndev_calc_ecc.isSome && read then
           if f.1 ≠ 0 then (f.1, { ndev3 with hw := f.2.1 }, f.2.2)
           else (0, { ndev3 with hw := f.2.1 }, f.2.2)
         else if read then (0, ndev3, data1)
         else
           let w := drv.nand_write ndev.ndev_info.ndi_spare_size
             (slice (ndev3.ndev_oob.getD []) 0 ndev.ndev_info.ndi_spare_size) ndev3.hw
           (0, { ndev3 with hw := w.2 }, data1)) :=
  rfl

theorem rw_data_read_trace_all (drv : nand_driver σ) (ndev : nand_device (List bus_op × σ))
    (data : List Nat) (base : Nat) :
    (nand_rw_data (traced drv) ndev data base true).2.1.hw.1
      = ndev.hw.1
        ++ (if 0 < ndev.ndev_info.ndi_page_size then
              [bus_op.init_ecc, bus_op.read ndev.ndev_info.ndi_page_size]
                ++ (if ndev.ndev_calc_ecc.isSome then [bus_op.calc_ecc] else [])
            else [])
        ++ [bus_op.read ndev.ndev_info.ndi_spare_size]
        ++ (if ndev.ndev_calc_ecc.isSome ∧ 0 < ndev.ndev_info.ndi_page_size then
              [bus_op.fix_data ndev.ndev_info.ndi_page_size]
            else []) := by
  rw [rw_data_stride]
  simp only [rw_xfer_first _ _ _ _ _ _ (rw_stride_le ndev),
    rw_fix_first _ _ _ _ _ (rw_stride_le ndev), rw_ecc_calc, rw_ecc_hw, if_true]
  obtain ⟨info, ecc, oob, calc_ecc, read_ecc, hw⟩ := ndev
  by_cases hps : 0 < info.ndi_page_size <;> cases calc_ecc <;>
    simp only [hps, traced_init_ecc, traced_read, traced_calc_ecc, traced_fix_data,
      rw_ecc_hw, rw_ecc_calc, Option.map_some', Option.map_none', Option.isSome_some,
      Option.isSome_none, Bool.and_true, if_true, if_false, Bool.false_eq_true, and_true,
      and_false, false_and, true_and, Option.getD_some] <;>
    (try split_ifs) <;> simp

theorem rw_data_write_trace_all (drv : nand_driver σ) (ndev : nand_device (List bus_op × σ))
    (data : List Nat) (base : Nat) :
    (nand_rw_data (traced drv) ndev data base false).2.1.hw.1
      = ndev.hw.1
        ++ (if 0 < ndev.ndev_info.ndi_page_size then
              [bus_op.init_ecc,
                bus_op.write ndev.ndev_info.ndi_page_size
                  (slice data base ndev.ndev_info.ndi_page_size)]
                ++ (if ndev.ndev_calc_ecc.isSome then [bus_op.calc_ecc] else [])
            else [])
        ++ [bus_op.write ndev.ndev_info.ndi_spare_size
              (slice ((nand_rw_data (traced drv) ndev data base false).2.1.ndev_oob.getD []) 0
                ndev.ndev_info.ndi_spare_size)] := by
  rw [rw_data_stride]
  simp only [rw_xfer_first _ _ _ _ _ _ (rw_stride_le ndev),
    rw_fix_first _ _ _ _ _ (rw_stride_le ndev), rw_ecc_calc, rw_ecc_hw]
  obtain ⟨info, ecc, oob, calc_ecc, read_ecc, hw⟩ := ndev
  by_cases hps : 0 < info.ndi_page_size <;> cases calc_ecc <;>
    simp [hps, traced_init_ecc, traced_write, traced_calc_ecc, rw_ecc_hw, rw_ecc_calc]

theorem c_int_of_lt (n : Nat) (h : n < 2 ^ 31) : c_int n = (n : Int) := by
  unfold c_int
  have h1 : n % 2 ^ 32 = n := Nat.mod_eq_of_lt (by omega)
  rw [h1, if_pos h]

theorem u_int_mul_of_lt (a b : Nat) (h : a * b < 2 ^ 32) : u_int_mul a b = a * b :=
  Nat.mod_eq_of_lt h

end Lemmas

/-! ## Theorems -/

section Claims

variable {σ : Type}

/-- Setting the error flag sets it: the bit BIO_ERROR is set in flags | BIO_ERROR. -/
theorem error_flag_set (flags : Nat) : (flags ||| BIO_ERROR) &&& BIO_ERROR = BIO_ERROR := by
  unfold BIO_ERROR
  rw [Nat.and_one_is_mod]
  exact Nat.or_mod_two_eq_one.mpr (Or.inr rfl)

/-- C1 (the code departs from the claim): a delete request at byte offset 1, which is
not a multiple of the block size 131072 (64 pages of 2048 bytes), with a byte count
of one block, is not rejected. The guard of nand_strategy tests the block index
offset / block_size, not the offset, so the run selects the chip, erases block 0
and completes with residual 0 and no error. -/
theorem nand_strategy_delete_unaligned_offset :
    ¬ (131072 ∣ 1)
    ∧ sample_info.ndi_page_cnt * sample_info.ndi_page_size = 131072
    ∧ nand_strategy (traced script_driver) sample_reg 1
        (sample_bio bio_cmd_t.BIO_DELETE 1 131072) (sample_dev ([], []))
      = some ({ sample_bio bio_cmd_t.BIO_DELETE 1 131072 with bio_resid := 0, bio_done := 1 },
          sample_dev ([bus_op.select true, bus_op.command 0x60, bus_op.address 0,
            bus_op.address 0, bus_op.address 0, bus_op.command 0x10, bus_op.command 0x70,
            bus_op.read_8, bus_op.select false], [])) :=
  ⟨by decide, rfl, rfl⟩

/-- C2 (the code departs from the claim): a delete request for exactly the second
block (offset = count = block size = 131072, both block aligned) is rejected with
ENOTSUP, with the full count as residual and without any bus operation, because
the guard of nand_strategy computes block index 1 modulo the block size. -/
theorem nand_strategy_delete_second_block :
    131072 ∣ 131072
    ∧ sample_info.ndi_page_cnt * sample_info.ndi_page_size = 131072
    ∧ nand_strategy (traced script_driver) sample_reg 1
        (sample_bio bio_cmd_t.BIO_DELETE 131072 131072) (sample_dev ([], []))
      = some ({ sample_bio bio_cmd_t.BIO_DELETE 131072 131072 with
                  bio_resid := 131072, bio_error := ENOTSUP, bio_flags := 1, bio_done := 1 },
          sample_dev ([], [])) :=
  ⟨by decide, rfl, rfl⟩

/-- C3: a read or write request of n whole pages in which the first k - 1 page
operations succeed (pages_done) and the k-th one, on page offset / page_size + k - 1
with the buffer slice at (k - 1) * page_size, fails with error e. Then the
dispatcher completes the request once with residual (n - k + 1) * page_size, error
e and the error flag set, and the device is the one left by the failing page
operation followed only by the deselect: no later page is attempted. -/
theorem nand_strategy_first_failure (drv : nand_driver σ) (reg : nandreg) (fuel : Nat)
    (bp : bio) (ndev : nand_device σ) (n k : Nat)
    (hcmd : bp.bio_cmd = bio_cmd_t.BIO_READ ∨ bp.bio_cmd = bio_cmd_t.BIO_WRITE)
    (hps : 0 < ndev.ndev_info.ndi_page_size)
    (hcnt : bp.bio_bcount = n * ndev.ndev_info.ndi_page_size)
    (hk : 1 ≤ k) (hkn : k ≤ n)
    (st : nand_device σ × List Nat)
    (hrun : pages_done drv reg fuel bp.bio_cmd ndev.ndev_info.ndi_page_size
      (bp.bio_offset / ndev.ndev_info.ndi_page_size) (k - 1)
      ({ ndev with hw := (drv.nand_wait_select true ndev.hw).2 }, bp.bio_data) = some st)
    (e : Int) (ndev1 : nand_device σ) (buf : List Nat)
    (hfail : page_op drv reg fuel bp.bio_cmd st.1
      (bp.bio_offset / ndev.ndev_info.ndi_page_size + (k - 1)) st.2
      ((k - 1) * ndev.ndev_info.ndi_page_size) = some (e, ndev1, buf))
    (he : e ≠ 0) :
    nand_strategy drv reg fuel bp ndev
      = some ({ bp with bio_data := buf,
                        bio_resid := (((n - k + 1) * ndev.ndev_info.ndi_page_size : Nat) : Int),
                        bio_error := e,
                        bio_flags := bp.bio_flags ||| BIO_ERROR,
                        bio_done := bp.bio_done + 1 },
          { ndev1 with hw := (drv.nand_wait_select false ndev1.hw).2 })
    ∧ (bp.bio_flags ||| BIO_ERROR) &&& BIO_ERROR = BIO_ERROR := by
  refine ⟨?_, error_flag_set _⟩
  rw [strategy_rw_eq _ _ _ _ _ hcmd hps]
  have hn : bp.bio_bcount / ndev.ndev_info.ndi_page_size = n := by
    rw [hcnt]
    exact Nat.mul_div_cancel _ hps
  rw [hn]
  obtain ⟨h1, _⟩ := strategy_rw_prefix drv reg fuel n
    (bp.bio_offset / ndev.ndev_info.ndi_page_size)
    { bp with bio_resid := bp.bio_bcount }
    { ndev with hw := (drv.nand_wait_select true ndev.hw).2 }
    (k - 1) (by omega) st hrun
  rw [h1]
  have hc : n - (k - 1) = (n - k) + 1 := by omega
  rw [hc, strategy_rw_succ]
  simp only [hfail, he, ne_eq, not_false_eq_true, if_true, biodone]
  congr 3
  rw [hcnt]
  have hsplit : n = (n - k + 1) + (k - 1) := by omega
  conv_lhs => rw [hsplit]
  push_cast
  ring

/-- Witness for C3 with n = 5 and k = 3: the third of five page programs reports
a failed status; the residual is 3 pages of 4 bytes and the error is EIO. -/
theorem nand_strategy_first_failure_witness :
    nand_strategy script_driver sample_reg 1
        { sample_bio bio_cmd_t.BIO_WRITE 0 20 with bio_data := List.replicate 20 7 }
        (tiny_dev [0x40, 0x40, 0x41])
      = some ({ sample_bio bio_cmd_t.BIO_WRITE 0 20 with
                  bio_data := List.replicate 20 7, bio_resid := 12, bio_error := EIO,
                  bio_flags := 1, bio_done := 1 },
          { tiny_dev [] with ndev_oob := some [255, 255] })
    ∧ (0 ||| BIO_ERROR) &&& BIO_ERROR = BIO_ERROR :=
  nand_strategy_first_failure script_driver sample_reg 1
    { sample_bio bio_cmd_t.BIO_WRITE 0 20 with bio_data := List.replicate 20 7 }
    (tiny_dev [0x40, 0x40, 0x41]) 5 3 (Or.inr rfl) (by decide) rfl (by decide) (by decide)
    ({ tiny_dev [0x41] with ndev_oob := some [255, 255] }, List.replicate 20 7)
    (by
      simp [pages_done, page_op, nand_write_data, nand_write_address, nand_write_address_col,
        nand_write_address_row, nand_rw_data, nand_rw_xfer_eq, nand_rw_ecc, nand_wait_status,
        nand_wait_status_loop, script_driver, tiny_dev, tiny_info, sample_reg, sample_bio,
        slice, blit])
    EIO { tiny_dev [] with ndev_oob := some [255, 255] } (List.replicate 20 7)
    (by
      simp [pages_done, page_op, nand_write_data, nand_write_address, nand_write_address_col,
        nand_write_address_row, nand_rw_data, nand_rw_xfer_eq, nand_rw_ecc, nand_wait_status,
        nand_wait_status_loop, script_driver, tiny_dev, tiny_info, sample_reg, sample_bio,
        slice, blit])
    (by decide)

/-- C4: a read or write request whose byte count is a multiple of the page size and
whose count / page_size page operations all succeed, the i-th (from 0) on page
offset / page_size + i with the buffer slice that starts at byte i * page_size
(pages_done). Then the dispatcher returns, the device and buffer are exactly those
left by these page operations in ascending order between one select and one
deselect, the residual is 0 and the error fields are untouched. -/
theorem nand_strategy_all_pages (drv : nand_driver σ) (reg : nandreg) (fuel : Nat) (bp : bio)
    (ndev : nand_device σ)
    (hcmd : bp.bio_cmd = bio_cmd_t.BIO_READ ∨ bp.bio_cmd = bio_cmd_t.BIO_WRITE)
    (hps : 0 < ndev.ndev_info.ndi_page_size)
    (hcnt : ndev.ndev_info.ndi_page_size ∣ bp.bio_bcount)
    (st : nand_device σ × List Nat)
    (hrun : pages_done drv reg fuel bp.bio_cmd ndev.ndev_info.ndi_page_size
      (bp.bio_offset / ndev.ndev_info.ndi_page_size)
      (bp.bio_bcount / ndev.ndev_info.ndi_page_size)
      ({ ndev with hw := (drv.nand_wait_select true ndev.hw).2 }, bp.bio_data) = some st) :
    nand_strategy drv reg fuel bp ndev
      = some ({ bp with bio_data := st.2, bio_resid := 0, bio_done := bp.bio_done + 1 },
          { st.1 with hw := (drv.nand_wait_select false st.1.hw).2 }) := by
  rw [strategy_rw_eq _ _ _ _ _ hcmd hps]
  obtain ⟨h1, _⟩ := strategy_rw_prefix drv reg fuel
    (bp.bio_bcount / ndev.ndev_info.ndi_page_size)
    (bp.bio_offset / ndev.ndev_info.ndi_page_size)
    { bp with bio_resid := bp.bio_bcount }
    { ndev with hw := (drv.nand_wait_select true ndev.hw).2 }
    (bp.bio_bcount / ndev.ndev_info.ndi_page_size) (le_refl _) st hrun
  rw [h1]
  simp only [Nat.sub_self, nand_strategy_rw, biodone, Nat.div_mul_cancel hcnt, sub_self]

/-- Witness for C4: reading 3 pages of 4 bytes from byte offset 4. -/
theorem nand_strategy_all_pages_witness :
    nand_strategy script_driver sample_reg 1
        { sample_bio bio_cmd_t.BIO_READ 4 12 with bio_data := List.replicate 12 7 }
        (tiny_dev [])
      = some ({ sample_bio bio_cmd_t.BIO_READ 4 12 with
                  bio_data := List.replicate 12 0, bio_resid := 0, bio_done := 1 },
          tiny_dev []) :=
  nand_strategy_all_pages script_driver sample_reg 1
    { sample_bio bio_cmd_t.BIO_READ 4 12 with bio_data := List.replicate 12 7 }
    (tiny_dev []) (Or.inl rfl) (by decide) (by decide)
    (tiny_dev [], List.replicate 12 0)
    (by
      simp [pages_done, page_op, nand_read_data, nand_write_address, nand_write_address_col,
        nand_write_address_row, nand_rw_data, nand_rw_xfer_eq, nand_rw_ecc, nand_wait_status,
        nand_wait_status_loop, script_driver, tiny_dev, tiny_info, sample_reg, sample_bio,
        slice, blit])

/-- C5: for a read or write request, or a delete request that the guard accepts,
every run of the dispatcher that returns leaves a bus trace of the form
select(on), then operations none of which is a select, then select(off), whether
the loop ran to completion or stopped at a failure; and the run does return
whenever the status poll of the driver ends within the fuel from every state. -/
theorem nand_strategy_select_bracket (drv : nand_driver σ) (reg : nandreg) (fuel : Nat)
    (bp : bio) (ndev : nand_device (List bus_op × σ))
    (hreq : ((bp.bio_cmd = bio_cmd_t.BIO_READ ∨ bp.bio_cmd = bio_cmd_t.BIO_WRITE)
              ∧ 0 < ndev.ndev_info.ndi_page_size)
            ∨ (bp.bio_cmd = bio_cmd_t.BIO_DELETE
              ∧ 0 < (ndev.ndev_info.ndi_page_cnt * ndev.ndev_info.ndi_page_size) % 2 ^ 32
              ∧ delete_accepted ndev.ndev_info bp)) :
    (∀ r, nand_strategy (traced drv) reg fuel bp ndev = some r →
        ∃ mid, r.2.hw.1 = ndev.hw.1 ++ [bus_op.select true] ++ mid ++ [bus_op.select false]
          ∧ ∀ op ∈ mid, bus_op.is_select op = false)
    ∧ ((∀ hw, (nand_wait_status drv reg fuel hw).isSome = true) →
        (nand_strategy (traced drv) reg fuel bp ndev).isSome = true) := by
  have hlift : (∀ hw, (nand_wait_status drv reg fuel hw).isSome = true) →
      ∀ s, (nand_wait_status (traced drv) reg fuel s).isSome = true := by
    intro hp s
    rw [wait_status_traced]
    exact hp _
  rcases hreq with ⟨hc, hps⟩ | ⟨hc, hbs, hacc⟩
  · rw [strategy_rw_eq _ _ _ _ _ hc hps]
    constructor
    · intro r hr
      split at hr
      · cases hr
      · rename_i bp1 ndev2 hl
        rw [← Option.some.inj hr]
        obtain ⟨mid, hmid, hsel⟩ := strategy_rw_quiet _ _ _ _ _ _ _ _ _ hl
        refine ⟨mid, ?_, hsel⟩
        simp only [traced_wait_select] at hmid ⊢
        rw [hmid]
    · intro hp
      have ht := strategy_rw_total (traced drv) reg fuel (hlift hp)
        (bp.bio_bcount / ndev.ndev_info.ndi_page_size)
        (bp.bio_offset / ndev.ndev_info.ndi_page_size) 0
        { bp with bio_resid := bp.bio_bcount }
        { ndev with hw := ((traced drv).nand_wait_select true ndev.hw).2 }
      split
      · rename_i hl
        rw [hl] at ht
        cases ht
      · rfl
  · rw [strategy_delete_eq _ _ _ _ _ hc hbs hacc]
    constructor
    · intro r hr
      split at hr
      · cases hr
      · rename_i bp1 ndev2 hl
        rw [← Option.some.inj hr]
        obtain ⟨mid, hmid, hsel⟩ := strategy_erase_quiet _ _ _ _ _ _ _ _ _ hl
        refine ⟨mid, ?_, hsel⟩
        simp only [traced_wait_select] at hmid ⊢
        rw [hmid]
    · intro hp
      have ht := strategy_erase_total (traced drv) reg fuel
        ((ndev.ndev_info.ndi_page_cnt * ndev.ndev_info.ndi_page_size) % 2 ^ 32) (hlift hp)
        (bp.bio_bcount / ((ndev.ndev_info.ndi_page_cnt * ndev.ndev_info.ndi_page_size) % 2 ^ 32))
        (bp.bio_offset / ((ndev.ndev_info.ndi_page_cnt * ndev.ndev_info.ndi_page_size) % 2 ^ 32))
        { bp with bio_resid := bp.bio_bcount }
        { ndev with hw := ((traced drv).nand_wait_select true ndev.hw).2 }
      split
      · rename_i hl
        rw [hl] at ht
        cases ht
      · rfl

/-- Witness for C5: erasing two blocks of the small device; the trace has one
select(on) first and one select(off) last. -/
theorem nand_strategy_select_bracket_witness :
    ∃ mid,
      [bus_op.select true, bus_op.command 0x60, bus_op.address 0, bus_op.command 0x10,
        bus_op.command 0x70, bus_op.read_8, bus_op.command 0x60, bus_op.address 1,
        bus_op.command 0x10, bus_op.command 0x70, bus_op.read_8, bus_op.select false]
        = [] ++ [bus_op.select true] ++ mid ++ [bus_op.select false]
      ∧ ∀ op ∈ mid, bus_op.is_select op = false :=
  (nand_strategy_select_bracket script_driver sample_reg 1
    (sample_bio bio_cmd_t.BIO_DELETE 0 16) (tiny_dev ([], []))
    (Or.inr ⟨rfl, by decide, by decide⟩)).1
    ({ sample_bio bio_cmd_t.BIO_DELETE 0 16 with bio_resid := 0, bio_done := 1 },
      tiny_dev ([bus_op.select true, bus_op.command 0x60, bus_op.address 0, bus_op.command 0x10,
        bus_op.command 0x70, bus_op.read_8, bus_op.command 0x60, bus_op.address 1,
        bus_op.command 0x10, bus_op.command 0x70, bus_op.read_8, bus_op.select false], []))
    rfl

/-- C6: round trip of nand_rw_data on the chip model, for an ECC code that is any
function of the bytes transferred. With distinct OOB offsets smaller than the
spare size, scratch buffers of the sizes nand_attach allocates and a positive page
size, writing the page at data + base and reading it back into buf + base returns
0 both times, gives back the page written, and leaves the read ECC buffer equal
to the computed ECC buffer. -/
theorem nand_rw_data_round_trip (ecc : List Nat → List Nat) (ndev : nand_device flash_chip)
    (e : nand_ecc_data) (o c r : List Nat) (data buf : List Nat) (base cmd : Nat)
    (hps : 0 < ndev.ndev_info.ndi_page_size)
    (hecc : ndev.ndev_ecc = some e)
    (hlt : ∀ j, j < e.ecc_size → e.ecc_pos.getD j 0 < ndev.ndev_info.ndi_spare_size)
    (hinj : ∀ j k, j < e.ecc_size → k < e.ecc_size → j ≠ k →
      e.ecc_pos.getD j 0 ≠ e.ecc_pos.getD k 0)
    (ho : ndev.ndev_oob = some o) (hol : o.length = ndev.ndev_info.ndi_spare_size)
    (hc : ndev.ndev_calc_ecc = some c) (hcl : c.length = e.ecc_size)
    (hr : ndev.ndev_read_ecc = some r) (hrl : r.length = e.ecc_size)
    (hcells : ndev.hw.cells.length
      = ndev.ndev_info.ndi_page_size + ndev.ndev_info.ndi_spare_size)
    (hcur : ndev.hw.cursor = 0)
    (hdata : base + ndev.ndev_info.ndi_page_size ≤ data.length)
    (hbuf : base + ndev.ndev_info.ndi_page_size ≤ buf.length) :
    (nand_rw_data (chip_driver ecc) ndev data base false).1 = 0
    ∧ (nand_rw_data (chip_driver ecc)
        { (nand_rw_data (chip_driver ecc) ndev data base false).2.1 with
          hw := ((chip_driver ecc).nand_command cmd
            (nand_rw_data (chip_driver ecc) ndev data base false).2.1.hw).2 }
        buf base true).1 = 0
    ∧ slice (nand_rw_data (chip_driver ecc)
        { (nand_rw_data (chip_driver ecc) ndev data base false).2.1 with
          hw := ((chip_driver ecc).nand_command cmd
            (nand_rw_data (chip_driver ecc) ndev data base false).2.1.hw).2 }
        buf base true).2.2 base ndev.ndev_info.ndi_page_size
      = slice data base ndev.ndev_info.ndi_page_size
    ∧ (nand_rw_data (chip_driver ecc)
        { (nand_rw_data (chip_driver ecc) ndev data base false).2.1 with
          hw := ((chip_driver ecc).nand_command cmd
            (nand_rw_data (chip_driver ecc) ndev data base false).2.1.hw).2 }
        buf base true).2.1.ndev_read_ecc
      = (nand_rw_data (chip_driver ecc)
        { (nand_rw_data (chip_driver ecc) ndev data base false).2.1 with
          hw := ((chip_driver ecc).nand_command cmd
            (nand_rw_data (chip_driver ecc) ndev data base false).2.1.hw).2 }
        buf base true).2.1.ndev_calc_ecc := by
  obtain ⟨info, ecc0, oob, calc_ecc, read_ecc, hw⟩ := ndev
  obtain ⟨cells, cursor, seen⟩ := hw
  simp only at hps hecc hlt ho hol hc hr hcells hcur hdata hbuf
  subst hecc ho hc hr hcur
  -- the page written
  have hd : (slice data base info.ndi_page_size).length = info.ndi_page_size :=
    slice_length _ _ _ hdata
  generalize hD : slice data base info.ndi_page_size = d at hd
  -- write phase
  rw [rw_data_write_eq _ _ _ _ hps e rfl c rfl]
  simp only [chip_init_ecc, chip_write, chip_calc_ecc, Option.map_some', hD, List.nil_append,
    blit_zero_full _ _ (by rw [List.length_replicate, hol] :
      (List.replicate info.ndi_spare_size 255).length = o.length)]
  obtain ⟨o1, h1, h2, h3, _, h5⟩ := rw_ecc_copy_write e (blit c 0 (ecc d)) e.ecc_size 0
    ({ ndev_info := info, ndev_ecc := some e,
       ndev_oob := some (List.replicate info.ndi_spare_size 255),
       ndev_calc_ecc := some (blit c 0 (ecc d)), ndev_read_ecc := some r,
       hw := { cells := blit cells 0 d, cursor := 0 + info.ndi_page_size, seen := d } } :
      nand_device flash_chip)
    (List.replicate info.ndi_spare_size 255) rfl rfl
    (by
      intro j _ hj
      rw [List.length_replicate]
      exact hlt j (by omega))
    (by
      intro j k _ hj _ hk hjk
      exact hinj j k (by omega) (by omega) hjk)
  have hf := rw_ecc_copy_hw false e e.ecc_size 0
    ({ ndev_info := info, ndev_ecc := some e,
       ndev_oob := some (List.replicate info.ndi_spare_size 255),
       ndev_calc_ecc := some (blit c 0 (ecc d)), ndev_read_ecc := some r,
       hw := { cells := blit cells 0 d, cursor := 0 + info.ndi_page_size, seen := d } } :
      nand_device flash_chip)
  have hcalc := rw_ecc_copy_calc false e e.ecc_size 0
    ({ ndev_info := info, ndev_ecc := some e,
       ndev_oob := some (List.replicate info.ndi_spare_size 255),
       ndev_calc_ecc := some (blit c 0 (ecc d)), ndev_read_ecc := some r,
       hw := { cells := blit cells 0 d, cursor := 0 + info.ndi_page_size, seen := d } } :
      nand_device flash_chip)
  generalize nand_rw_ecc_copy false e e.ecc_size 0
    ({ ndev_info := info, ndev_ecc := some e,
       ndev_oob := some (List.replicate info.ndi_spare_size 255),
       ndev_calc_ecc := some (blit c 0 (ecc d)), ndev_read_ecc := some r,
       hw := { cells := blit cells 0 d, cursor := 0 + info.ndi_page_size, seen := d } } :
      nand_device flash_chip) = nd3 at h1 h5 hf hcalc ⊢
  obtain ⟨i3, e3, o3, c3, r3, hw3⟩ := nd3
  simp only at h1 h5 hf hcalc
  obtain ⟨hf1, hf2, hf3⟩ := hf
  subst h1 h5 hf1 hf2 hf3 hcalc
  have ho1 : o1.length = i3.ndi_spare_size := by rw [h2, List.length_replicate]
  have hso : slice o1 0 i3.ndi_spare_size = o1 := by
    rw [← ho1]
    exact slice_zero_full _
  simp only [Option.getD_some, Nat.zero_add, chip_command, hso,
    chip_cells cells d o1 _ _ hd ho1 hcells, true_and]
  rw [rw_data_read_eq _ _ _ _ hps e rfl (blit c 0 (ecc d)) rfl]
  simp only [chip_init_ecc, chip_read, chip_calc_ecc, chip_fix_data, Option.map_some',
    List.nil_append, Nat.zero_add, slice_cells_data d o1 _ hd,
    slice_cells_spare d o1 _ _ hd ho1, blit_blit_zero, blit_zero_full o1 o1 rfl,
    List.drop_zero]
  obtain ⟨r1, g1, g2, g3, _, _⟩ := rw_ecc_copy_read e o1 e.ecc_size 0
    ({ ndev_info := i3, ndev_ecc := some e, ndev_oob := some o1,
       ndev_calc_ecc := some (blit c 0 (ecc d)), ndev_read_ecc := some r,
       hw := { cells := d ++ o1, cursor := i3.ndi_page_size + i3.ndi_spare_size,
               seen := d ++ o1 } } : nand_device flash_chip)
    r rfl rfl (by omega)
  have hr1 : r1 = blit c 0 (ecc d) := by
    apply list_eq_of_getD
    · rw [g2, blit_length, hrl, hcl]
    · intro j hj
      have hj' : j < e.ecc_size := by omega
      rw [g3 j (Nat.zero_le _) (by omega), h3 j (Nat.zero_le _) (by omega)]
  subst hr1
  rw [rw_ecc_copy_calc, g1]
  simp only [Option.getD_some, s3c24x0_fix_data_same, blit_slice_self, true_and, and_true]
  rw [← hd]
  exact slice_blit _ _ _ (by omega)

/-- Witness for C6: the page 1 2 3 4 on the sample chip with a checksum as ECC. -/
theorem nand_rw_data_round_trip_witness :
    (nand_rw_data (chip_driver sum_ecc) chip_dev [1, 2, 3, 4] 0 false).1 = 0
    ∧ (nand_rw_data (chip_driver sum_ecc)
        { (nand_rw_data (chip_driver sum_ecc) chip_dev [1, 2, 3, 4] 0 false).2.1 with
          hw := ((chip_driver sum_ecc).nand_command 0
            (nand_rw_data (chip_driver sum_ecc) chip_dev [1, 2, 3, 4] 0 false).2.1.hw).2 }
        [0, 0, 0, 0] 0 true).1 = 0
    ∧ slice (nand_rw_data (chip_driver sum_ecc)
        { (nand_rw_data (chip_driver sum_ecc) chip_dev [1, 2, 3, 4] 0 false).2.1 with
          hw := ((chip_driver sum_ecc).nand_command 0
            (nand_rw_data (chip_driver sum_ecc) chip_dev [1, 2, 3, 4] 0 false).2.1.hw).2 }
        [0, 0, 0, 0] 0 true).2.2 0 4
      = slice [1, 2, 3, 4] 0 4
    ∧ (nand_rw_data (chip_driver sum_ecc)
        { (nand_rw_data (chip_driver sum_ecc) chip_dev [1, 2, 3, 4] 0 false).2.1 with
          hw := ((chip_driver sum_ecc).nand_command 0
            (nand_rw_data (chip_driver sum_ecc) chip_dev [1, 2, 3, 4] 0 false).2.1.hw).2 }
        [0, 0, 0, 0] 0 true).2.1.ndev_read_ecc
      = (nand_rw_data (chip_driver sum_ecc)
        { (nand_rw_data (chip_driver sum_ecc) chip_dev [1, 2, 3, 4] 0 false).2.1 with
          hw := ((chip_driver sum_ecc).nand_command 0
            (nand_rw_data (chip_driver sum_ecc) chip_dev [1, 2, 3, 4] 0 false).2.1.hw).2 }
        [0, 0, 0, 0] 0 true).2.1.ndev_calc_ecc :=
  nand_rw_data_round_trip sum_ecc chip_dev s3c2410_nand_ecc [0, 0, 0, 0] [0, 0, 0] [0, 0, 0]
    [1, 2, 3, 4] [0, 0, 0, 0] 0 0 (by decide) rfl
    (by
      intro j hj
      have hj3 : j < 3 := hj
      interval_cases j <;> decide)
    (by
      intro j k hj hk hjk
      have hj3 : j < 3 := hj
      have hk3 : k < 3 := hk
      interval_cases j <;> interval_cases k <;> first | exact absurd rfl hjk | decide)
    rfl rfl rfl rfl rfl rfl rfl rfl (by decide) (by decide)

/-- Counterexample to C7: with computed ECC 0 0 0 and read ECC FF FF FF the codes
differ, yet s3c24x0_fix_data returns 0 and leaves the data as it is. -/
theorem s3c24x0_fix_data_silent_success :
    ¬ ∀ (len : Nat) (data calc_ecc read_ecc : List Nat),
        calc_ecc.length = 3 → read_ecc.length = 3 → calc_ecc ≠ read_ecc →
        (s3c24x0_fix_data len data calc_ecc read_ecc).1 ≠ 0
          ∨ (s3c24x0_fix_data len data calc_ecc read_ecc).2 ≠ data := by
  intro h
  have h1 := h 4 [1, 2, 3, 4] [0, 0, 0] [0xFF, 0xFF, 0xFF] rfl rfl (by decide)
  revert h1
  decide

/-- C7 as amended: for 3 byte codes that differ, s3c24x0_fix_data never changes
the data; it returns 0 when the read ECC is FF FF FF (no ECC stored) and EIO in
every other case. -/
theorem s3c24x0_fix_data_mismatch (len : Nat) (data calc_ecc read_ecc : List Nat)
    (hc : calc_ecc.length = 3) (hr : read_ecc.length = 3) (hne : calc_ecc ≠ read_ecc) :
    (s3c24x0_fix_data len data calc_ecc read_ecc).2 = data
    ∧ (read_ecc = [0xFF, 0xFF, 0xFF] → (s3c24x0_fix_data len data calc_ecc read_ecc).1 = 0)
    ∧ (read_ecc ≠ [0xFF, 0xFF, 0xFF] →
        (s3c24x0_fix_data len data calc_ecc read_ecc).1 = EIO) := by
  match calc_ecc, hc, read_ecc, hr, hne with
  | [a, b, c], _, [x, y, z], _, hne =>
    have hd : ¬ (a = x ∧ b = y ∧ c = z) := by
      rintro ⟨rfl, rfl, rfl⟩
      exact hne rfl
    refine ⟨?_, ?_, ?_⟩
    · simp only [s3c24x0_fix_data]
      split_ifs <;> rfl
    · intro h
      simp only [List.cons.injEq, and_true] at h
      obtain ⟨rfl, rfl, rfl⟩ := h
      simp [s3c24x0_fix_data, Nat.xor_eq_zero]
    · intro h
      have hx : ¬ (x = 255 ∧ y = 255 ∧ z = 255) := by
        rintro ⟨rfl, rfl, rfl⟩
        exact h rfl
      simp [s3c24x0_fix_data, Nat.xor_eq_zero, hd, hx]

/-- Witness for C7 as amended: codes 1 2 3 and 1 2 7 give EIO. -/
theorem s3c24x0_fix_data_mismatch_witness :
    (s3c24x0_fix_data 4 [1, 2, 3, 4] [1, 2, 3] [1, 2, 7]).2 = [1, 2, 3, 4]
    ∧ (([1, 2, 7] : List Nat) = [0xFF, 0xFF, 0xFF] →
        (s3c24x0_fix_data 4 [1, 2, 3, 4] [1, 2, 3] [1, 2, 7]).1 = 0)
    ∧ (([1, 2, 7] : List Nat) ≠ [0xFF, 0xFF, 0xFF] →
        (s3c24x0_fix_data 4 [1, 2, 3, 4] [1, 2, 3] [1, 2, 7]).1 = EIO) :=
  s3c24x0_fix_data_mismatch 4 [1, 2, 3, 4] [1, 2, 3] [1, 2, 7] rfl rfl (by decide)

/-- C8 (the code departs from the claim): for page size 2048 and the S3C2410
descriptor (protect length 512) a page read performs a single bulk data transfer of
2048 bytes and computes a single ECC code, not four transfers of 512 bytes: the
clamp of the stride length in nand_rw_data is inverted and extends the first
stride to the whole page. -/
theorem nand_rw_data_single_transfer :
    (nand_rw_data (traced script_driver) (sample_ecc_dev ([], [])) (List.replicate 2048 0) 0
        true).2.1.hw.1
      = [bus_op.init_ecc, bus_op.read 2048, bus_op.calc_ecc, bus_op.read 64,
          bus_op.fix_data 2048] :=
  rw_data_read_trace script_driver (sample_ecc_dev ([], [])) (List.replicate 2048 0) 0
    (by decide) [0, 0, 0] rfl

/-- C9: nand_write_address sends, when with_column is set, column_cycles address
bytes 0 and then row_cycles bytes, the i-th being page / 256^i mod 256; without
with_column only the row bytes. The row bytes weighted by 256^i sum to
page mod 256^row_cycles, which is page when page < 256^row_cycles. -/
theorem nand_write_address_encoding (drv : nand_driver σ) (info : nand_device_info) (p : Nat)
    (with_column : Bool) (t : List bus_op) (hw : σ) :
    (nand_write_address (traced drv) info p with_column (t, hw)).1
      = t ++ (if with_column then List.replicate info.ndi_column_cycles (bus_op.address 0x00)
              else [])
          ++ (List.range info.ndi_row_cycles).map (fun i => bus_op.address (p / 256 ^ i % 256))
    ∧ ((List.range info.ndi_row_cycles).map (fun i => p / 256 ^ i % 256 * 256 ^ i)).sum
        = p % 256 ^ info.ndi_row_cycles
    ∧ (p < 256 ^ info.ndi_row_cycles →
        ((List.range info.ndi_row_cycles).map (fun i => p / 256 ^ i % 256 * 256 ^ i)).sum = p) := by
  refine ⟨?_, row_bytes_sum _ _, ?_⟩
  · unfold nand_write_address
    cases with_column
    · simp only [Bool.false_eq_true, if_false, List.append_nil]
      exact write_address_row_trace _ _ _ _ _
    · simp only [if_true]
      have h1 := write_address_col_trace drv info.ndi_column_cycles t hw
      generalize nand_write_address_col (traced drv) info.ndi_column_cycles (t, hw) = s1 at h1
      obtain ⟨t1, hw1⟩ := s1
      simp only at h1
      rw [write_address_row_trace, h1]
  · intro hp
    rw [row_bytes_sum, Nat.mod_eq_of_lt hp]

/-- Witness for C9: page 0x012345 with 3 row cycles. -/
theorem nand_write_address_encoding_witness :
    0x012345 < 256 ^ sample_info.ndi_row_cycles ∧
    ((List.range sample_info.ndi_row_cycles).map
        (fun i => 0x012345 / 256 ^ i % 256 * 256 ^ i)).sum = 0x012345 :=
  ⟨by decide, (nand_write_address_encoding script_driver sample_info 0x012345 true [] []).2.2
    (by decide)⟩

/-- Counterexample to C10: a device with pages of 65536 bytes and 32768 pages per
block. The block size is 2147483648, but the query for NAND::blocksize is answered
with -2147483648: g_handleattr_int takes the value as a C int. -/
theorem nand_strategy_getattr_int_overflow :
    nand_strategy script_driver sample_reg 0
        { sample_bio bio_cmd_t.BIO_GETATTR 0 4 with bio_attribute := "NAND::blocksize" }
        (wide_block_dev [])
      = some ({ sample_bio bio_cmd_t.BIO_GETATTR 0 4 with
                  bio_attribute := "NAND::blocksize", bio_resid := 4,
                  bio_attr_val := some (-2147483648), bio_done := 1 }, wide_block_dev [])
    ∧ (wide_block_dev ([] : List Nat)).ndev_info.ndi_page_size
        * (wide_block_dev ([] : List Nat)).ndev_info.ndi_page_cnt = 2147483648 := by
  refine ⟨?_, by decide⟩
  simp [nand_strategy, g_handleattr_int, wide_block_dev, sample_info, sample_bio, c_int,
    u_int_mul]

/-- C10 (amended): an attribute query for one of the six keys luncount, blocksize,
blockcount, pagesize, oobsize, cellsize whose value (the logical unit count, page
size times pages per block, blocks per unit, page size, spare size and cell width
respectively) is below 2^31 is answered with that value; the request is delivered
once and its error fields are untouched. -/
theorem nand_strategy_getattr (drv : nand_driver σ) (reg : nandreg) (fuel : Nat) (bp : bio)
    (ndev : nand_device σ) (hcmd : bp.bio_cmd = bio_cmd_t.BIO_GETATTR) :
    (bp.bio_attribute = "NAND::luncount" → ndev.ndev_info.ndi_lun_cnt < 2 ^ 31 →
      nand_strategy drv reg fuel bp ndev
        = some ({ bp with bio_resid := bp.bio_bcount,
                          bio_attr_val := some (ndev.ndev_info.ndi_lun_cnt : Int),
                          bio_done := bp.bio_done + 1 }, ndev))
    ∧ (bp.bio_attribute = "NAND::blocksize" →
      ndev.ndev_info.ndi_page_size * ndev.ndev_info.ndi_page_cnt < 2 ^ 31 →
      nand_strategy drv reg fuel bp ndev
        = some ({ bp with bio_resid := bp.bio_bcount,
                          bio_attr_val := some
                            ((ndev.ndev_info.ndi_page_size * ndev.ndev_info.ndi_page_cnt : Nat) : Int),
                          bio_done := bp.bio_done + 1 }, ndev))
    ∧ (bp.bio_attribute = "NAND::blockcount" → ndev.ndev_info.ndi_block_cnt < 2 ^ 31 →
      nand_strategy drv reg fuel bp ndev
        = some ({ bp with bio_resid := bp.bio_bcount,
                          bio_attr_val := some (ndev.ndev_info.ndi_block_cnt : Int),
                          bio_done := bp.bio_done + 1 }, ndev))
    ∧ (bp.bio_attribute = "NAND::pagesize" → ndev.ndev_info.ndi_page_size < 2 ^ 31 →
      nand_strategy drv reg fuel bp ndev
        = some ({ bp with bio_resid := bp.bio_bcount,
                          bio_attr_val := some (ndev.ndev_info.ndi_page_size : Int),
                          bio_done := bp.bio_done + 1 }, ndev))
    ∧ (bp.bio_attribute = "NAND::oobsize" → ndev.ndev_info.ndi_spare_size < 2 ^ 31 →
      nand_strategy drv reg fuel bp ndev
        = some ({ bp with bio_resid := bp.bio_bcount,
                          bio_attr_val := some (ndev.ndev_info.ndi_spare_size : Int),
                          bio_done := bp.bio_done + 1 }, ndev))
    ∧ (bp.bio_attribute = "NAND::cellsize" → ndev.ndev_info.ndi_cell_size < 2 ^ 31 →
      nand_strategy drv reg fuel bp ndev
        = some ({ bp with bio_resid := bp.bio_bcount,
                          bio_attr_val := some (ndev.ndev_info.ndi_cell_size : Int),
                          bio_done := bp.bio_done + 1 }, ndev)) := by
  refine ⟨?_, ?_, ?_, ?_, ?_, ?_⟩ <;> intro hkey hlt
  · simp [nand_strategy, hcmd, g_handleattr_int, hkey, c_int_of_lt _ hlt]
  · have h32 : ndev.ndev_info.ndi_page_size * ndev.ndev_info.ndi_page_cnt < 2 ^ 32 := by omega
    simp [nand_strategy, hcmd, g_handleattr_int, hkey, u_int_mul_of_lt _ _ h32,
      c_int_of_lt _ hlt]
  · simp [nand_strategy, hcmd, g_handleattr_int, hkey, c_int_of_lt _ hlt]
  · simp [nand_strategy, hcmd, g_handleattr_int, hkey, c_int_of_lt _ hlt]
  · simp [nand_strategy, hcmd, g_handleattr_int, hkey, c_int_of_lt _ hlt]
  · simp [nand_strategy, hcmd, g_handleattr_int, hkey, c_int_of_lt _ hlt]

/-- Witness for C10: page size 2048 and 64 pages per block give block size 131072. -/
theorem nand_strategy_getattr_witness :
    nand_strategy script_driver sample_reg 0
        { sample_bio bio_cmd_t.BIO_GETATTR 0 4 with bio_attribute := "NAND::blocksize" }
        (sample_dev [])
      = some ({ sample_bio bio_cmd_t.BIO_GETATTR 0 4 with
                  bio_attribute := "NAND::blocksize", bio_resid := 4,
                  bio_attr_val := some 131072, bio_done := 1 }, sample_dev []) :=
  (nand_strategy_getattr script_driver sample_reg 0
    { sample_bio bio_cmd_t.BIO_GETATTR 0 4 with bio_attribute := "NAND::blocksize" }
    (sample_dev []) rfl).2.1 rfl (by decide)

/-- C11: a request that is an attribute query whose key is none of the seven keys
of nand_strategy, or whose operation kind is none of read, write, delete and
attribute query, is completed once with error ENOTSUP, the error flag set and the
residual equal to the byte count; the device, and with it the hardware state and
any recorded bus trace, is returned as it was. For an unknown key the ENOIOCTL of
the attribute helper is replaced by ENOTSUP. -/
theorem nand_strategy_not_supported (drv : nand_driver σ) (reg : nandreg) (fuel : Nat)
    (bp : bio) (ndev : nand_device σ)
    (hreq : (bp.bio_cmd = bio_cmd_t.BIO_GETATTR
              ∧ bp.bio_attribute ∉ ["NAND::luncount", "NAND::blocksize", "NAND::blockcount",
                  "NAND::pagesize", "NAND::pagecount", "NAND::oobsize", "NAND::cellsize"])
            ∨ ∃ code, bp.bio_cmd = bio_cmd_t.BIO_OTHER code) :
    nand_strategy drv reg fuel bp ndev
      = some ({ bp with bio_resid := bp.bio_bcount, bio_error := ENOTSUP,
                        bio_flags := bp.bio_flags ||| BIO_ERROR,
                        bio_done := bp.bio_done + 1 }, ndev)
    ∧ (bp.bio_flags ||| BIO_ERROR) &&& BIO_ERROR = BIO_ERROR := by
  refine ⟨?_, error_flag_set _⟩
  rcases hreq with ⟨hc, hk⟩ | ⟨code, hc⟩
  · simp only [List.mem_cons, List.mem_singleton, not_or, List.not_mem_nil, or_false] at hk
    obtain ⟨h1, h2, h3, h4, h5, h6, h7⟩ := hk
    simp [nand_strategy, hc, g_handleattr_int, h1, h2, h3, h4, h5, h6, h7, biodone,
      error_flag_twice]
  · simp [nand_strategy, hc, biodone]

/-- Witness for C11: an attribute query for the unknown key NAND::wear on the
recording driver; the trace stays empty. -/
theorem nand_strategy_not_supported_witness :
    nand_strategy (traced script_driver) sample_reg 0
        { sample_bio bio_cmd_t.BIO_GETATTR 0 4 with bio_attribute := "NAND::wear" }
        (sample_dev ([], []))
      = some ({ sample_bio bio_cmd_t.BIO_GETATTR 0 4 with
                  bio_attribute := "NAND::wear", bio_resid := 4, bio_error := ENOTSUP,
                  bio_flags := 1, bio_done := 1 }, sample_dev ([], []))
    ∧ (0 ||| BIO_ERROR) &&& BIO_ERROR = BIO_ERROR :=
  nand_strategy_not_supported (traced script_driver) sample_reg 0
    { sample_bio bio_cmd_t.BIO_GETATTR 0 4 with bio_attribute := "NAND::wear" }
    (sample_dev ([], [])) (Or.inl ⟨rfl, by decide⟩)

/-- Counterexample to C12: a chip that answers the ids 0x12 0x34, which no catalog
entry carries. nand_probe returns ENODEV, yet the cell width of the device, 0
before the call, is 8 after it. -/
theorem nand_probe_no_match_cell_size :
    (nand_probe s3c24x0_nand_dri script_driver sample_reg (blank_dev [0x12, 0x34])).1 = ENODEV
    ∧ (blank_dev [0x12, 0x34] : nand_device (List Nat)).ndev_info.ndi_cell_size = 0
    ∧ (nand_probe s3c24x0_nand_dri script_driver sample_reg
        (blank_dev [0x12, 0x34])).2.ndev_info.ndi_cell_size = 8 := by
  decide

/-- C12 (amended): with the required capabilities present and a reset that
succeeds, let ids be the pair of bytes that nand_readid stores. If the catalog has
an entry for ids, nand_probe returns 0 and the device information is the first
such entry: every catalog entry in front of it differs in one of the two ids. If
the catalog has none, nand_probe returns ENODEV and the device information is the
old one except for the cell width, set to 8 before any bus activity, and the two
id fields, which hold the bytes read. -/
theorem nand_probe_lookup (caps : nand_driver_caps) (drv : nand_driver σ) (reg : nandreg)
    (ndev : nand_device σ)
    (hcaps : caps.ndri_command = true ∧ caps.ndri_address = true ∧ caps.ndri_read = true
      ∧ caps.ndri_read_8 = true ∧ caps.ndri_write = true)
    (hreset : (drv.nand_command reg.NAND_CMD_RESET ndev.hw).1 = 0) :
    let ids := (nand_readid drv reg
      { ndev with
        ndev_info := { ndev.ndev_info with ndi_cell_size := 8 },
        hw := (drv.nand_wait_rnb (drv.nand_command reg.NAND_CMD_RESET ndev.hw).2).2 }).2.ndev_info
    (∀ chip, first_match (nand_chips reg) ids.ndi_manf_id ids.ndi_dev_id = some chip →
        (nand_probe caps drv reg ndev).1 = 0
        ∧ (nand_probe caps drv reg ndev).2.ndev_info = chip
        ∧ ∃ before later, catalog (nand_chips reg) = before ++ chip :: later
            ∧ ∀ c ∈ before, ¬ (c.ndi_manf_id = ids.ndi_manf_id ∧ c.ndi_dev_id = ids.ndi_dev_id))
    ∧ ((∀ c ∈ catalog (nand_chips reg),
          ¬ (c.ndi_manf_id = ids.ndi_manf_id ∧ c.ndi_dev_id = ids.ndi_dev_id)) →
        (nand_probe caps drv reg ndev).1 = ENODEV
        ∧ (nand_probe caps drv reg ndev).2.ndev_info
            = { ndev.ndev_info with
                ndi_cell_size := 8, ndi_manf_id := ids.ndi_manf_id,
                ndi_dev_id := ids.ndi_dev_id }) := by
  intro ids
  have heq := probe_ok_eq (nand_chips reg) caps drv reg ndev hcaps hreset
  simp only at heq
  constructor
  · intro chip hchip
    unfold nand_probe
    rw [heq]
    have hchip' := hchip
    simp only [ids] at hchip'
    rw [hchip']
    refine ⟨rfl, rfl, ?_⟩
    unfold first_match at hchip
    obtain ⟨_, before, later, hsplit, hbefore⟩ := List.find?_eq_some.mp hchip
    refine ⟨before, later, hsplit, ?_⟩
    intro c hc
    rw [not_and_or]
    simpa using hbefore c hc
  · intro hnone
    have hfm : first_match (nand_chips reg) ids.ndi_manf_id ids.ndi_dev_id = none := by
      unfold first_match
      rw [List.find?_eq_none]
      intro c hc
      simpa using hnone c hc
    unfold nand_probe
    rw [heq]
    simp only [ids] at hfm
    rw [hfm]
    exact ⟨rfl, rfl⟩

/-- Witness for C12: the ids 0xEC 0x76 select the second catalog entry, the 64 MiB
part. -/
theorem nand_probe_lookup_witness :
    (nand_probe s3c24x0_nand_dri script_driver sample_reg (blank_dev [0xEC, 0x76])).1 = 0
    ∧ (nand_probe s3c24x0_nand_dri script_driver sample_reg
        (blank_dev [0xEC, 0x76])).2.ndev_info
      = { ndi_manf_id := 0xEC, ndi_dev_id := 0x76,
          ndi_spare_size := 16, ndi_page_size := 512, ndi_page_cnt := 32,
          ndi_block_cnt := 4096, ndi_lun_cnt := 1, ndi_cell_size := 8,
          ndi_column_cycles := 1, ndi_row_cycles := 3, ndi_read_start := 0,
          ndi_name := some "Samsung 64MiB 8bit Nand Flash" }
    ∧ ∃ before later,
        catalog (nand_chips sample_reg)
          = before ++
        { ndi_manf_id := 0xEC, ndi_dev_id := 0x76,
          ndi_spare_size := 16, ndi_page_size := 512, ndi_page_cnt := 32,
          ndi_block_cnt := 4096, ndi_lun_cnt := 1, ndi_cell_size := 8,
          ndi_column_cycles := 1, ndi_row_cycles := 3, ndi_read_start := 0,
          ndi_name := some "Samsung 64MiB 8bit Nand Flash" } :: later
        ∧ ∀ c ∈ before, ¬ (c.ndi_manf_id = 0xEC ∧ c.ndi_dev_id = 0x76) :=
  (nand_probe_lookup s3c24x0_nand_dri script_driver sample_reg (blank_dev [0xEC, 0x76])
    ⟨rfl, rfl, rfl, rfl, rfl⟩ rfl).1 _ (by decide)

/-- C13 (the code departs from the claim): on a backend whose read-id command,
identification address cycle and both single-byte reads return EIO, nand_probe
returns 0 and takes the first catalog entry from the bytes it read. nand_readid
drops every return code of the bus and returns 0, so the test of its result in
nand_probe never fires. Each operation of the sequence is issued once. -/
theorem nand_probe_ignores_readid_errors :
    (faulty_driver.nand_command sample_reg.NAND_CMD_READID [0xEC, 0xDA]).1 = EIO
    ∧ (faulty_driver.nand_address sample_reg.NAND_READID_MANFID [0xEC, 0xDA]).1 = EIO
    ∧ (faulty_driver.nand_read_8 [0xEC, 0xDA]).1 = EIO
    ∧ (faulty_driver.nand_read_8 [0xDA]).1 = EIO
    ∧ nand_probe s3c24x0_nand_dri (traced faulty_driver) sample_reg
        (blank_dev ([], [0xEC, 0xDA]))
      = (0,
          { blank_dev
              ([bus_op.command 0xFF, bus_op.wait_rnb, bus_op.select true, bus_op.command 0x90,
                bus_op.address 0x00, bus_op.read_8, bus_op.read_8, bus_op.select false], [])
            with ndev_info :=
              { ndi_manf_id := 0xEC, ndi_dev_id := 0xDA, ndi_spare_size := 64,
                ndi_page_size := 2048, ndi_page_cnt := 64, ndi_block_cnt := 2048,
                ndi_lun_cnt := 1, ndi_cell_size := 8, ndi_column_cycles := 2,
                ndi_row_cycles := 3, ndi_read_start := 1,
                ndi_name := some "Samsung 256MiB 8bit Nand Flash" } }) := by
  decide

/-- C14: let the chip, from the state after the closing command of a block erase
or of a page program, return status bytes of which the k-th (from 0) is the first
with the ready bit set, within the fuel. Then nand_erase_data and nand_write_data
return, with EIO if that k-th byte has the fail bit set and 0 otherwise, in the
hardware state after exactly k + 1 status reads; on the recording driver n status
reads append n pairs of a status-read command and a single-byte read. -/
theorem nand_status_poll_result (drv : nand_driver σ) (reg : nandreg) (fuel : Nat)
    (ndev : nand_device σ) :
    (∀ (block k : Nat), k ≤ fuel →
      (∀ i, i < k →
        status_byte drv reg
          (drv.nand_command reg.NAND_CMD_PROGRAM_END
            (nand_write_address drv ndev.ndev_info block false
              (drv.nand_command reg.NAND_CMD_ERASE ndev.hw).2)).2 i
          &&& reg.NAND_STATUS_RDY = 0) →
      status_byte drv reg
          (drv.nand_command reg.NAND_CMD_PROGRAM_END
            (nand_write_address drv ndev.ndev_info block false
              (drv.nand_command reg.NAND_CMD_ERASE ndev.hw).2)).2 k
          &&& reg.NAND_STATUS_RDY ≠ 0 →
      nand_erase_data drv reg fuel ndev block
        = some
            (if status_byte drv reg
                (drv.nand_command reg.NAND_CMD_PROGRAM_END
                  (nand_write_address drv ndev.ndev_info block false
                    (drv.nand_command reg.NAND_CMD_ERASE ndev.hw).2)).2 k
                &&& reg.NAND_STATUS_FAIL = reg.NAND_STATUS_FAIL then EIO else 0,
              { ndev with
                hw := status_after drv reg (k + 1)
                  (drv.nand_command reg.NAND_CMD_PROGRAM_END
                    (nand_write_address drv ndev.ndev_info block false
                      (drv.nand_command reg.NAND_CMD_ERASE ndev.hw).2)).2 }))
    ∧ (∀ (page : Nat) (data : List Nat) (base k : Nat), k ≤ fuel →
      (∀ i, i < k →
        status_byte drv reg
          (drv.nand_command reg.NAND_CMD_PROGRAM_END
            (nand_rw_data drv
              { ndev with
                hw := nand_write_address drv ndev.ndev_info page true
                  (drv.nand_command reg.NAND_CMD_PROGRAM ndev.hw).2 }
              data base false).2.1.hw).2 i
          &&& reg.NAND_STATUS_RDY = 0) →
      status_byte drv reg
          (drv.nand_command reg.NAND_CMD_PROGRAM_END
            (nand_rw_data drv
              { ndev with
                hw := nand_write_address drv ndev.ndev_info page true
                  (drv.nand_command reg.NAND_CMD_PROGRAM ndev.hw).2 }
              data base false).2.1.hw).2 k
          &&& reg.NAND_STATUS_RDY ≠ 0 →
      ∃ r, nand_write_data drv reg fuel ndev page data base = some r
        ∧ r.1 = (if status_byte drv reg
                (drv.nand_command reg.NAND_CMD_PROGRAM_END
                  (nand_rw_data drv
                    { ndev with
                      hw := nand_write_address drv ndev.ndev_info page true
                        (drv.nand_command reg.NAND_CMD_PROGRAM ndev.hw).2 }
                    data base false).2.1.hw).2 k
                &&& reg.NAND_STATUS_FAIL = reg.NAND_STATUS_FAIL then EIO else 0)
        ∧ r.2.1.hw = status_after drv reg (k + 1)
            (drv.nand_command reg.NAND_CMD_PROGRAM_END
              (nand_rw_data drv
                { ndev with
                  hw := nand_write_address drv ndev.ndev_info page true
                    (drv.nand_command reg.NAND_CMD_PROGRAM ndev.hw).2 }
                data base false).2.1.hw).2)
    ∧ (∀ (n : Nat) (s : List bus_op × σ),
        (status_after (traced drv) reg n s).1 = s.1 ++ poll_trace reg n) := by
  refine ⟨?_, ?_, status_after_trace drv reg⟩
  · intro block k hk hbusy hready
    unfold nand_erase_data
    simp only
    rw [wait_status_first_ready drv reg k fuel _ hk hbusy hready]
    simp only
    split <;> rfl
  · intro page data base k hk hbusy hready
    unfold nand_write_data
    simp only
    rw [wait_status_first_ready drv reg k fuel _ hk hbusy hready]
    simp only
    split
    · rename_i h
      refine ⟨_, rfl, ?_, rfl⟩
      simp only [h, if_true]
    · rename_i h
      refine ⟨_, rfl, ?_, rfl⟩
      simp only [h, if_false]

/-- Witness for C14: the chip answers 0x00, 0x00, 0x41 to the status reads of a
block erase; the third byte is ready with the fail bit set, the result is EIO and
all three bytes are consumed. -/
theorem nand_status_poll_result_witness :
    nand_erase_data script_driver sample_reg 5 (tiny_dev [0x00, 0x00, 0x41]) 1
      = some ( EIO, tiny_dev []) :=
  (nand_status_poll_result script_driver sample_reg 5 (tiny_dev [0x00, 0x00, 0x41])).1 1 2
    (by decide) (by decide) (by decide)

/-- C16: for every kernel and device state, nand_detach returns 0 and leaves the
disk handle and the three buffers unset; a second nand_detach returns 0 and
changes neither the device state nor the kernel state, so it makes no resource
call. Across both calls the resource calls added to the log hold at most one
disk_destroy and at most three frees. -/
theorem nand_detach_idempotent (k : kernel) (sc : nand_softc σ) :
    (nand_detach k sc).1 = 0
    ∧ (nand_detach k sc).2.2.ndev_disk = none
    ∧ (nand_detach k sc).2.2.ndev.ndev_oob = none
    ∧ (nand_detach k sc).2.2.ndev.ndev_calc_ecc = none
    ∧ (nand_detach k sc).2.2.ndev.ndev_read_ecc = none
    ∧ (nand_detach (nand_detach k sc).2.1 (nand_detach k sc).2.2).1 = 0
    ∧ (nand_detach (nand_detach k sc).2.1 (nand_detach k sc).2.2).2.2 = (nand_detach k sc).2.2
    ∧ (nand_detach (nand_detach k sc).2.1 (nand_detach k sc).2.2).2.1 = (nand_detach k sc).2.1
    ∧ ∃ l, (nand_detach (nand_detach k sc).2.1 (nand_detach k sc).2.2).2.1.log = k.log ++ l
        ∧ (l.filter kern_op.is_disk_destroy).length ≤ 1
        ∧ (l.filter kern_op.is_free).length ≤ 3 := by
  refine ⟨rfl, rfl, rfl, rfl, rfl, rfl, rfl, rfl, ?_⟩
  refine ⟨sc.ndev_disk.toList.map kern_op.disk_destroy
      ++ sc.ndev.ndev_oob.toList.map kern_op.free
      ++ sc.ndev.ndev_calc_ecc.toList.map kern_op.free
      ++ sc.ndev.ndev_read_ecc.toList.map kern_op.free, ?_, ?_, ?_⟩
  · obtain ⟨⟨info, ecc, oob, calc_ecc, read_ecc, hw⟩, dk⟩ := sc
    cases dk <;> cases oob <;> cases calc_ecc <;> cases read_ecc <;>
      simp [nand_detach, kern_free]
  · obtain ⟨⟨info, ecc, oob, calc_ecc, read_ecc, hw⟩, dk⟩ := sc
    cases dk <;> cases oob <;> cases calc_ecc <;> cases read_ecc <;>
      simp [kern_op.is_disk_destroy, List.filter]
  · obtain ⟨⟨info, ecc, oob, calc_ecc, read_ecc, hw⟩, dk⟩ := sc
    cases dk <;> cases oob <;> cases calc_ecc <;> cases read_ecc <;>
      simp [kern_op.is_free, List.filter]

/-- C17: for every backend and device, when nand_probe returns 0 the page size,
spare size and pages per block of the device are positive and its cell width is
8; and every entry of the chip catalog has positive page size, spare size and
pages per block and cell width 8. -/
theorem nand_probe_geometry_positive (reg : nandreg) :
    (∀ (σ : Type) (caps : nand_driver_caps) (drv : nand_driver σ) (ndev : nand_device σ),
      (nand_probe caps drv reg ndev).1 = 0 →
        0 < (nand_probe caps drv reg ndev).2.ndev_info.ndi_page_size
        ∧ 0 < (nand_probe caps drv reg ndev).2.ndev_info.ndi_spare_size
        ∧ 0 < (nand_probe caps drv reg ndev).2.ndev_info.ndi_page_cnt
        ∧ (nand_probe caps drv reg ndev).2.ndev_info.ndi_cell_size = 8)
    ∧ (∀ chip ∈ catalog (nand_chips reg),
        0 < chip.ndi_page_size ∧ 0 < chip.ndi_spare_size ∧ 0 < chip.ndi_page_cnt
        ∧ chip.ndi_cell_size = 8) := by
  have hcat : ∀ chip ∈ catalog (nand_chips reg),
      0 < chip.ndi_page_size ∧ 0 < chip.ndi_spare_size ∧ 0 < chip.ndi_page_cnt
      ∧ chip.ndi_cell_size = 8 := by
    intro chip hchip
    rw [catalog_nand_chips] at hchip
    simp only [nand_chips, List.take_succ_cons, List.take_zero, List.mem_cons,
      List.mem_singleton, List.not_mem_nil, or_false] at hchip
    rcases hchip with h | h | h <;> subst h <;> simp
  refine ⟨?_, hcat⟩
  intro σ caps drv ndev h0
  by_cases hc : caps.ndri_command = false ∨ caps.ndri_address = false ∨ caps.ndri_read = false
      ∨ caps.ndri_read_8 = false ∨ caps.ndri_write = false
  · unfold nand_probe nand_probe_in at h0
    rw [if_pos hc] at h0
    simp [EDOOFUS] at h0
  · have hcaps : caps.ndri_command = true ∧ caps.ndri_address = true ∧ caps.ndri_read = true
        ∧ caps.ndri_read_8 = true ∧ caps.ndri_write = true := by
      simpa [not_or] using hc
    by_cases hr : (drv.nand_command reg.NAND_CMD_RESET ndev.hw).1 = 0
    · have heq := probe_ok_eq (nand_chips reg) caps drv reg ndev hcaps hr
      unfold nand_probe at h0 ⊢
      revert h0
      rw [heq]
      simp only
      split
      · rename_i chip hchip
        intro _
        exact hcat chip (List.mem_of_find?_eq_some hchip)
      · intro h0
        simp [ENODEV] at h0
    · unfold nand_probe nand_probe_in at h0
      simp [hc, hr, EIO] at h0

/-- Witness for C17: probing a chip that answers the ids 0xEC 0xDA. -/
theorem nand_probe_geometry_positive_witness :
    0 < (nand_probe s3c24x0_nand_dri script_driver sample_reg
          (blank_dev [0xEC, 0xDA])).2.ndev_info.ndi_page_size
    ∧ 0 < (nand_probe s3c24x0_nand_dri script_driver sample_reg
          (blank_dev [0xEC, 0xDA])).2.ndev_info.ndi_spare_size
    ∧ 0 < (nand_probe s3c24x0_nand_dri script_driver sample_reg
          (blank_dev [0xEC, 0xDA])).2.ndev_info.ndi_page_cnt
    ∧ (nand_probe s3c24x0_nand_dri script_driver sample_reg
          (blank_dev [0xEC, 0xDA])).2.ndev_info.ndi_cell_size = 8 :=
  (nand_probe_geometry_positive sample_reg).1 (List Nat) s3c24x0_nand_dri script_driver
    (blank_dev [0xEC, 0xDA]) (by decide)

/-- C18: when the function table of the backend lacks the command, address, bulk
read, single-byte read or bulk write entry, nand_probe returns EDOOFUS and the
device, with its hardware state and any recorded bus trace, is returned as it
was. -/
theorem nand_probe_missing_capability (caps : nand_driver_caps) (drv : nand_driver σ)
    (reg : nandreg) (ndev : nand_device σ)
    (h : caps.ndri_command = false ∨ caps.ndri_address = false ∨ caps.ndri_read = false
      ∨ caps.ndri_read_8 = false ∨ caps.ndri_write = false) :
    nand_probe caps drv reg ndev = ( EDOOFUS, ndev) := by
  unfold nand_probe nand_probe_in
  rw [if_pos h]

/-- Witness for C18: the table of the S3C24x0 backend without its single-byte
read, on the recording driver; the trace stays empty. -/
theorem nand_probe_missing_capability_witness :
    nand_probe { s3c24x0_nand_dri with ndri_read_8 := false } (traced script_driver) sample_reg
        (blank_dev ([], [0xEC, 0xDA]))
      = ( EDOOFUS, blank_dev ([], [0xEC, 0xDA])) :=
  nand_probe_missing_capability { s3c24x0_nand_dri with ndri_read_8 := false }
    (traced script_driver) sample_reg (blank_dev ([], [0xEC, 0xDA]))
    (Or.inr (Or.inr (Or.inr (Or.inl rfl))))

/-- Counterexample to C19: the descriptor dup_ecc lists the OOB offsets 0, 1, 1,
all smaller than the spare size 4. Writing the page 1 2 3 4 computes the ECC
10 4 0xA5 and transfers the OOB bytes 10 0xA5 0xFF 0xFF: the byte at offset
ecc_pos[1] = 1 is 0xA5, not the computed ECC byte 4 of index 1. -/
theorem nand_rw_data_write_oob_duplicate_offsets :
    (∀ j, j < dup_ecc.ecc_size → dup_ecc.ecc_pos.getD j 0 < 4)
    ∧ (nand_rw_data (traced (chip_driver sum_ecc))
        (dup_dev ([], { cells := List.replicate 8 0xFF, cursor := 0, seen := [] }))
        [1, 2, 3, 4] 0 false).2.1.hw.1
      = [bus_op.init_ecc, bus_op.write 4 [1, 2, 3, 4], bus_op.calc_ecc,
          bus_op.write 4 [10, 0xA5, 0xFF, 0xFF]]
    ∧ (nand_rw_data (traced (chip_driver sum_ecc))
        (dup_dev ([], { cells := List.replicate 8 0xFF, cursor := 0, seen := [] }))
        [1, 2, 3, 4] 0 false).2.1.ndev_calc_ecc = some [10, 4, 0xA5]
    ∧ [10, 0xA5, 0xFF, 0xFF].getD (dup_ecc.ecc_pos.getD 1 0) 0 ≠ [10, 4, 0xA5].getD 1 0 := by
  refine ⟨by decide, ?_, ?_, by decide⟩
  · simp [nand_rw_data, nand_rw_xfer_eq, nand_rw_ecc, nand_rw_ecc_copy, dup_dev, dup_ecc,
      tiny_info, traced, chip_driver, sum_ecc, slice, blit, buf_get, buf_set]
  · simp [nand_rw_data, nand_rw_xfer_eq, nand_rw_ecc, nand_rw_ecc_copy, dup_dev, dup_ecc,
      tiny_info, traced, chip_driver, sum_ecc, slice, blit, buf_get, buf_set]

/-- C19 (amended): a page write with positive page size and an OOB buffer of
spare_size bytes, on the recording driver over any backend. With an ECC
descriptor whose offsets are pairwise distinct and smaller than the spare size,
the bus sees the ECC initialisation, one data transfer, the ECC computation and
then one OOB transfer of spare_size bytes, which hold the i-th computed ECC byte
at offset ecc_pos[i] for each i < ecc_size and 0xFF at every other offset. With
no computed-ECC buffer the OOB transfer follows the data transfer and carries
spare_size bytes 0xFF. -/
theorem nand_rw_data_write_oob_layout (drv : nand_driver σ)
    (ndev : nand_device (List bus_op × σ)) (data : List Nat) (base : Nat) (o : List Nat)
    (hps : 0 < ndev.ndev_info.ndi_page_size)
    (ho : ndev.ndev_oob = some o) (hol : o.length = ndev.ndev_info.ndi_spare_size) :
    (∀ (e : nand_ecc_data) (c : List Nat),
      ndev.ndev_ecc = some e → ndev.ndev_calc_ecc = some c →
      (∀ j, j < e.ecc_size → e.ecc_pos.getD j 0 < ndev.ndev_info.ndi_spare_size) →
      (∀ j k, j < e.ecc_size → k < e.ecc_size → j ≠ k →
        e.ecc_pos.getD j 0 ≠ e.ecc_pos.getD k 0) →
      ∃ oob,
        (nand_rw_data (traced drv) ndev data base false).2.1.hw.1
          = ndev.hw.1 ++ [bus_op.init_ecc,
              bus_op.write ndev.ndev_info.ndi_page_size
                (slice data base ndev.ndev_info.ndi_page_size),
              bus_op.calc_ecc, bus_op.write ndev.ndev_info.ndi_spare_size oob]
        ∧ oob.length = ndev.ndev_info.ndi_spare_size
        ∧ (∀ j, j < e.ecc_size →
            oob.getD (e.ecc_pos.getD j 0) 0
              = buf_get (nand_rw_data (traced drv) ndev data base false).2.1.ndev_calc_ecc j)
        ∧ (∀ q, q < ndev.ndev_info.ndi_spare_size →
            (∀ j, j < e.ecc_size → e.ecc_pos.getD j 0 ≠ q) → oob.getD q 0 = 0xFF))
    ∧ (ndev.ndev_calc_ecc = none →
        (nand_rw_data (traced drv) ndev data base false).2.1.hw.1
          = ndev.hw.1 ++ [bus_op.init_ecc,
              bus_op.write ndev.ndev_info.ndi_page_size
                (slice data base ndev.ndev_info.ndi_page_size),
              bus_op.write ndev.ndev_info.ndi_spare_size
                (List.replicate ndev.ndev_info.ndi_spare_size 0xFF)]) := by
  constructor
  · intro e c hecc hc hlt hinj
    obtain ⟨o1, h1, h2, h3, h4⟩ :=
      rw_data_write_oob (traced drv) ndev data base e c o hps hecc hc ho hol hlt hinj
    refine ⟨o1, ?_, h2, ?_, h4⟩
    · rw [h1]
      simp only [traced_init_ecc, traced_write, traced_calc_ecc, List.append_assoc,
        List.singleton_append, List.cons_append, List.nil_append]
    · intro j hj
      rw [h1]
      simp only [buf_get, Option.getD_some]
      exact h3 j hj
  · intro hc
    rw [rw_data_write_plain _ _ _ _ hps hc]
    simp only [traced_init_ecc, traced_write, ho, Option.map_some', Option.getD_some,
      List.append_assoc, List.singleton_append,
      blit_zero_full _ _ (by rw [List.length_replicate, hol] :
        (List.replicate ndev.ndev_info.ndi_spare_size 255).length = o.length)]
    have : slice (List.replicate ndev.ndev_info.ndi_spare_size 255) 0
        ndev.ndev_info.ndi_spare_size = List.replicate ndev.ndev_info.ndi_spare_size 255 := by
      simp [slice]
    rw [this]
    simp

/-- Witness for C19: the page 1 2 3 4 on the chip model with the S3C2410
descriptor (offsets 0, 1, 2) and 4 spare bytes. -/
theorem nand_rw_data_write_oob_layout_witness :
    ∃ oob,
      (nand_rw_data (traced (chip_driver sum_ecc))
          (chip_dev_on ([], { cells := List.replicate 8 0xFF, cursor := 0, seen := [] }))
          [1, 2, 3, 4] 0 false).2.1.hw.1
        = [] ++ [bus_op.init_ecc, bus_op.write 4 (slice [1, 2, 3, 4] 0 4),
            bus_op.calc_ecc, bus_op.write 4 oob]
      ∧ oob.length = 4
      ∧ (∀ j, j < 3 →
          oob.getD ([0, 1, 2].getD j 0) 0
            = buf_get (nand_rw_data (traced (chip_driver sum_ecc))
                (chip_dev_on ([], { cells := List.replicate 8 0xFF, cursor := 0, seen := [] }))
                [1, 2, 3, 4] 0 false).2.1.ndev_calc_ecc j)
      ∧ (∀ q, q < 4 → (∀ j, j < 3 → [0, 1, 2].getD j 0 ≠ q) → oob.getD q 0 = 0xFF) :=
  (nand_rw_data_write_oob_layout (chip_driver sum_ecc)
    (chip_dev_on ([], { cells := List.replicate 8 0xFF, cursor := 0, seen := [] }))
    [1, 2, 3, 4] 0 [0, 0, 0, 0] (by decide) rfl rfl).1 s3c2410_nand_ecc [0, 0, 0] rfl rfl
    (by decide)
    (by
      intro j k hj hk
      have hj3 : j < 3 := hj
      have hk3 : k < 3 := hk
      interval_cases j <;> interval_cases k <;> simp [s3c2410_nand_ecc])

/-- C21 (the code departs from the claim): for every device an attribute query
for the key NAND::pagecount is answered with the page size (as a C int), the same
value as the key NAND::pagesize, and not with the number of pages per block. On
the sample device (page size 2048, 64 pages per block) the answer is 2048. -/
theorem nand_strategy_getattr_pagecount (drv : nand_driver σ) (reg : nandreg) (fuel : Nat)
    (bp : bio) (ndev : nand_device σ) :
    nand_strategy drv reg fuel
        { bp with bio_cmd := bio_cmd_t.BIO_GETATTR, bio_attribute := "NAND::pagecount" } ndev
      = some ({ bp with bio_cmd := bio_cmd_t.BIO_GETATTR, bio_attribute := "NAND::pagecount",
                        bio_resid := bp.bio_bcount,
                        bio_attr_val := some (c_int ndev.ndev_info.ndi_page_size),
                        bio_done := bp.bio_done + 1 }, ndev)
    ∧ nand_strategy script_driver sample_reg 0
        { sample_bio bio_cmd_t.BIO_GETATTR 0 4 with bio_attribute := "NAND::pagecount" }
        (sample_dev [])
      = some ({ sample_bio bio_cmd_t.BIO_GETATTR 0 4 with
                  bio_attribute := "NAND::pagecount", bio_resid := 4,
                  bio_attr_val := some 2048, bio_done := 1 }, sample_dev [])
    ∧ (sample_dev ([] : List Nat)).ndev_info.ndi_page_size = 2048
    ∧ (sample_dev ([] : List Nat)).ndev_info.ndi_page_cnt = 64 := by
  refine ⟨?_, rfl, rfl, rfl⟩
  simp [nand_strategy, g_handleattr_int]

/-- C22: for every page size, zero included, and every ECC configuration, both
stride loops of nand_rw_data return. nand_rw_data enters them at position 0 with
the stride rw_stride, which is at most the page size (it is the protect length,
possibly 0 or not a divisor of the page size, when that is shorter). From there
the transfer loop makes, for a positive page size, exactly one bulk transfer of
page_size bytes at position 0 of the page buffer and stops, and the correction
loop makes exactly one correction call on the slice of page_size bytes at position
0; for page size 0 neither loop does anything. On the recording driver a page
read or write moves page_size + spare_size bytes in all, the page in one transfer
and the spare area in another, and the correction calls of a read are given
page_size bytes in all when the computed-ECC buffer is present and none
otherwise. -/
theorem nand_rw_data_stride_loops (drv : nand_driver σ) (ndev : nand_device σ)
    (tdev : nand_device (List bus_op × σ)) (data : List Nat) (base : Nat) :
    rw_stride ndev ≤ ndev.ndev_info.ndi_page_size
    ∧ (∀ (read : Bool) (ecc_stride : Nat) (hw : σ) (calc_ecc : Option (List Nat)),
        nand_rw_xfer drv read ndev.ndev_info.ndi_page_size base ecc_stride 0 0 (rw_stride ndev)
            hw calc_ecc data
          = if 0 < ndev.ndev_info.ndi_page_size then
              let hw1 := (drv.nand_init_ecc hw).2
              let rd := drv.nand_read ndev.ndev_info.ndi_page_size hw1
              let hw2 :=
                if read then rd.2.2
                else (drv.nand_write ndev.ndev_info.ndi_page_size
                  (slice data base ndev.ndev_info.ndi_page_size) hw1).2
              let data2 := if read then blit data base rd.2.1 else data
              let ce := drv.nand_calc_ecc hw2
              (if calc_ecc.isSome then ce.2.2 else hw2,
                calc_ecc.map (fun c => blit c 0 ce.2.1), data2)
            else (hw, calc_ecc, data))
    ∧ (∀ (ecc_stride : Nat) (calc_ecc read_ecc : List Nat) (hw : σ),
        nand_rw_fix drv ndev.ndev_info.ndi_page_size base ecc_stride calc_ecc read_ecc 0 0
            (rw_stride ndev) hw data
          = if 0 < ndev.ndev_info.ndi_page_size then
              let r := drv.nand_fix_data ndev.ndev_info.ndi_page_size
                (slice data base ndev.ndev_info.ndi_page_size) calc_ecc read_ecc hw
              (r.1, r.2.2, blit data base r.2.1)
            else (0, hw, data))
    ∧ (nand_rw_data (traced drv) tdev data base true).2.1.hw.1
        = tdev.hw.1
          ++ (if 0 < tdev.ndev_info.ndi_page_size then
                [bus_op.init_ecc, bus_op.read tdev.ndev_info.ndi_page_size]
                  ++ (if tdev.ndev_calc_ecc.isSome then [bus_op.calc_ecc] else [])
              else [])
          ++ [bus_op.read tdev.ndev_info.ndi_spare_size]
          ++ (if tdev.ndev_calc_ecc.isSome ∧ 0 < tdev.ndev_info.ndi_page_size then
                [bus_op.fix_data tdev.ndev_info.ndi_page_size]
              else [])
    ∧ (nand_rw_data (traced drv) tdev data base false).2.1.hw.1
        = tdev.hw.1
          ++ (if 0 < tdev.ndev_info.ndi_page_size then
                [bus_op.init_ecc,
                  bus_op.write tdev.ndev_info.ndi_page_size
                    (slice data base tdev.ndev_info.ndi_page_size)]
                  ++ (if tdev.ndev_calc_ecc.isSome then [bus_op.calc_ecc] else [])
              else [])
          ++ [bus_op.write tdev.ndev_info.ndi_spare_size
                (slice ((nand_rw_data (traced drv) tdev data base false).2.1.ndev_oob.getD []) 0
                  tdev.ndev_info.ndi_spare_size)]
    ∧ ((((nand_rw_data (traced drv) tdev data base true).2.1.hw.1).drop
          tdev.hw.1.length).map bus_op.xfer_len).sum
        = tdev.ndev_info.ndi_page_size + tdev.ndev_info.ndi_spare_size
    ∧ ((((nand_rw_data (traced drv) tdev data base false).2.1.hw.1).drop
          tdev.hw.1.length).map bus_op.xfer_len).sum
        = tdev.ndev_info.ndi_page_size + tdev.ndev_info.ndi_spare_size
    ∧ ((((nand_rw_data (traced drv) tdev data base true).2.1.hw.1).drop
          tdev.hw.1.length).map bus_op.fix_len).sum
        = (if tdev.ndev_calc_ecc.isSome then tdev.ndev_info.ndi_page_size else 0) := by
  refine ⟨rw_stride_le ndev, ?_, ?_, rw_data_read_trace_all drv tdev data base,
    rw_data_write_trace_all drv tdev data base, ?_, ?_, ?_⟩
  · intro read ecc_stride hw calc_ecc
    exact rw_xfer_first drv read _ base ecc_stride _ (rw_stride_le ndev) hw calc_ecc data
  · intro ecc_stride calc_ecc read_ecc hw
    exact rw_fix_first drv _ base ecc_stride _ (rw_stride_le ndev) calc_ecc read_ecc hw data
  · rw [rw_data_read_trace_all]
    simp only [List.append_assoc, List.drop_left]
    by_cases hps : 0 < tdev.ndev_info.ndi_page_size <;>
      cases tdev.ndev_calc_ecc <;> (simp [hps, bus_op.xfer_len]; try omega)
  · rw [rw_data_write_trace_all]
    simp only [List.append_assoc, List.drop_left]
    by_cases hps : 0 < tdev.ndev_info.ndi_page_size <;>
      cases tdev.ndev_calc_ecc <;> (simp [hps, bus_op.xfer_len]; try omega)
  · rw [rw_data_read_trace_all]
    simp only [List.append_assoc, List.drop_left]
    by_cases hps : 0 < tdev.ndev_info.ndi_page_size <;>
      cases tdev.ndev_calc_ecc <;> (simp [hps, bus_op.fix_len]; try omega)

/-- Witness for C22: a page of 4 bytes with a protect length of 3 bytes; the stride
is 3, and the read makes one data transfer of 4 bytes and one correction call over
4 bytes. -/
theorem nand_rw_data_stride_loops_witness :
    (nand_rw_data (traced (chip_driver sum_ecc))
        (odd_dev ([], { cells := [1, 2, 3, 4, 0, 0, 0, 0], cursor := 0, seen := [] }))
        [0, 0, 0, 0] 0 true).2.1.hw.1
      = [bus_op.init_ecc, bus_op.read 4, bus_op.calc_ecc, bus_op.read 4, bus_op.fix_data 4]
    ∧ rw_stride (odd_dev ([] : List bus_op)) = 3 :=
  ⟨((nand_rw_data_stride_loops (chip_driver sum_ecc)
      (odd_dev { cells := [1, 2, 3, 4, 0, 0, 0, 0], cursor := 0, seen := [] })
      (odd_dev ([], { cells := [1, 2, 3, 4, 0, 0, 0, 0], cursor := 0, seen := [] }))
      [0, 0, 0, 0] 0).2.2.2.1).trans (by decide), by decide⟩
end Claims

end Nand
